import Mathlib

/-!
Attendance system: the authentication middleware, registration, the
attendance ledger, the user deletion cascade, the class routes, the
class-scoped listings and create routes, the marks routes and the upload
middleware of `server.js`, and the hours-worked helper of `public/script.js`.

Every table is a list of rows kept in rowid order.  Every route handler is a
function from the store, the verified token claims (`req.user`), the request
parameters and body, the clock readings taken by the handler and the outcome
of each SQL statement (`err` set or not) to the JSON response and the store
afterwards.
-/

namespace AttendanceSystem

/-! ## Data model -/

/-- Row of the `attendance` table (`CREATE TABLE attendance`, server.js 77-87).
Nullable columns are options. -/
structure AttendanceRow where
  id : Nat
  user_id : Nat
  date : String
  check_in : Option String
  check_out : Option String
  status : Option String
  notes : Option String
  created_at : Option String
deriving DecidableEq

/-- Row of the `users` table (`CREATE TABLE users`, server.js 62-74). -/
structure User where
  id : Nat
  username : String
  email : String
  password : String
  role : Option String
  class_id : Option Nat
  first_name : Option String
  last_name : Option String
  student_id : Option String
  created_at : Option String
deriving DecidableEq

/-- Row of the `study_materials` table (server.js 100-111). -/
structure StudyMaterial where
  id : Nat
  title : String
  description : Option String
  file_path : Option String
  file_type : Option String
  class_id : Option Nat
  uploaded_by : Option Nat
  created_at : Option String
deriving DecidableEq

/-- Row of the `notices` table (server.js 114-124). -/
structure Notice where
  id : Nat
  title : String
  content : String
  class_id : Option Nat
  created_by : Option Nat
  priority : Option String
  created_at : Option String
deriving DecidableEq

/-- Row of the `events` table (server.js 127-139). -/
structure Event where
  id : Nat
  title : String
  description : Option String
  event_type : Option String
  class_id : Option Nat
  event_date : String
  event_time : Option String
  created_by : Option Nat
  created_at : Option String
deriving DecidableEq

/-- Row of the `student_marks` table (server.js 142-155). -/
structure StudentMark where
  id : Nat
  student_id : Nat
  subject : String
  exam_type : String
  marks_obtained : Int
  total_marks : Int
  class_id : Option Nat
  created_by : Option Nat
  created_at : Option String
deriving DecidableEq

/-- Row of the `classes` table (server.js 90-97). -/
structure ClassRow where
  id : Nat
  name : String
  description : Option String
  teacher_id : Option Nat
  created_at : Option String
deriving DecidableEq

/-- The persistent store: the rows of each table in rowid order, the
`sqlite_sequence` counter that `AUTOINCREMENT` keeps for a table rows are
inserted into, and the paths of the files in the uploads directory. -/
structure Store where
  attendance : List AttendanceRow
  attendance_seq : Nat
  users : List User := []
  study_materials : List StudyMaterial := []
  study_materials_seq : Nat := 0
  notices : List Notice := []
  notices_seq : Nat := 0
  events : List Event := []
  events_seq : Nat := 0
  student_marks : List StudentMark := []
  student_marks_seq : Nat := 0
  uploads : List String := []
  users_seq : Nat := 0
  classes : List ClassRow := []
  classes_seq : Nat := 0
deriving DecidableEq

/-- Claims carried by a verified token (`req.user`): `id`, `username`, `email`
and `role`, as signed at login or registration. -/
structure Principal where
  id : Nat
  username : String
  email : String
  role : String
deriving DecidableEq

/-- Clock readings of one request: `today` is
`new Date().toISOString().split('T')[0]`, `now` is
`new Date().toTimeString().split(' ')[0]`, and `timestamp` is the value SQLite
gives `CURRENT_TIMESTAMP` when a row is inserted. -/
structure Clock where
  today : String
  now : String
  timestamp : String
deriving DecidableEq

/-- Outcome of the SQL statements of one request: `getErr` is whether the
callback of the query (`db.get` or `db.all`) receives `err`, `runErr` whether
the `db.run` callback does, and `runErr2` whether the callback of the second
`db.run` does in a handler that runs two.  A statement that reports an error
changes no row. -/
structure Faults where
  getErr : Bool
  runErr : Bool
  runErr2 : Bool := false
deriving DecidableEq

/-- All statements succeed. -/
def Faults.none : Faults := { getErr := false, runErr := false }

/-- A row of a listing that joins `users`: the columns of the listed table and
the `first_name` and `last_name` of the joined user under their aliases
(`uploaded_by_name`, `created_by_name` and so on), `NULL` when no user is
joined. -/
structure WithUserName (α : Type) where
  row : α
  name : Option String
  last_name : Option String
deriving DecidableEq

/-- A row of the class attendance listing: `a.*` and the `first_name`,
`last_name` and `student_id` of the joined user. -/
structure ClassAttendanceRow where
  attendance : AttendanceRow
  first_name : Option String
  last_name : Option String
  student_id : Option String
deriving DecidableEq

/-- What a handler sends back. -/
inductive Response where
  /-- The `res.status(code).json({ error })` responses. -/
  | error (code : Nat) (error : String)
  /-- The `res.json({ message, attendanceId })` response of check-in. -/
  | checkedIn (message : String) (attendanceId : Nat)
  /-- The `res.json({ message })` responses. -/
  | message (message : String)
  /-- The `res.json({ attendance })` response, `none` standing for `null`. -/
  | attendance (attendance : Option AttendanceRow)
  /-- The `res.json({ message, noticeId })` response of a create route (the id
  is `this.lastID` under the key of the route). -/
  | created (message : String) (lastID : Nat)
  /-- The `res.json({ materials })` response. -/
  | materials (materials : List (WithUserName StudyMaterial))
  /-- The `res.json({ notices })` response. -/
  | notices (notices : List (WithUserName Notice))
  /-- The `res.json({ events })` response. -/
  | events (events : List (WithUserName Event))
  /-- The `res.json({ marks })` response. -/
  | marks (marks : List (WithUserName StudentMark))
  /-- The `res.json({ attendance })` response of the history route. -/
  | attendanceRows (attendance : List AttendanceRow)
  /-- The `res.json({ attendance })` response of the class attendance route. -/
  | classAttendance (attendance : List ClassAttendanceRow)
  /-- No response: the callback threw a `TypeError` that nothing catches. -/
  | uncaught
  /-- The `res.json({ token, user })` response of registration: the token is
  given by the claims it signs, the `user` object adds the two names. -/
  | registered (claims : Principal) (first_name last_name : Option String)
  /-- The `res.json({ message, deletedCount })` response of the bulk delete. -/
  | bulkDeleted (message : String) (deletedCount : Nat)
  /-- The upload middleware passed an error on: the request is answered by the
  error handler of the framework and the route handler is not run. -/
  | middlewareError (message : String)
deriving DecidableEq

/-! ## SQL statements on the attendance table -/

/-- Largest rowid in the table, `0` when it is empty. -/
def maxRowid (rows : List AttendanceRow) : Nat :=
  rows.foldr (fun r m => max r.id m) 0

/-- The rowid `AUTOINCREMENT` gives the next inserted row: one more than the
largest rowid that ever existed in the table. -/
def nextRowid (s : Store) : Nat :=
  max s.attendance_seq (maxRowid s.attendance) + 1

/-- Row matched by `SELECT * FROM attendance WHERE user_id = ? AND date = ?`
with `db.get`: the first matching row, if any. -/
def selectByUserDate (rows : List AttendanceRow) (userId : Nat) (date : String) :
    Option AttendanceRow :=
  rows.find? (fun r => r.user_id == userId && r.date == date)

/-- Row matched by
`SELECT * FROM attendance WHERE user_id = ? AND date = ? AND check_out IS NULL`
with `db.get`. -/
def selectOpenByUserDate (rows : List AttendanceRow) (userId : Nat) (date : String) :
    Option AttendanceRow :=
  rows.find? (fun r => r.user_id == userId && r.date == date && r.check_out.isNone)

/-- Row matched by `SELECT user_id FROM attendance WHERE id = ?` with `db.get`. -/
def selectById (rows : List AttendanceRow) (attendanceId : Nat) : Option AttendanceRow :=
  rows.find? (fun r => r.id == attendanceId)

/-- Row written by `INSERT INTO attendance (user_id, date, check_in) VALUES (?, ?, ?)`:
the columns left out take their defaults (`status` is `'present'`, `created_at`
is `CURRENT_TIMESTAMP`, the others `NULL`). -/
def insertedRow (id userId : Nat) (clk : Clock) : AttendanceRow :=
  { id := id, user_id := userId, date := clk.today, check_in := some clk.now,
    check_out := Option.none, status := some "present", notes := Option.none,
    created_at := some clk.timestamp }

/-- Table after `UPDATE attendance SET check_out = ? WHERE id = ?`. -/
def updateCheckOut (rows : List AttendanceRow) (now : String) (attendanceId : Nat) :
    List AttendanceRow :=
  rows.map (fun r => if r.id = attendanceId then { r with check_out := some now } else r)

/-- Table after `DELETE FROM attendance WHERE id = ?`. -/
def deleteById (rows : List AttendanceRow) (attendanceId : Nat) : List AttendanceRow :=
  rows.filter (fun r => r.id != attendanceId)

/-! ## Route handlers -/

/-- Handler of `POST /api/attendance/check-in` (server.js 300-330). -/
def checkIn (s : Store) (user : Principal) (clk : Clock) (f : Faults) : Response × Store :=
  if f.getErr then (Response.error 500 "Database error", s)
  else
    match selectByUserDate s.attendance user.id clk.today with
    | some _ => (Response.error 400 "Already checked in today", s)
    | Option.none =>
      if f.runErr then (Response.error 500 "Database error", s)
      else
        let lastID := nextRowid s
        (Response.checkedIn "Check-in successful" lastID,
          { s with attendance := s.attendance ++ [insertedRow lastID user.id clk],
                   attendance_seq := lastID })

/-- Handler of `POST /api/attendance/check-out` (server.js 333-363). -/
def checkOut (s : Store) (user : Principal) (clk : Clock) (f : Faults) : Response × Store :=
  if f.getErr then (Response.error 500 "Database error", s)
  else
    match selectOpenByUserDate s.attendance user.id clk.today with
    | Option.none => (Response.error 400 "No check-in found for today", s)
    | some attendance =>
      if f.runErr then (Response.error 500 "Database error", s)
      else
        (Response.message "Check-out successful",
          { s with attendance := updateCheckOut s.attendance clk.now attendance.id })

/-- Handler of `GET /api/attendance/today` (server.js 387-400). -/
def attendanceToday (s : Store) (user : Principal) (clk : Clock) (f : Faults) :
    Response × Store :=
  if f.getErr then (Response.error 500 "Database error", s)
  else (Response.attendance (selectByUserDate s.attendance user.id clk.today), s)

/-- Handler of `DELETE /api/attendance/:id` (server.js 445-488).  The route
parameter is taken as the integer SQLite compares with the `id` column. -/
def deleteAttendance (s : Store) (user : Principal) (attendanceId : Nat) (f : Faults) :
    Response × Store :=
  if f.getErr then (Response.error 500 "Database error", s)
  else
    match selectById s.attendance attendanceId with
    | Option.none => (Response.error 404 "Attendance record not found", s)
    | some record =>
      if record.user_id ≠ user.id ∧ user.role ≠ "admin" then
        (Response.error 403 "Access denied", s)
      else if f.runErr then (Response.error 500 "Database error", s)
      else
        let remaining := deleteById s.attendance attendanceId
        let changes := s.attendance.length - remaining.length
        if changes = 0 then
          (Response.error 404 "Attendance record not found", { s with attendance := remaining })
        else
          (Response.message "Attendance record deleted successfully",
            { s with attendance := remaining })

/-! ## Sequences of requests -/

/-- One request to the attendance ledger, with everything its handler reads. -/
inductive Request where
  | checkIn (user : Principal) (clk : Clock) (f : Faults)
  | checkOut (user : Principal) (clk : Clock) (f : Faults)
  | deleteAttendance (user : Principal) (attendanceId : Nat) (f : Faults)
deriving DecidableEq

/-- Whether the request is a delete-attendance request. -/
def Request.isDelete : Request → Bool
  | Request.deleteAttendance _ _ _ => true
  | _ => false

/-- Run the handler of one request. -/
def step (s : Store) : Request → Response × Store
  | Request.checkIn user clk f => AttendanceSystem.checkIn s user clk f
  | Request.checkOut user clk f => AttendanceSystem.checkOut s user clk f
  | Request.deleteAttendance user attendanceId f =>
    AttendanceSystem.deleteAttendance s user attendanceId f

/-- Store after a sequence of requests executed one after the other. -/
def run (s : Store) : List Request → Store
  | [] => s
  | q :: qs => run (step s q).2 qs

/-- Number of records of the table with the given `(user_id, date)`. -/
def countFor (rows : List AttendanceRow) (userId : Nat) (date : String) : Nat :=
  (rows.filter (fun r => r.user_id == userId && r.date == date)).length

/-! ## SQL and JavaScript helpers for the class-scoped routes -/

/-- SQL `=` on nullable integers: true only when both sides are non-null and
equal (a comparison with `NULL` is never true). -/
def sqlEq (a b : Option Nat) : Bool :=
  match a, b with
  | some x, some y => x == y
  | _, _ => false

/-- Order of two texts under the `BINARY` collation, `a ≤ b`. -/
def textLe : List Char → List Char → Bool
  | [], _ => true
  | _ :: _, [] => false
  | a :: xs, b :: ys => a.toNat < b.toNat || (a.toNat == b.toNat && textLe xs ys)

/-- Ascending `ORDER BY` order of a nullable text column: `NULL` sorts first. -/
def sqlLe (a b : Option String) : Bool :=
  match a, b with
  | Option.none, _ => true
  | some _, Option.none => false
  | some x, some y => textLe x.toList y.toList

/-- Rows sorted as `ORDER BY` asks, `le a b` meaning that `a` may come before
`b`.  SQL leaves the order of rows that compare equal open; this fixes one. -/
def orderBy {α : Type} (le : α → α → Bool) (rows : List α) : List α :=
  rows.insertionSort (fun a b => le a b = true)

/-- The scalar subquery `(SELECT class_id FROM users WHERE id = ?)`: `NULL`
when no row matches. -/
def selectClassId (users : List User) (userId : Nat) : Option Nat :=
  match users.find? (fun u => u.id == userId) with
  | some u => u.class_id
  | Option.none => Option.none

/-- Row matched by `SELECT ... FROM users WHERE id = ?` with `db.get`. -/
def selectUserById (users : List User) (userId : Nat) : Option User :=
  users.find? (fun u => u.id == userId)

/-- Rows of `t LEFT JOIN users u ON t.key = u.id`: one row for every user the
key matches, and one row with `NULL` names when it matches none. -/
def leftJoinUsers {α : Type} (users : List User) (key : α → Option Nat) (rows : List α) :
    List (WithUserName α) :=
  rows.flatMap (fun r =>
    match users.filter (fun u => sqlEq (key r) (some u.id)) with
    | [] => [{ row := r, name := Option.none, last_name := Option.none }]
    | u :: us => (u :: us).map (fun v => { row := r, name := v.first_name,
                                           last_name := v.last_name }))

/-- The id `AUTOINCREMENT` gives the next row of a table with counter `seq`
and rowids `ids`. -/
def nextId (seq : Nat) (ids : List Nat) : Nat :=
  max seq (ids.foldr max 0) + 1

/-- JavaScript truthiness of a string field that may be absent: false for
`undefined`, `null` and the empty string. -/
def truthy (v : Option String) : Bool :=
  match v with
  | some x => x != ""
  | Option.none => false

/-- JavaScript truthiness of a non-negative number field that may be absent:
false for `undefined`, `null` and `0`. -/
def truthyNat (v : Option Nat) : Bool :=
  match v with
  | some x => x != 0
  | Option.none => false

/-- JavaScript truthiness of an integer field that may be absent. -/
def truthyInt (v : Option Int) : Bool :=
  match v with
  | some x => x != 0
  | Option.none => false

/-- The expression `v || d` for a string field `v` and a default `d`. -/
def orDefault (v : Option String) (d : String) : String :=
  match v with
  | some x => if x != "" then x else d
  | Option.none => d

/-! ## Hours worked (public/script.js 460-472) -/

/-- The string method `padStart(targetLength, padString)` for a one-character
pad string. -/
def padStart (str : String) (targetLength : Nat) (c : Char) : String :=
  String.mk (List.replicate (targetLength - str.length) c) ++ str

/-- The end of the worked interval that `calculateHoursWorked` uses:
`checkOut ? new Date(now.toDateString() + " " + checkOut) : now`.  `date` is
the `Date` constructor applied to `now.toDateString()` followed by a space and
the given text, and `nowMs` is the time value of `now`. -/
def endTime (date : String → Option Int) (nowMs : Int) (checkOut : Option String) :
    Option Int :=
  if truthy checkOut then date (checkOut.getD "") else some nowMs

/-- The function `calculateHoursWorked(checkIn, checkOut)`.  The `Date`
constructor is a function of the browser, so it is the parameter `date`: the
time value, in milliseconds, of the `Date` built from `now.toDateString()`
followed by a space and the given text, `none` for `Invalid Date`; `nowMs` is
the time value of `now`.  `Math.floor` of a quotient is floor division and `%`
is the remainder with the sign of the dividend.  When one of the two `Date`s
is invalid every number computed is `NaN` and both fields read `NaN`. -/
def calculateHoursWorked (date : String → Option Int) (nowMs : Int)
    (checkIn checkOut : Option String) : String :=
  if !truthy checkIn then "--:--"
  else
    match date (checkIn.getD ""), endTime date nowMs checkOut with
    | some checkInTime, some checkOutTime =>
      let diffMs := checkOutTime - checkInTime
      let diffHours := Int.fdiv diffMs (1000 * 60 * 60)
      let diffMinutes := Int.fdiv (Int.tmod diffMs (1000 * 60 * 60)) (1000 * 60)
      padStart (toString diffHours) 2 '0' ++ ":" ++ padStart (toString diffMinutes) 2 '0'
    | _, _ => "NaN:NaN"

/-- Two decimal digits of a number below one hundred, zero-padded. -/
def twoDigits (n : Nat) : String :=
  String.mk [Char.ofNat (48 + n / 10), Char.ofNat (48 + n % 10)]

/-- The function `path.extname` of Node (POSIX): from the last `.` of the last
path component to its end; empty when that component has no `.`, starts with
its only `.`, or is `..`. -/
def extname (path : String) : String :=
  let stripped := path.toList.reverse.dropWhile (fun c => c == '/')
  let baseRev := stripped.takeWhile (fun c => c != '/')
  let extRev := baseRev.takeWhile (fun c => c != '.')
  if extRev.length = baseRev.length then ""
  else if extRev.length + 1 = baseRev.length then ""
  else if baseRev = ['.', '.'] then ""
  else String.mk ('.' :: extRev.reverse)

/-- The string method `toLowerCase()`, on the letters `A` to `Z`. -/
def toLowerCase (str : String) : String :=
  String.mk (str.toList.map Char.toLower)

/-- The string method `substring(start)`. -/
def substring (str : String) (start : Nat) : String :=
  String.mk (str.toList.drop start)

/-- The test of `a.date BETWEEN ? AND ?`, added to a query only when both
`startDate` and `endDate` are given. -/
def inDateRange (startDate endDate : Option String) (date : String) : Bool :=
  match startDate, endDate with
  | some lo, some hi =>
    if lo != "" && hi != "" then textLe lo.toList date.toList && textLe date.toList hi.toList
    else true
  | _, _ => true

/-! ## Request bodies -/

/-- Body of `POST /api/notices`. -/
structure NoticeBody where
  title : Option String
  content : Option String
  priority : Option String
deriving DecidableEq

/-- Body of `POST /api/events`. -/
structure EventBody where
  title : Option String
  description : Option String
  event_type : Option String
  event_date : Option String
  event_time : Option String
deriving DecidableEq

/-- Body of `POST /api/student-marks`, the fields at the types of the columns
they are stored in. -/
structure MarksBody where
  student_id : Option Nat
  subject : Option String
  exam_type : Option String
  marks_obtained : Option Int
  total_marks : Option Int
deriving DecidableEq

/-- Text fields of the multipart body of `POST /api/study-materials`. -/
structure MaterialBody where
  title : Option String
  description : Option String
  file_type : Option String
deriving DecidableEq

/-- The `req.file` object the upload middleware leaves: the name the client
gave, the generated name, and the path of the stored file. -/
structure UploadedFile where
  originalname : String
  filename : String
  path : String
deriving DecidableEq

/-! ## Route handlers: users, class-scoped resources, marks -/

/-- White space that SQLite skips around a number (`sqlite3Isspace`): space,
tab, line feed, vertical tab, form feed, carriage return. -/
def isSpaceChar (c : Char) : Bool :=
  c.toNat == 32 || (decide (9 ≤ c.toNat) && decide (c.toNat ≤ 13))

/-- White space and line terminators of JavaScript, which `parseInt` skips
before a number: those of SQLite, the no-break space, the byte order mark, the
line and paragraph separators and the space separators of Unicode. -/
def isJsSpaceChar (c : Char) : Bool :=
  isSpaceChar c || c.toNat == 160 || c.toNat == 5760
    || (decide (8192 ≤ c.toNat) && decide (c.toNat ≤ 8202))
    || c.toNat == 8232 || c.toNat == 8233 || c.toNat == 8239 || c.toNat == 8287
    || c.toNat == 12288 || c.toNat == 65279

/-- Whether the character is a decimal digit. -/
def isDigitChar (c : Char) : Bool :=
  decide (48 ≤ c.toNat) && decide (c.toNat ≤ 57)

/-- The number a run of decimal digits writes. -/
def digitsValue (ds : List Char) : Nat :=
  ds.foldl (fun n c => 10 * n + (c.toNat - 48)) 0

/-- Value of a hexadecimal digit, `none` for any other character. -/
def hexDigitValue (c : Char) : Option Nat :=
  if isDigitChar c then some (c.toNat - 48)
  else if 97 ≤ c.toNat ∧ c.toNat ≤ 102 then some (c.toNat - 87)
  else if 65 ≤ c.toNat ∧ c.toNat ≤ 70 then some (c.toNat - 55)
  else Option.none

/-- The number the longest leading run of hexadecimal digits writes, `none`
when the text starts with no such digit. -/
def hexPrefixValue (cs : List Char) : Option Nat :=
  let ds := cs.takeWhile (fun c => (hexDigitValue c).isSome)
  if ds.isEmpty then Option.none
  else some (ds.foldl (fun n c => 16 * n + (hexDigitValue c).getD 0) 0)

/-- A text without its leading sign character, if it has one. -/
def dropSign (cs : List Char) : List Char :=
  match cs with
  | '-' :: r => r
  | '+' :: r => r
  | r => r

/-- The call `parseInt(str)`: leading white space is skipped, a sign is read,
`0x` or `0X` selects base sixteen, then the longest run of digits is read and
whatever follows it is ignored; `none` is `NaN`, the result when no digit is
found.  The value is exact, as that of JavaScript is below 2^53. -/
def jsParseInt (str : String) : Option Int :=
  let s := str.toList.dropWhile isJsSpaceChar
  let negative := s.head? == some '-'
  let magnitude : Option Nat :=
    match dropSign s with
    | '0' :: 'x' :: r => hexPrefixValue r
    | '0' :: 'X' :: r => hexPrefixValue r
    | r =>
      if (r.takeWhile isDigitChar).isEmpty then Option.none
      else some (digitsValue (r.takeWhile isDigitChar))
  magnitude.map (fun n => if negative then -(n : Int) else (n : Int))

/-- The exponent part of a real literal: `0` when nothing follows the
mantissa, the signed number after `e` or `E`, `none` when what follows is not
an exponent. -/
def exponentOf (cs : List Char) : Option Int :=
  match cs with
  | [] => some 0
  | c :: r =>
    if c = 'e' ∨ c = 'E' then
      if (dropSign r).isEmpty || !(dropSign r).all isDigitChar then Option.none
      else if r.head? == some '-' then some (-(digitsValue (dropSign r) : Int))
      else some (digitsValue (dropSign r) : Int)
    else Option.none

/-- The rowid a text bound to `WHERE id = ?` can equal.  The column has
integer affinity, so SQLite reads the text as a number when, white space
around it apart, it is an integer or real literal (a sign, digits, a point and
digits, an exponent, with at least one digit in the mantissa) and compares
numerically; any other text equals no integer.  `none` when the text is no
such literal or its value is not a non-negative integer.  Exact arithmetic
stands for the floating point of SQLite, which agrees for literals of up to
fifteen significant digits. -/
def sqliteRowid (str : String) : Option Nat :=
  let s := ((str.toList.dropWhile isSpaceChar).reverse.dropWhile isSpaceChar).reverse
  let negative := s.head? == some '-'
  let intDigits := (dropSign s).takeWhile isDigitChar
  let afterInt := (dropSign s).dropWhile isDigitChar
  let fracDigits := match afterInt with
    | '.' :: r => r.takeWhile isDigitChar
    | _ => []
  let afterFrac := match afterInt with
    | '.' :: r => r.dropWhile isDigitChar
    | r => r
  let mantissa := digitsValue (intDigits ++ fracDigits)
  if (intDigits ++ fracDigits).isEmpty then Option.none
  else
    match exponentOf afterFrac with
    | Option.none => Option.none
    | some e =>
      let shift : Int := e - (fracDigits.length : Int)
      let value : Option Nat :=
        if 0 ≤ shift then some (mantissa * 10 ^ shift.toNat)
        else if mantissa % 10 ^ (-shift).toNat = 0 then some (mantissa / 10 ^ (-shift).toNat)
        else Option.none
      if negative then (if value = some 0 then some 0 else Option.none) else value

/-- The part of the delete-user handler that runs once the lookup found the
row with id `n` (server.js 513-531): the two `DELETE` statements. -/
def deleteUserRows (s : Store) (n : Nat) (f : Faults) : Response × Store :=
  if f.runErr then (Response.error 500 "Database error", s)
  else
    let s1 : Store :=
      { s with attendance := s.attendance.filter (fun a => a.user_id != n) }
    if f.runErr2 then (Response.error 500 "Database error", s1)
    else
      let remaining := s.users.filter (fun u => u.id != n)
      let changes := s.users.length - remaining.length
      if changes = 0 then
        (Response.error 404 "User not found", { s1 with users := remaining })
      else
        (Response.message "User and all associated data deleted successfully",
          { s1 with users := remaining })

/-- Handler of `DELETE /api/admin/users/:id` (server.js 491-533).  `userId` is
the text of the route parameter: the guard compares `parseInt(userId)` with
the id of the requester, while the three statements bind the text itself,
which SQLite reads as a number of its own accord. -/
def deleteUser (s : Store) (user : Principal) (userId : String) (f : Faults) :
    Response × Store :=
  if user.role ≠ "admin" then (Response.error 403 "Admin access required", s)
  else if jsParseInt userId = some (user.id : Int) then
    (Response.error 400 "Cannot delete your own account", s)
  else if f.getErr then (Response.error 500 "Database error", s)
  else
    match sqliteRowid userId with
    | Option.none => (Response.error 404 "User not found", s)
    | some n =>
      match selectUserById s.users n with
      | Option.none => (Response.error 404 "User not found", s)
      | some _ => deleteUserRows s n f

/-- Handler of `GET /api/study-materials` (server.js 598-613). -/
def listMaterials (s : Store) (user : Principal) (f : Faults) : Response × Store :=
  if f.getErr then (Response.error 500 "Database error", s)
  else
    (Response.materials
      (orderBy (fun a b => sqlLe b.row.created_at a.row.created_at)
        ((leftJoinUsers s.users (fun m => m.uploaded_by) s.study_materials).filter
          (fun j => sqlEq j.row.class_id (selectClassId s.users user.id)))), s)

/-- Handler of `GET /api/notices` (server.js 669-684). -/
def listNotices (s : Store) (user : Principal) (f : Faults) : Response × Store :=
  if f.getErr then (Response.error 500 "Database error", s)
  else
    (Response.notices
      (orderBy (fun a b => sqlLe b.row.created_at a.row.created_at)
        ((leftJoinUsers s.users (fun n => n.created_by) s.notices).filter
          (fun j => sqlEq j.row.class_id (selectClassId s.users user.id)))), s)

/-- Handler of `GET /api/events` (server.js 726-741). -/
def listEvents (s : Store) (user : Principal) (f : Faults) : Response × Store :=
  if f.getErr then (Response.error 500 "Database error", s)
  else
    (Response.events
      (orderBy (fun a b => textLe a.row.event_date.toList b.row.event_date.toList)
        ((leftJoinUsers s.users (fun e => e.created_by) s.events).filter
          (fun j => sqlEq j.row.class_id (selectClassId s.users user.id)))), s)

/-- Handler of `GET /api/student-marks` (server.js 783-798). -/
def studentMarks (s : Store) (user : Principal) (f : Faults) : Response × Store :=
  if f.getErr then (Response.error 500 "Database error", s)
  else
    (Response.marks
      (orderBy (fun a b => sqlLe b.row.created_at a.row.created_at)
        ((leftJoinUsers s.users (fun k => k.created_by) s.student_marks).filter
          (fun j => j.row.student_id == user.id))), s)

/-- Row written by
`INSERT INTO notices (title, content, class_id, created_by, priority) VALUES (?, ?, ?, ?, ?)`
with the values `[title, content, user.class_id, req.user.id, priority || 'normal']`. -/
def insertedNotice (lastID userId : Nat) (body : NoticeBody) (clk : Clock) (u : User) : Notice :=
  { id := lastID, title := body.title.getD "", content := body.content.getD "",
    class_id := u.class_id, created_by := some userId,
    priority := some (orDefault body.priority "normal"), created_at := some clk.timestamp }

/-- Row written by the `INSERT INTO events` of the create-event route, with the
values `[title, description, event_type || 'event', user.class_id, event_date,
event_time, req.user.id]`. -/
def insertedEvent (lastID userId : Nat) (body : EventBody) (clk : Clock) (u : User) : Event :=
  { id := lastID, title := body.title.getD "", description := body.description,
    event_type := some (orDefault body.event_type "event"), class_id := u.class_id,
    event_date := body.event_date.getD "", event_time := body.event_time,
    created_by := some userId, created_at := some clk.timestamp }

/-- Row written by the `INSERT INTO student_marks` of the add-marks route, with
the values `[student_id, subject, exam_type, marks_obtained, total_marks,
user.class_id, req.user.id]`. -/
def insertedMark (lastID userId : Nat) (body : MarksBody) (clk : Clock) (u : User) :
    StudentMark :=
  { id := lastID, student_id := body.student_id.getD 0, subject := body.subject.getD "",
    exam_type := body.exam_type.getD "", marks_obtained := body.marks_obtained.getD 0,
    total_marks := body.total_marks.getD 0, class_id := u.class_id,
    created_by := some userId, created_at := some clk.timestamp }

/-- Row written by the `INSERT INTO study_materials` of the upload route, with
the values `[title, description, finalFileType, filePath, user.class_id,
req.user.id]`: the file type is the lower-cased extension of the uploaded file
without its dot, or `file_type || 'document'` when no file came. -/
def insertedMaterial (lastID userId : Nat) (body : MaterialBody) (file : Option UploadedFile)
    (clk : Clock) (u : User) : StudyMaterial :=
  { id := lastID, title := body.title.getD "", description := body.description,
    file_path := file.map (fun fl => fl.filename),
    file_type := some (match file with
      | some fl => substring (toLowerCase (extname fl.originalname)) 1
      | Option.none => orDefault body.file_type "document"),
    class_id := u.class_id, uploaded_by := some userId, created_at := some clk.timestamp }

/-- Handler of `POST /api/notices` (server.js 687-723). -/
def createNotice (s : Store) (user : Principal) (body : NoticeBody) (clk : Clock)
    (f : Faults) : Response × Store :=
  if user.role ≠ "teacher" ∧ user.role ≠ "admin" then
    (Response.error 403 "Teacher access required", s)
  else if !truthy body.title || !truthy body.content then
    (Response.error 400 "Title and content are required", s)
  else if f.getErr then (Response.error 500 "Database error", s)
  else
    match selectUserById s.users user.id with
    | Option.none => (Response.uncaught, s)
    | some u =>
      if !truthyNat u.class_id then
        (Response.error 400 "User is not assigned to a class", s)
      else if f.runErr then (Response.error 500 "Database error", s)
      else
        let lastID := nextId s.notices_seq (s.notices.map (fun n => n.id))
        (Response.created "Notice created successfully" lastID,
          { s with notices := s.notices ++ [insertedNotice lastID user.id body clk u],
                   notices_seq := lastID })

/-- Handler of `POST /api/events` (server.js 744-780). -/
def createEvent (s : Store) (user : Principal) (body : EventBody) (clk : Clock)
    (f : Faults) : Response × Store :=
  if user.role ≠ "teacher" ∧ user.role ≠ "admin" then
    (Response.error 403 "Teacher access required", s)
  else if !truthy body.title || !truthy body.event_date then
    (Response.error 400 "Title and event date are required", s)
  else if f.getErr then (Response.error 500 "Database error", s)
  else
    match selectUserById s.users user.id with
    | Option.none => (Response.uncaught, s)
    | some u =>
      if !truthyNat u.class_id then
        (Response.error 400 "User is not assigned to a class", s)
      else if f.runErr then (Response.error 500 "Database error", s)
      else
        let lastID := nextId s.events_seq (s.events.map (fun e => e.id))
        (Response.created "Event created successfully" lastID,
          { s with events := s.events ++ [insertedEvent lastID user.id body clk u],
                   events_seq := lastID })

/-- Handler of `POST /api/student-marks` (server.js 801-837). -/
def addMarks (s : Store) (user : Principal) (body : MarksBody) (clk : Clock)
    (f : Faults) : Response × Store :=
  if user.role ≠ "teacher" ∧ user.role ≠ "admin" then
    (Response.error 403 "Teacher access required", s)
  else if !truthyNat body.student_id || !truthy body.subject || !truthy body.exam_type
      || !truthyInt body.marks_obtained || !truthyInt body.total_marks then
    (Response.error 400 "All fields are required", s)
  else if f.getErr then (Response.error 500 "Database error", s)
  else
    match selectUserById s.users user.id with
    | Option.none => (Response.uncaught, s)
    | some u =>
      if !truthyNat u.class_id then
        (Response.error 400 "User is not assigned to a class", s)
      else if f.runErr then (Response.error 500 "Database error", s)
      else
        let lastID := nextId s.student_marks_seq (s.student_marks.map (fun k => k.id))
        (Response.created "Marks added successfully" lastID,
          { s with student_marks := s.student_marks ++ [insertedMark lastID user.id body clk u],
                   student_marks_seq := lastID })

/-- Handler of `POST /api/study-materials` (server.js 616-666), run after the
upload middleware: `file` is `req.file`, already stored under `file.path`.
When the insert reports an error the stored file is removed again. -/
def uploadMaterial (s : Store) (user : Principal) (body : MaterialBody)
    (file : Option UploadedFile) (clk : Clock) (f : Faults) : Response × Store :=
  if user.role ≠ "teacher" ∧ user.role ≠ "admin" then
    (Response.error 403 "Teacher access required", s)
  else if !truthy body.title then (Response.error 400 "Title is required", s)
  else if f.getErr then (Response.error 500 "Database error", s)
  else
    match selectUserById s.users user.id with
    | Option.none => (Response.uncaught, s)
    | some u =>
      if !truthyNat u.class_id then
        (Response.error 400 "User is not assigned to a class", s)
      else if f.runErr then
        (Response.error 500 "Database error",
          { s with uploads := (match file with
              | some fl => s.uploads.filter (fun p => p != fl.path)
              | Option.none => s.uploads) })
      else
        let lastID := nextId s.study_materials_seq (s.study_materials.map (fun m => m.id))
        (Response.created "Study material uploaded successfully" lastID,
          { s with
            study_materials := s.study_materials ++
              [insertedMaterial lastID user.id body file clk u],
            study_materials_seq := lastID })

/-- Handler of `GET /api/attendance/history` (server.js 366-384). -/
def attendanceHistory (s : Store) (user : Principal) (startDate endDate : Option String)
    (f : Faults) : Response × Store :=
  if f.getErr then (Response.error 500 "Database error", s)
  else
    (Response.attendanceRows
      ((orderBy (fun a b => textLe b.date.toList a.date.toList)
        (s.attendance.filter
          (fun a => a.user_id == user.id && inDateRange startDate endDate a.date))).take 30), s)

/-- Order of `ORDER BY a.date DESC, u.first_name, u.last_name`. -/
def classAttendanceLe (a b : ClassAttendanceRow) : Bool :=
  !textLe a.attendance.date.toList b.attendance.date.toList ||
  (a.attendance.date == b.attendance.date &&
    (!sqlLe b.first_name a.first_name ||
      (a.first_name == b.first_name && sqlLe a.last_name b.last_name)))

/-- The columns `a.*, u.first_name, u.last_name, u.student_id` of a joined
pair. -/
def classAttendanceRow (a : AttendanceRow) (u : User) : ClassAttendanceRow :=
  { attendance := a, first_name := u.first_name, last_name := u.last_name,
    student_id := u.student_id }

/-- Rows of `attendance a JOIN users u ON a.user_id = u.id WHERE u.class_id = ?`
with the selected columns. -/
def joinClassUsers (users : List User) (classId : Nat) (rows : List AttendanceRow) :
    List ClassAttendanceRow :=
  rows.flatMap (fun a =>
    (users.filter (fun u => a.user_id == u.id && sqlEq u.class_id (some classId))).map
      (classAttendanceRow a))

/-- Handler of `GET /api/classes/:classId/attendance` (server.js 947-976).  The
route parameter is taken as the integer SQLite compares with `class_id`. -/
def classAttendance (s : Store) (user : Principal) (classId : Nat)
    (startDate endDate : Option String) (f : Faults) : Response × Store :=
  if user.role ≠ "admin" ∧ user.role ≠ "teacher" then
    (Response.error 403 "Admin or teacher access required", s)
  else if f.getErr then (Response.error 500 "Database error", s)
  else
    (Response.classAttendance
      (orderBy classAttendanceLe
        ((joinClassUsers s.users classId s.attendance).filter
          (fun j => inDateRange startDate endDate j.attendance.date))), s)

/-! ## Authentication middleware (server.js 183-198) -/

/-- The pieces of `str.split(' ')`. -/
def splitSpaces : List Char → List (List Char)
  | [] => [[]]
  | c :: cs =>
    match splitSpaces cs with
    | [] => [[]]
    | w :: ws => if c = ' ' then [] :: w :: ws else (c :: w) :: ws

/-- The value of `authHeader && authHeader.split(' ')[1]` as far as its
truthiness and text go: `none` stands for `undefined`. -/
def bearerToken (authHeader : Option String) : Option String :=
  match authHeader with
  | Option.none => Option.none
  | some h =>
    if h = "" then some ""
    else
      match splitSpaces h.toList with
      | _ :: t :: _ => some (String.mk t)
      | _ => Option.none

/-- The middleware `authenticateToken`.  `verify` is `jwt.verify` with the
secret of the server: the claims of a token it accepts, `none` when it reports
an error (malformed, expired, bad signature).  `next` is the rest of the route,
run with `req.user` set. -/
def authenticateToken (verify : String → Option Principal) (authHeader : Option String)
    (next : Principal → Response × Store) (s : Store) : Response × Store :=
  let token := bearerToken authHeader
  if !truthy token then (Response.error 401 "Access token required", s)
  else
    match verify (token.getD "") with
    | Option.none => (Response.error 403 "Invalid token", s)
    | some user => next user

/-! ## Registration (server.js 203-246) -/

/-- Body of `POST /api/register`. -/
structure RegisterBody where
  username : Option String
  email : Option String
  password : Option String
  first_name : Option String
  last_name : Option String
  role : Option String
  class_id : Option Nat
deriving DecidableEq

/-- The expression `v || null` for a string field. -/
def orNull (v : Option String) : Option String :=
  if truthy v then v else Option.none

/-- The expression `v || null` for a number field. -/
def orNullNat (v : Option Nat) : Option Nat :=
  if truthyNat v then v else Option.none

/-- Whether the `UNIQUE` constraints of `users` (on `username` and on `email`,
compared byte for byte) reject a row with this username and email. -/
def uniqueViolation (users : List User) (username email : String) : Bool :=
  users.any (fun u => u.username == username || u.email == email)

/-- Row written by the `INSERT INTO users` of registration, with the values
`[username, email, hashedPassword, first_name || null, last_name || null,
role || 'student', class_id || null]`. -/
def insertedUser (lastID : Nat) (body : RegisterBody) (hashedPassword : String) (clk : Clock) :
    User :=
  { id := lastID, username := body.username.getD "", email := body.email.getD "",
    password := hashedPassword, role := some (orDefault body.role "student"),
    class_id := orNullNat body.class_id, first_name := orNull body.first_name,
    last_name := orNull body.last_name, student_id := Option.none,
    created_at := some clk.timestamp }

/-- Handler of `POST /api/register`.  `hash` is `bcrypt.hash(password, 10)`,
`none` when it throws.  An insert that reports an error other than a `UNIQUE`
violation is `f.runErr`. -/
def register (hash : String → Option String) (s : Store) (body : RegisterBody) (clk : Clock)
    (f : Faults) : Response × Store :=
  if !truthy body.username || !truthy body.email || !truthy body.password then
    (Response.error 400 "Username, email, and password are required", s)
  else
    match hash (body.password.getD "") with
    | Option.none => (Response.error 500 "Server error", s)
    | some hashedPassword =>
      if f.runErr then (Response.error 500 "Database error", s)
      else if uniqueViolation s.users (body.username.getD "") (body.email.getD "") then
        (Response.error 400 "Username or email already exists", s)
      else
        let lastID := nextId s.users_seq (s.users.map (fun u => u.id))
        (Response.registered
            { id := lastID, username := body.username.getD "", email := body.email.getD "",
              role := orDefault body.role "student" }
            (orNull body.first_name) (orNull body.last_name),
          { s with users := s.users ++ [insertedUser lastID body hashedPassword clk],
                   users_seq := lastID })

/-- One registration request with everything the handler reads. -/
structure RegisterRequest where
  body : RegisterBody
  clk : Clock
  f : Faults
deriving DecidableEq

/-- Store after a sequence of registration requests. -/
def runRegister (hash : String → Option String) (s : Store) : List RegisterRequest → Store
  | [] => s
  | q :: qs => runRegister hash (register hash s q.body q.clk q.f).2 qs

/-- Responses of a sequence of registration requests, in order. -/
def registerResponses (hash : String → Option String) (s : Store) :
    List RegisterRequest → List Response
  | [] => []
  | q :: qs =>
    (register hash s q.body q.clk q.f).1 ::
      registerResponses hash (register hash s q.body q.clk q.f).2 qs

/-- The three roles of the design. -/
def knownRole (role : String) : Bool :=
  role == "student" || role == "teacher" || role == "admin"

/-! ## Classes (server.js 864-921) -/

/-- Body of `POST /api/classes` and `PUT /api/classes/:classId`. -/
structure ClassBody where
  name : Option String
  description : Option String
  teacher_id : Option Nat
deriving DecidableEq

/-- Handler of `POST /api/classes` (server.js 864-889). -/
def createClass (s : Store) (user : Principal) (body : ClassBody) (clk : Clock) (f : Faults) :
    Response × Store :=
  if user.role ≠ "admin" then (Response.error 403 "Admin access required", s)
  else if !truthy body.name then (Response.error 400 "Class name is required", s)
  else if f.runErr then (Response.error 500 "Database error", s)
  else
    let lastID := nextId s.classes_seq (s.classes.map (fun c => c.id))
    (Response.created "Class created successfully" lastID,
      { s with
        classes := s.classes ++
          [{ id := lastID, name := body.name.getD "", description := orNull body.description,
             teacher_id := orNullNat body.teacher_id, created_at := some clk.timestamp }],
        classes_seq := lastID })

/-- Table after `UPDATE classes SET name = ?, description = ?, teacher_id = ? WHERE id = ?`. -/
def updateClassRows (rows : List ClassRow) (classId : Nat) (body : ClassBody) : List ClassRow :=
  rows.map (fun c =>
    if c.id = classId then
      { c with name := body.name.getD "", description := orNull body.description,
               teacher_id := orNullNat body.teacher_id }
    else c)

/-- Handler of `PUT /api/classes/:classId` (server.js 892-921).  The route
parameter is taken as the integer SQLite compares with the `id` column. -/
def updateClass (s : Store) (user : Principal) (classId : Nat) (body : ClassBody) (f : Faults) :
    Response × Store :=
  if user.role ≠ "admin" then (Response.error 403 "Admin access required", s)
  else if !truthy body.name then (Response.error 400 "Class name is required", s)
  else if f.runErr then (Response.error 500 "Database error", s)
  else
    let changes := (s.classes.filter (fun c => c.id == classId)).length
    if changes = 0 then
      (Response.error 404 "Class not found",
        { s with classes := updateClassRows s.classes classId body })
    else
      (Response.message "Class updated successfully",
        { s with classes := updateClassRows s.classes classId body })

/-- Whether every class with a teacher reference references a `users` row whose
role is `teacher`. -/
def teacherRefsValid (s : Store) : Bool :=
  s.classes.all (fun c =>
    match c.teacher_id with
    | Option.none => true
    | some t => s.users.any (fun u => u.id == t && u.role == some "teacher"))

/-! ## Bulk delete of attendance (server.js 536-560) -/

/-- Handler of `DELETE /api/admin/attendance/bulk`.  `ids` is the `ids` field
of the body when it is an array, `none` when it is missing or not an array. -/
def bulkDeleteAttendance (s : Store) (user : Principal) (ids : Option (List Nat)) (f : Faults) :
    Response × Store :=
  if user.role ≠ "admin" then (Response.error 403 "Admin access required", s)
  else
    match ids with
    | Option.none => (Response.error 400 "Attendance record IDs are required", s)
    | some [] => (Response.error 400 "Attendance record IDs are required", s)
    | some (i :: is) =>
      if f.runErr then (Response.error 500 "Database error", s)
      else
        let remaining := s.attendance.filter (fun a => !(i :: is).contains a.id)
        let changes := s.attendance.length - remaining.length
        (Response.bulkDeleted
            (toString changes ++ " attendance record(s) deleted successfully") changes,
          { s with attendance := remaining })

/-! ## Upload middleware (server.js 27-54) and the upload route -/

/-- A file part of a multipart request as the upload middleware sees it. -/
structure IncomingFile where
  originalname : String
  mimetype : String
  size : Nat
deriving DecidableEq

/-- Whether the text `str` contains the text `pat`. -/
def hasInfix (pat str : List Char) : Bool :=
  str.tails.any (fun t => pat.isPrefixOf t)

/-- The alternatives of the regular expression
`/pdf|doc|docx|txt|jpg|jpeg|png|gif/`. -/
def allowedTypes : List String :=
  ["pdf", "doc", "docx", "txt", "jpg", "jpeg", "png", "gif"]

/-- The call `allowedTypes.test(str)`: the expression has no anchors, so it
matches when `str` contains one of the alternatives anywhere. -/
def allowedTypesTest (str : String) : Bool :=
  allowedTypes.any (fun p => hasInfix p.toList str.toList)

/-- The `fileFilter` of the upload middleware: whether the file is accepted
(`cb(null, true)`) rather than refused with an error. -/
def fileFilter (file : IncomingFile) : Bool :=
  let extnameOk := allowedTypesTest (toLowerCase (extname file.originalname))
  let mimetypeOk := allowedTypesTest file.mimetype
  mimetypeOk && extnameOk

/-- The size limit of the middleware, `10 * 1024 * 1024` bytes. -/
def fileSizeLimit : Nat := 10 * 1024 * 1024

/-- The uploads directory, relative to the directory of the server. -/
def uploadsDir : String := "uploads"

/-- The name `diskStorage` gives the stored file: the field name, `-`, the
unique suffix (`Date.now()`, `-`, a random integer) and the extension of the
original name. -/
def storageFilename (uniqueSuffix : String) (file : IncomingFile) : String :=
  "file" ++ "-" ++ uniqueSuffix ++ extname file.originalname

/-- The middleware `upload.single('file')`: with no file part the request
passes untouched; a file the filter refuses or one over the size limit ends the
request with an error and stores nothing; an accepted file is written to the
uploads directory and described in `req.file`. -/
def uploadSingle (s : Store) (file : Option IncomingFile) (uniqueSuffix : String) :
    Except String (Option UploadedFile × Store) :=
  match file with
  | Option.none => Except.ok (Option.none, s)
  | some fl =>
    if !fileFilter fl then
      Except.error "Only PDF, DOC, DOCX, TXT, and image files are allowed!"
    else if fl.size > fileSizeLimit then Except.error "File too large"
    else
      let filename := storageFilename uniqueSuffix fl
      let path := uploadsDir ++ "/" ++ filename
      Except.ok
        (some { originalname := fl.originalname, filename := filename, path := path },
         { s with uploads := if s.uploads.contains path then s.uploads
                             else s.uploads ++ [path] })

/-- The route `POST /api/study-materials` after authentication: the upload
middleware, then the handler. -/
def uploadRoute (s : Store) (user : Principal) (body : MaterialBody)
    (file : Option IncomingFile) (uniqueSuffix : String) (clk : Clock) (f : Faults) :
    Response × Store :=
  match uploadSingle s file uniqueSuffix with
  | Except.error message => (Response.middlewareError message, s)
  | Except.ok (reqFile, s1) => uploadMaterial s1 user body reqFile clk f

/-- The database tables of a store: the store without its uploads
directory. -/
def Store.tables (s : Store) : Store := { s with uploads := [] }

/-! ## Example stores -/

/-- Token claims of the seeded student account. -/
def student : Principal :=
  { id := 3, username := "student", email := "student@example.com", role := "student" }

/-- Token claims of the seeded teacher account. -/
def teacher : Principal :=
  { id := 2, username := "teacher", email := "teacher@example.com", role := "teacher" }

/-- Token claims of the seeded admin account. -/
def admin : Principal :=
  { id := 1, username := "admin", email := "admin@example.com", role := "admin" }

/-- A morning clock reading. -/
def clockMorning : Clock :=
  { today := "2024-09-02", now := "09:00:00", timestamp := "2024-09-02 03:30:00" }

/-- An evening clock reading of the same day. -/
def clockEvening : Clock :=
  { today := "2024-09-02", now := "17:30:00", timestamp := "2024-09-02 12:00:00" }

/-- The attendance table of a fresh database. -/
def emptyStore : Store := { attendance := [], attendance_seq := 0 }

/-- Store after the student checked in in the morning. -/
def storeCheckedIn : Store := (checkIn emptyStore student clockMorning Faults.none).2

/-- Store after the student also checked out in the evening. -/
def storeComplete : Store := (checkOut storeCheckedIn student clockEvening Faults.none).2

/-! ## Example store with two classes -/

/-- A `users` row with the columns the examples do not use left `NULL`. -/
def mkUser (id : Nat) (username role : String) (classId : Option Nat) : User :=
  { id := id, username := username, email := username ++ "@example.com", password := "",
    role := some role, class_id := classId, first_name := Option.none,
    last_name := Option.none, student_id := Option.none, created_at := Option.none }

/-- Token claims of a second student account. -/
def student2 : Principal :=
  { id := 4, username := "student2", email := "student2@example.com", role := "student" }

/-- A store with the admin (no class), a teacher and a student of class 1, a
student of class 2 who has one attendance record, one mark the teacher gave the
student of class 1, one study material for each class, a notice with no class
and one for class 1, and an event for class 1. -/
def classStore : Store :=
  { attendance :=
      [{ id := 1, user_id := 4, date := "2024-09-02", check_in := some "09:00:00",
         check_out := Option.none, status := some "present", notes := Option.none,
         created_at := some "2024-09-02 03:30:00" }],
    attendance_seq := 1,
    users := [mkUser 1 "admin" "admin" Option.none, mkUser 2 "teacher" "teacher" (some 1),
              mkUser 3 "student" "student" (some 1), mkUser 4 "student2" "student" (some 2)],
    study_materials :=
      [{ id := 1, title := "Algebra", description := Option.none, file_path := Option.none,
         file_type := some "document", class_id := some 1, uploaded_by := some 2,
         created_at := some "2024-09-01 10:00:00" },
       { id := 2, title := "Botany", description := Option.none, file_path := Option.none,
         file_type := some "document", class_id := some 2, uploaded_by := some 1,
         created_at := some "2024-09-01 11:00:00" }],
    study_materials_seq := 2,
    notices :=
      [{ id := 1, title := "Welcome", content := "Term starts", class_id := Option.none,
         created_by := some 1, priority := some "normal",
         created_at := some "2024-09-01 09:00:00" },
       { id := 2, title := "Quiz", content := "On Friday", class_id := some 1,
         created_by := some 2, priority := some "normal",
         created_at := some "2024-09-01 09:30:00" }],
    notices_seq := 2,
    events :=
      [{ id := 1, title := "Sports day", description := Option.none,
         event_type := some "event", class_id := some 1, event_date := "2024-09-20",
         event_time := Option.none, created_by := some 2,
         created_at := some "2024-09-01 09:45:00" }],
    events_seq := 1,
    student_marks :=
      [{ id := 1, student_id := 3, subject := "Algebra", exam_type := "quiz",
         marks_obtained := 8, total_marks := 10, class_id := some 1, created_by := some 2,
         created_at := some "2024-09-01 12:00:00" }],
    student_marks_seq := 1 }

/-- A complete create-notice body. -/
def sampleNotice : NoticeBody :=
  { title := some "Trip", content := some "Friday", priority := Option.none }

/-- A complete create-event body. -/
def sampleEvent : EventBody :=
  { title := some "Exam", description := Option.none, event_type := some "exam",
    event_date := some "2024-10-01", event_time := Option.none }

/-- A complete upload-material body, sent without a file. -/
def sampleMaterial : MaterialBody :=
  { title := some "Notes", description := Option.none, file_type := Option.none }

/-- A complete add-marks body naming the given student. -/
def marksBodyFor (studentId : Nat) : MarksBody :=
  { student_id := some studentId, subject := some "Algebra", exam_type := some "quiz",
    marks_obtained := some 7, total_marks := some 10 }

/-! ## Example clocks for the hours worked -/

/-- The fields of a time text `HH:MM:SS` as the `check_in` and `check_out`
columns hold it. -/
structure TimeOfDay where
  hours : Nat
  minutes : Nat
  seconds : Nat
deriving DecidableEq

/-- Whether the fields are those of a time of day: hours below 24, minutes
and seconds below 60. -/
def TimeOfDay.inRange (t : TimeOfDay) : Bool :=
  decide (t.hours < 24) && decide (t.minutes < 60) && decide (t.seconds < 60)

/-- Wall-clock milliseconds between midnight and the time of day. -/
def TimeOfDay.toMs (t : TimeOfDay) : Int :=
  (((t.hours : Int) * 60 + t.minutes) * 60 + t.seconds) * 1000

/-- The fields of a text of the form `HH:MM:SS`, three pairs of decimal
digits; `none` for any other text. -/
def parseTimeOfDay (text : String) : Option TimeOfDay :=
  match text.toList with
  | [h1, h2, ':', m1, m2, ':', s1, s2] =>
    if [h1, h2, m1, m2, s1, s2].all isDigitChar then
      some { hours := digitsValue [h1, h2], minutes := digitsValue [m1, m2],
             seconds := digitsValue [s1, s2] }
    else Option.none
  | _ => Option.none

/-- An example of the `Date` constructor on `now.toDateString()` followed by a
time text, with time values counted from the instant of the local midnight of
`now`: a text `HH:MM:SS` with fields in range is a valid `Date`, any other
text is `Invalid Date`.  `zone` is the local time zone on that date: it sends
the wall-clock milliseconds of a local time to the milliseconds that have
elapsed since the local midnight at that time. -/
def localDate (zone : Int → Int) (text : String) : Option Int :=
  match parseTimeOfDay text with
  | some t => if t.inRange then some (zone t.toMs) else Option.none
  | Option.none => Option.none

/-- The time zone of a day whose clocks are not changed. -/
def noShift (wallMs : Int) : Int := wallMs

/-- The time zone of a day on which the clocks are put forward from 02:00 to
03:00: a local time from 03:00 on comes an hour earlier than its wall-clock
reading says. -/
def springForward (wallMs : Int) : Int :=
  if wallMs < 3 * 60 * 60 * 1000 then wallMs else wallMs - 60 * 60 * 1000

/-! ## Example requests for authentication, registration, classes and uploads -/

/-- A token verifier that accepts the text `good` as the teacher's token and
nothing else. -/
def sampleVerify (token : String) : Option Principal :=
  if token = "good" then some teacher else Option.none

/-- A password hash used in the examples. -/
def sampleHash (password : String) : Option String := some ("$2a$10$" ++ password)

/-- A registration body with the given username, email and role. -/
def registerBodyFor (username email : String) (role : Option String) : RegisterBody :=
  { username := some username, email := some email, password := some "secret",
    first_name := Option.none, last_name := Option.none, role := role,
    class_id := Option.none }

/-- A PDF file of one kilobyte. -/
def pdfFile : IncomingFile :=
  { originalname := "notes.pdf", mimetype := "application/pdf", size := 1024 }

/-- An executable file. -/
def exeFile : IncomingFile :=
  { originalname := "run.exe", mimetype := "application/x-msdownload", size := 1024 }

/-- A macro-enabled Word document with its registered MIME type. -/
def docmFile : IncomingFile :=
  { originalname := "report.docm",
    mimetype := "application/vnd.ms-word.document.macroEnabled.12", size := 1024 }

/-! ## Lemmas on the SQL statements -/

theorem countFor_append (rows : List AttendanceRow) (r : AttendanceRow) (u : Nat) (d : String) :
    countFor (rows ++ [r]) u d
      = countFor rows u d + (if r.user_id = u ∧ r.date = d then 1 else 0) := by
  unfold countFor
  rw [List.filter_append, List.length_append]
  by_cases h : r.user_id = u ∧ r.date = d
  · simp [List.filter_cons, h]
  · have h2 : ¬ (r.user_id = u ∧ r.date = d) := h
    simp only [not_and] at h
    simp [List.filter_cons, h2, h]

theorem countFor_updateCheckOut (rows : List AttendanceRow) (now : String) (k u : Nat)
    (d : String) : countFor (updateCheckOut rows now k) u d = countFor rows u d := by
  unfold countFor updateCheckOut
  induction rows with
  | nil => rfl
  | cons x xs ih =>
    simp only [List.map_cons, List.filter_cons]
    by_cases hk : x.id = k <;> simp only [hk, if_true, if_false] <;>
      split <;> simp_all

theorem countFor_deleteById_le (rows : List AttendanceRow) (k u : Nat) (d : String) :
    countFor (deleteById rows k) u d ≤ countFor rows u d := by
  unfold countFor deleteById
  exact ((List.filter_sublist _).filter _).length_le

theorem countFor_eq_zero_of_select_none (rows : List AttendanceRow) (u : Nat) (d : String)
    (h : selectByUserDate rows u d = none) : countFor rows u d = 0 := by
  unfold selectByUserDate at h
  unfold countFor
  rw [List.find?_eq_none] at h
  rw [List.length_eq_zero, List.filter_eq_nil_iff]
  exact h

/-- The three shapes the table can have after a check-in. -/
theorem checkIn_attendance (s : Store) (user : Principal) (clk : Clock) (f : Faults) :
    (checkIn s user clk f).2.attendance = s.attendance ∨
    (selectByUserDate s.attendance user.id clk.today = none ∧
      (checkIn s user clk f).2.attendance
        = s.attendance ++ [insertedRow (nextRowid s) user.id clk]) := by
  unfold checkIn
  split
  · exact Or.inl rfl
  · split
    · exact Or.inl rfl
    · next hsel =>
      split
      · exact Or.inl rfl
      · exact Or.inr ⟨hsel, rfl⟩

theorem checkOut_attendance (s : Store) (user : Principal) (clk : Clock) (f : Faults) :
    (checkOut s user clk f).2.attendance = s.attendance ∨
    (∃ a, selectOpenByUserDate s.attendance user.id clk.today = some a ∧
      (checkOut s user clk f).2.attendance = updateCheckOut s.attendance clk.now a.id) := by
  unfold checkOut
  split
  · exact Or.inl rfl
  · split
    · exact Or.inl rfl
    · next a hsel =>
      split
      · exact Or.inl rfl
      · exact Or.inr ⟨a, hsel, rfl⟩

theorem deleteAttendance_attendance (s : Store) (user : Principal) (k : Nat) (f : Faults) :
    (deleteAttendance s user k f).2.attendance = s.attendance ∨
    (deleteAttendance s user k f).2.attendance = deleteById s.attendance k := by
  unfold deleteAttendance
  split
  · exact Or.inl rfl
  · split
    · exact Or.inl rfl
    · split
      · exact Or.inl rfl
      · split
        · exact Or.inl rfl
        · simp only []
          split <;> exact Or.inr rfl

theorem step_onePerDay (s : Store) (q : Request)
    (h : ∀ u d, countFor s.attendance u d ≤ 1) :
    ∀ u d, countFor (step s q).2.attendance u d ≤ 1 := by
  intro u d
  cases q with
  | checkIn user clk f =>
    rcases checkIn_attendance s user clk f with e | ⟨hsel, e⟩
    · simp only [step, e]; exact h u d
    · simp only [step, e, countFor_append]
      by_cases hk : (insertedRow (nextRowid s) user.id clk).user_id = u ∧
          (insertedRow (nextRowid s) user.id clk).date = d
      · have h0 := countFor_eq_zero_of_select_none _ _ _ hsel
        obtain ⟨hu, hd⟩ := hk
        simp only [insertedRow] at hu hd
        subst hu; subst hd
        simp [h0, insertedRow]
      · simp only [hk, if_false, Nat.add_zero]; exact h u d
  | checkOut user clk f =>
    rcases checkOut_attendance s user clk f with e | ⟨a, _, e⟩
    · simp only [step, e]; exact h u d
    · simp only [step, e, countFor_updateCheckOut]; exact h u d
  | deleteAttendance user k f =>
    rcases deleteAttendance_attendance s user k f with e | e
    · simp only [step, e]; exact h u d
    · simp only [step, e]
      exact le_trans (countFor_deleteById_le _ _ _ _) (h u d)

/-! ## Claims -/

/-- C1: starting from an attendance table in which no `(user_id, date)` pair
has more than one record, after any finite sequence of check-in, check-out and
delete-attendance requests executed one after the other, by any users, at any
clock readings and whatever statements report an error, the table still holds
at most one record for every `(user_id, date)` pair. -/
theorem run_one_record_per_user_date (s : Store) (reqs : List Request)
    (h : ∀ u d, countFor s.attendance u d ≤ 1) :
    ∀ u d, countFor (run s reqs).attendance u d ≤ 1 := by
  induction reqs generalizing s with
  | nil => exact h
  | cons q qs ih => exact ih (step s q).2 (step_onePerDay s q h)

theorem run_one_record_per_user_date_witness :
    (∀ u d, countFor emptyStore.attendance u d ≤ 1) ∧
    (∀ u d, countFor (run emptyStore
      [Request.checkIn student clockMorning Faults.none,
       Request.checkIn student clockEvening Faults.none,
       Request.checkOut student clockEvening Faults.none,
       Request.checkIn teacher clockMorning Faults.none,
       Request.deleteAttendance admin 1 Faults.none,
       Request.checkIn student clockEvening Faults.none]).attendance u d ≤ 1) :=
  ⟨fun _ _ => Nat.zero_le _,
   run_one_record_per_user_date emptyStore _ (fun _ _ => Nat.zero_le _)⟩

/-- C2: when the table already holds a record for `(user, today)`, with or
without a check-out time, and the lookup reports no error, a check-in by that
user is answered with the 400 error `Already checked in today` and the store is
the one before the request, so the existing record and its `check_in` time are
as they were. -/
theorem checkIn_twice_rejected (s : Store) (user : Principal) (clk : Clock) (f : Faults)
    (r : AttendanceRow) (hget : f.getErr = false) (hr : r ∈ s.attendance)
    (hu : r.user_id = user.id) (hd : r.date = clk.today) :
    checkIn s user clk f = (Response.error 400 "Already checked in today", s) ∧
    r ∈ (checkIn s user clk f).2.attendance := by
  have hsome : ∃ a, selectByUserDate s.attendance user.id clk.today = some a := by
    cases hsel : selectByUserDate s.attendance user.id clk.today with
    | some a => exact ⟨a, rfl⟩
    | none =>
      unfold selectByUserDate at hsel
      rw [List.find?_eq_none] at hsel
      exact absurd (by simp [hu, hd]) (hsel r hr)
  obtain ⟨a, ha⟩ := hsome
  have e : checkIn s user clk f = (Response.error 400 "Already checked in today", s) := by
    simp [checkIn, hget, ha]
  exact ⟨e, by rw [e]; exact hr⟩

theorem checkIn_twice_rejected_witness :
    checkIn storeCheckedIn student clockEvening Faults.none
      = (Response.error 400 "Already checked in today", storeCheckedIn) ∧
    insertedRow 1 3 clockMorning
      ∈ (checkIn storeCheckedIn student clockEvening Faults.none).2.attendance :=
  checkIn_twice_rejected storeCheckedIn student clockEvening Faults.none
    (insertedRow 1 3 clockMorning) rfl (by decide) rfl rfl

/-- C3: when the table holds no record for `(user, today)` and the lookup
reports no error, a check-out by that user is answered with the 400 error
`No check-in found for today` and the store is the one before the request: no
record is created. -/
theorem checkOut_without_checkIn_rejected (s : Store) (user : Principal) (clk : Clock)
    (f : Faults) (hget : f.getErr = false)
    (hnone : ∀ r ∈ s.attendance, ¬ (r.user_id = user.id ∧ r.date = clk.today)) :
    checkOut s user clk f = (Response.error 400 "No check-in found for today", s) := by
  have hsel : selectOpenByUserDate s.attendance user.id clk.today = none := by
    unfold selectOpenByUserDate
    rw [List.find?_eq_none]
    intro r hr hp
    apply hnone r hr
    simp only [Bool.and_eq_true, beq_iff_eq] at hp
    exact hp.1
  simp [checkOut, hget, hsel]

theorem checkOut_without_checkIn_rejected_witness :
    checkOut emptyStore student clockEvening Faults.none
      = (Response.error 400 "No check-in found for today", emptyStore) :=
  checkOut_without_checkIn_rejected emptyStore student clockEvening Faults.none rfl
    (by intro r hr; exact absurd hr (List.not_mem_nil r))

theorem le_maxRowid (rows : List AttendanceRow) (r : AttendanceRow) (hr : r ∈ rows) :
    r.id ≤ maxRowid rows := by
  induction rows with
  | nil => exact absurd hr (List.not_mem_nil r)
  | cons x xs ih =>
    simp only [maxRowid, List.foldr_cons]
    rcases List.mem_cons.mp hr with h | h
    · subst h; exact le_max_left _ _
    · exact le_trans (ih h) (le_max_right _ _)

theorem lt_nextRowid (s : Store) (r : AttendanceRow) (hr : r ∈ s.attendance) :
    r.id < nextRowid s := by
  unfold nextRowid
  have h1 := le_maxRowid s.attendance r hr
  have h2 : maxRowid s.attendance ≤ max s.attendance_seq (maxRowid s.attendance) :=
    le_max_right _ _
  omega

/-- C4: when the table holds no record for `(user, today)` and no statement
reports an error, a check-in succeeds and the table afterwards is the table
before followed by exactly one new record, whose `user_id` is the requester,
`date` is today, `check_in` is the current time, `check_out` is null and
`status` is `present`; its id is the one returned and is the id of no earlier
record, and every earlier record is unchanged. -/
theorem checkIn_creates_record (s : Store) (user : Principal) (clk : Clock) (f : Faults)
    (hget : f.getErr = false) (hrun : f.runErr = false)
    (hnone : ∀ r ∈ s.attendance, ¬ (r.user_id = user.id ∧ r.date = clk.today)) :
    ∃ lastID : Nat,
      (checkIn s user clk f).1 = Response.checkedIn "Check-in successful" lastID ∧
      (checkIn s user clk f).2.attendance = s.attendance ++
        [{ id := lastID, user_id := user.id, date := clk.today, check_in := some clk.now,
           check_out := Option.none, status := some "present", notes := Option.none,
           created_at := some clk.timestamp }] ∧
      (∀ r ∈ s.attendance, r.id ≠ lastID) ∧
      (∀ r ∈ s.attendance, r ∈ (checkIn s user clk f).2.attendance) := by
  have hsel : selectByUserDate s.attendance user.id clk.today = none := by
    unfold selectByUserDate
    rw [List.find?_eq_none]
    intro r hr hp
    apply hnone r hr
    simpa using hp
  refine ⟨nextRowid s, ?_, ?_, ?_, ?_⟩
  · simp [checkIn, hget, hrun, hsel]
  · simp [checkIn, hget, hrun, hsel, insertedRow]
  · intro r hr; exact Nat.ne_of_lt (lt_nextRowid s r hr)
  · intro r hr
    simp [checkIn, hget, hrun, hsel, hr]

theorem checkIn_creates_record_witness :
    ∃ lastID : Nat,
      (checkIn storeComplete teacher clockMorning Faults.none).1
        = Response.checkedIn "Check-in successful" lastID ∧
      (checkIn storeComplete teacher clockMorning Faults.none).2.attendance
        = storeComplete.attendance ++
        [{ id := lastID, user_id := teacher.id, date := clockMorning.today,
           check_in := some clockMorning.now, check_out := Option.none,
           status := some "present", notes := Option.none,
           created_at := some clockMorning.timestamp }] ∧
      (∀ r ∈ storeComplete.attendance, r.id ≠ lastID) ∧
      (∀ r ∈ storeComplete.attendance,
        r ∈ (checkIn storeComplete teacher clockMorning Faults.none).2.attendance) :=
  checkIn_creates_record storeComplete teacher clockMorning Faults.none rfl rfl
    (by decide)

theorem eq_of_mem_of_id_eq (rows : List AttendanceRow) (hids : (rows.map (fun r => r.id)).Nodup)
    (x r : AttendanceRow) (hx : x ∈ rows) (hr : r ∈ rows) (h : x.id = r.id) : x = r :=
  List.inj_on_of_nodup_map hids hx hr h

theorem eq_of_countFor_le_one (rows : List AttendanceRow) (u : Nat) (d : String)
    (h : countFor rows u d ≤ 1) (x r : AttendanceRow) (hx : x ∈ rows) (hr : r ∈ rows)
    (hxu : x.user_id = u) (hxd : x.date = d) (hru : r.user_id = u) (hrd : r.date = d) :
    x = r := by
  unfold countFor at h
  have hx2 : x ∈ rows.filter (fun r => r.user_id == u && r.date == d) := by
    simp [List.mem_filter, hx, hxu, hxd]
  have hr2 : r ∈ rows.filter (fun r => r.user_id == u && r.date == d) := by
    simp [List.mem_filter, hr, hru, hrd]
  generalize rows.filter (fun r => r.user_id == u && r.date == d) = l at h hx2 hr2
  match l, h, hx2, hr2 with
  | [a], _, hx2, hr2 =>
    rw [List.mem_singleton] at hx2 hr2
    rw [hx2, hr2]

/-- C5: when the record of `(user, today)` has no check-out time and no
statement reports an error, a check-out succeeds and the table afterwards is
the table before with that record's `check_out` set to the current time: the
record's id, `user_id`, `date`, `check_in`, `status` and other columns, and
every other record, are unchanged.  The table is one with a primary key on `id`
and at most one record per `(user_id, date)`. -/
theorem checkOut_sets_check_out (s : Store) (user : Principal) (clk : Clock) (f : Faults)
    (r : AttendanceRow) (hget : f.getErr = false) (hrun : f.runErr = false)
    (hids : (s.attendance.map (fun x => x.id)).Nodup)
    (hone : ∀ u d, countFor s.attendance u d ≤ 1)
    (hr : r ∈ s.attendance) (hu : r.user_id = user.id) (hd : r.date = clk.today)
    (hout : r.check_out = Option.none) :
    checkOut s user clk f =
      (Response.message "Check-out successful",
        { s with attendance := (s.attendance.map
            (fun x => if x = r then { r with check_out := some clk.now } else x)) }) := by
  have hsome : ∃ a, selectOpenByUserDate s.attendance user.id clk.today = some a := by
    cases hsel : selectOpenByUserDate s.attendance user.id clk.today with
    | some a => exact ⟨a, rfl⟩
    | none =>
      unfold selectOpenByUserDate at hsel
      rw [List.find?_eq_none] at hsel
      exact absurd (by simp [hu, hd, hout]) (hsel r hr)
  obtain ⟨a, ha⟩ := hsome
  have ha2 := ha
  unfold selectOpenByUserDate at ha2
  have hmem := List.mem_of_find?_eq_some ha2
  have hp := List.find?_some ha2
  simp only [Bool.and_eq_true, beq_iff_eq] at hp
  have har : a = r :=
    eq_of_countFor_le_one s.attendance user.id clk.today (hone _ _) a r hmem hr
      hp.1.1 hp.1.2 hu hd
  subst har
  have hmap : updateCheckOut s.attendance clk.now a.id
      = s.attendance.map (fun x => if x = a then { a with check_out := some clk.now } else x) := by
    unfold updateCheckOut
    apply List.map_congr_left
    intro x hx
    by_cases hxa : x = a
    · subst hxa; simp
    · have hne : x.id ≠ a.id := fun h => hxa (eq_of_mem_of_id_eq _ hids x a hx hmem h)
      simp [hxa, hne]
  simp [checkOut, hget, hrun, ha, hmap]

theorem checkOut_sets_check_out_witness :
    checkOut storeCheckedIn student clockEvening Faults.none =
      (Response.message "Check-out successful",
        { storeCheckedIn with attendance := (storeCheckedIn.attendance.map
            (fun x => if x = insertedRow 1 3 clockMorning
              then { (insertedRow 1 3 clockMorning) with check_out := some clockEvening.now }
              else x)) }) :=
  checkOut_sets_check_out storeCheckedIn student clockEvening Faults.none
    (insertedRow 1 3 clockMorning) rfl rfl (by decide)
    (by
      intro u d
      have h : storeCheckedIn.attendance = [insertedRow 1 3 clockMorning] := by decide
      rw [h]
      unfold countFor
      exact le_trans (List.length_filter_le _ _) (by simp))
    (by decide) rfl rfl rfl

/-- C6, the claim at a concrete store: after the student checked in and out,
a further check-out is answered with exactly the response given when the
student has no record at all, the 400 error `No check-in found for today`; the
reason is not a distinct one. -/
theorem checkOut_complete_reason_counterexample :
    (∃ r ∈ storeComplete.attendance, r.user_id = student.id ∧ r.date = clockEvening.today ∧
      r.check_in ≠ Option.none ∧ r.check_out ≠ Option.none) ∧
    (∀ r ∈ emptyStore.attendance, ¬ (r.user_id = student.id ∧ r.date = clockEvening.today)) ∧
    ¬ ((checkOut storeComplete student clockEvening Faults.none).1
        ≠ (checkOut emptyStore student clockEvening Faults.none).1) := by
  decide

/-- C6 as the code has it: when the record of `(user, today)` already has a
check-out time (and the table has at most one record per `(user_id, date)`), a
check-out is answered with the 400 error `No check-in found for today`, the
same response as when no record exists, and the store is the one before the
request. -/
theorem checkOut_complete_rejected (s : Store) (user : Principal) (clk : Clock) (f : Faults)
    (r : AttendanceRow) (hget : f.getErr = false)
    (hone : ∀ u d, countFor s.attendance u d ≤ 1)
    (hr : r ∈ s.attendance) (hu : r.user_id = user.id) (hd : r.date = clk.today)
    (hout : r.check_out ≠ Option.none) :
    checkOut s user clk f = (Response.error 400 "No check-in found for today", s) ∧
    (∀ s0 : Store, (∀ x ∈ s0.attendance, ¬ (x.user_id = user.id ∧ x.date = clk.today)) →
      (checkOut s0 user clk f).1 = (checkOut s user clk f).1) := by
  have hsel : selectOpenByUserDate s.attendance user.id clk.today = none := by
    unfold selectOpenByUserDate
    rw [List.find?_eq_none]
    intro x hx hp
    simp only [Bool.and_eq_true, beq_iff_eq] at hp
    have hxr : x = r :=
      eq_of_countFor_le_one s.attendance user.id clk.today (hone _ _) x r hx hr
        hp.1.1 hp.1.2 hu hd
    subst hxr
    cases hc : x.check_out with
    | none => exact hout hc
    | some t => rw [hc] at hp; simp at hp
  have e : checkOut s user clk f = (Response.error 400 "No check-in found for today", s) := by
    simp [checkOut, hget, hsel]
  refine ⟨e, ?_⟩
  intro s0 h0
  have hsel0 : selectOpenByUserDate s0.attendance user.id clk.today = none := by
    unfold selectOpenByUserDate
    rw [List.find?_eq_none]
    intro x hx hp
    simp only [Bool.and_eq_true, beq_iff_eq] at hp
    exact h0 x hx hp.1
  rw [e]
  simp [checkOut, hget, hsel0]

theorem checkOut_complete_rejected_witness :
    checkOut storeComplete student clockEvening Faults.none
      = (Response.error 400 "No check-in found for today", storeComplete) ∧
    (∀ s0 : Store,
      (∀ x ∈ s0.attendance, ¬ (x.user_id = student.id ∧ x.date = clockEvening.today)) →
      (checkOut s0 student clockEvening Faults.none).1
        = (checkOut storeComplete student clockEvening Faults.none).1) :=
  checkOut_complete_rejected storeComplete student clockEvening Faults.none
    { (insertedRow 1 3 clockMorning) with check_out := some clockEvening.now } rfl
    (by
      intro u d
      have h : storeComplete.attendance
          = [{ (insertedRow 1 3 clockMorning) with check_out := some clockEvening.now }] := by
        decide
      rw [h]
      unfold countFor
      exact le_trans (List.length_filter_le _ _) (by simp))
    (by decide) rfl rfl (by decide)

theorem map_id_updateCheckOut (rows : List AttendanceRow) (now : String) (k : Nat) :
    (updateCheckOut rows now k).map (fun r => r.id) = rows.map (fun r => r.id) := by
  unfold updateCheckOut
  rw [List.map_map]
  apply List.map_congr_left
  intro x _
  by_cases h : x.id = k <;> simp [h]

theorem step_ids_nodup (s : Store) (q : Request)
    (hids : (s.attendance.map (fun r => r.id)).Nodup) :
    ((step s q).2.attendance.map (fun r => r.id)).Nodup := by
  cases q with
  | checkIn user clk f =>
    rcases checkIn_attendance s user clk f with e | ⟨_, e⟩
    · simp only [step, e]; exact hids
    · simp only [step, e, List.map_append, List.map_cons, List.map_nil]
      rw [List.nodup_append]
      refine ⟨hids, List.nodup_singleton _, ?_⟩
      intro a ha hb
      rw [List.mem_singleton] at hb
      obtain ⟨r, hr, hra⟩ := List.mem_map.mp ha
      have hlt := lt_nextRowid s r hr
      simp only [insertedRow] at hb
      omega
  | checkOut user clk f =>
    rcases checkOut_attendance s user clk f with e | ⟨a, _, e⟩
    · simp only [step, e]; exact hids
    · simp only [step, e, map_id_updateCheckOut]; exact hids
  | deleteAttendance user k f =>
    rcases deleteAttendance_attendance s user k f with e | e
    · simp only [step, e]; exact hids
    · simp only [step, e]
      unfold deleteById
      exact hids.sublist ((List.filter_sublist _).map _)

theorem step_all_checked_in (s : Store) (q : Request)
    (hci : ∀ r ∈ s.attendance, r.check_in ≠ Option.none) :
    ∀ r ∈ (step s q).2.attendance, r.check_in ≠ Option.none := by
  cases q with
  | checkIn user clk f =>
    rcases checkIn_attendance s user clk f with e | ⟨_, e⟩
    · simp only [step, e]; exact hci
    · simp only [step, e]
      intro r hr
      rcases List.mem_append.mp hr with h | h
      · exact hci r h
      · rw [List.mem_singleton] at h
        subst h
        simp [insertedRow]
  | checkOut user clk f =>
    rcases checkOut_attendance s user clk f with e | ⟨a, _, e⟩
    · simp only [step, e]; exact hci
    · simp only [step, e]
      intro r hr
      unfold updateCheckOut at hr
      obtain ⟨x, hx, hxr⟩ := List.mem_map.mp hr
      have hxc := hci x hx
      by_cases h : x.id = a.id
      · simp only [h, if_true] at hxr
        subst hxr
        exact hxc
      · simp only [h, if_false] at hxr
        subst hxr
        exact hxc
  | deleteAttendance user k f =>
    rcases deleteAttendance_attendance s user k f with e | e
    · simp only [step, e]; exact hci
    · simp only [step, e]
      intro r hr
      unfold deleteById at hr
      exact hci r (List.mem_filter.mp hr).1

theorem step_keeps_complete (s : Store) (q : Request)
    (hids : (s.attendance.map (fun r => r.id)).Nodup) (hq : q.isDelete = false)
    (r : AttendanceRow) (hr : r ∈ s.attendance) (hout : r.check_out ≠ Option.none) :
    r ∈ (step s q).2.attendance := by
  cases q with
  | checkIn user clk f =>
    rcases checkIn_attendance s user clk f with e | ⟨_, e⟩
    · simp only [step, e]; exact hr
    · simp only [step, e]; exact List.mem_append_left _ hr
  | checkOut user clk f =>
    rcases checkOut_attendance s user clk f with e | ⟨a, ha, e⟩
    · simp only [step, e]; exact hr
    · simp only [step, e]
      unfold selectOpenByUserDate at ha
      have hmem := List.mem_of_find?_eq_some ha
      have hp := List.find?_some ha
      simp only [Bool.and_eq_true, beq_iff_eq] at hp
      have hne : r.id ≠ a.id := by
        intro h
        have hra := eq_of_mem_of_id_eq _ hids r a hr hmem h
        subst hra
        cases hc : r.check_out with
        | none => exact hout hc
        | some t => rw [hc] at hp; simp at hp
      unfold updateCheckOut
      exact List.mem_map.mpr ⟨r, hr, by simp [hne]⟩
  | deleteAttendance user k f => simp [Request.isDelete] at hq

theorem run_ids_nodup (s : Store) (reqs : List Request)
    (hids : (s.attendance.map (fun r => r.id)).Nodup) :
    ((run s reqs).attendance.map (fun r => r.id)).Nodup := by
  induction reqs generalizing s with
  | nil => exact hids
  | cons q qs ih => exact ih (step s q).2 (step_ids_nodup s q hids)

theorem run_all_checked_in (s : Store) (reqs : List Request)
    (hci : ∀ r ∈ s.attendance, r.check_in ≠ Option.none) :
    ∀ r ∈ (run s reqs).attendance, r.check_in ≠ Option.none := by
  induction reqs generalizing s with
  | nil => exact hci
  | cons q qs ih => exact ih (step s q).2 (step_all_checked_in s q hci)

theorem run_keeps_complete (s : Store) (reqs : List Request)
    (hids : (s.attendance.map (fun r => r.id)).Nodup)
    (hreqs : ∀ q ∈ reqs, q.isDelete = false)
    (r : AttendanceRow) (hr : r ∈ s.attendance) (hout : r.check_out ≠ Option.none) :
    r ∈ (run s reqs).attendance := by
  induction reqs generalizing s with
  | nil => exact hr
  | cons q qs ih =>
    exact ih (step s q).2 (step_ids_nodup s q hids)
      (fun x hx => hreqs x (List.mem_cons_of_mem _ hx))
      (step_keeps_complete s q hids (hreqs q (List.mem_cons_self _ _)) r hr hout)

/-- C7: start from a table with a primary key on `id` in which every record
has a check-in time (the empty table of a fresh database is one), and run any
sequence `before` of requests and then any sequence `later` of check-in and
check-out requests.  (a) After `before`, every record with a check-out time has
a check-in time.  (b) Every record that has a check-out time after `before` is
still in the table after `later`, unchanged in every column, and is the only
record with its id: its check-out time was neither changed nor cleared. -/
theorem check_out_set_once (s : Store) (before later : List Request)
    (hids : (s.attendance.map (fun r => r.id)).Nodup)
    (hci : ∀ r ∈ s.attendance, r.check_in ≠ Option.none)
    (hlater : ∀ q ∈ later, q.isDelete = false) :
    (∀ r ∈ (run s before).attendance, r.check_out ≠ Option.none → r.check_in ≠ Option.none) ∧
    (∀ r ∈ (run s before).attendance, r.check_out ≠ Option.none →
      r ∈ (run (run s before) later).attendance ∧
      ∀ x ∈ (run (run s before) later).attendance, x.id = r.id → x = r) := by
  have hmid := run_ids_nodup s before hids
  refine ⟨fun r hr _ => run_all_checked_in s before hci r hr, ?_⟩
  intro r hr hout
  have hkeep := run_keeps_complete (run s before) later hmid hlater r hr hout
  refine ⟨hkeep, ?_⟩
  intro x hx hxr
  exact eq_of_mem_of_id_eq _ (run_ids_nodup _ later hmid) x r hx hkeep hxr

theorem check_out_set_once_witness :
    (∀ r ∈ (run emptyStore
        [Request.checkIn student clockMorning Faults.none,
         Request.checkOut student clockEvening Faults.none]).attendance,
      r.check_out ≠ Option.none → r.check_in ≠ Option.none) ∧
    (∀ r ∈ (run emptyStore
        [Request.checkIn student clockMorning Faults.none,
         Request.checkOut student clockEvening Faults.none]).attendance,
      r.check_out ≠ Option.none →
      r ∈ (run (run emptyStore
          [Request.checkIn student clockMorning Faults.none,
           Request.checkOut student clockEvening Faults.none])
          [Request.checkIn student clockEvening Faults.none,
           Request.checkOut student clockMorning Faults.none,
           Request.checkIn teacher clockMorning Faults.none]).attendance ∧
      ∀ x ∈ (run (run emptyStore
          [Request.checkIn student clockMorning Faults.none,
           Request.checkOut student clockEvening Faults.none])
          [Request.checkIn student clockEvening Faults.none,
           Request.checkOut student clockMorning Faults.none,
           Request.checkIn teacher clockMorning Faults.none]).attendance,
        x.id = r.id → x = r) :=
  check_out_set_once emptyStore
    [Request.checkIn student clockMorning Faults.none,
     Request.checkOut student clockEvening Faults.none]
    [Request.checkIn student clockEvening Faults.none,
     Request.checkOut student clockMorning Faults.none,
     Request.checkIn teacher clockMorning Faults.none]
    (by decide) (by decide) (by decide)

/-- C8: the today-status query leaves the store as it was, whatever the lookup
reports; when the lookup reports no error the response carries a record of the
table with `user_id` the requester and `date` today if the table has one, and
null if it has none. -/
theorem attendanceToday_reads (s : Store) (user : Principal) (clk : Clock) (f : Faults) :
    (attendanceToday s user clk f).2 = s ∧
    (f.getErr = false →
      ((∃ r ∈ s.attendance, r.user_id = user.id ∧ r.date = clk.today) →
        ∃ r ∈ s.attendance, r.user_id = user.id ∧ r.date = clk.today ∧
          (attendanceToday s user clk f).1 = Response.attendance (some r)) ∧
      ((∀ r ∈ s.attendance, ¬ (r.user_id = user.id ∧ r.date = clk.today)) →
        (attendanceToday s user clk f).1 = Response.attendance Option.none)) := by
  refine ⟨?_, ?_⟩
  · unfold attendanceToday
    split <;> rfl
  · intro hget
    have e : (attendanceToday s user clk f).1
        = Response.attendance (selectByUserDate s.attendance user.id clk.today) := by
      simp [attendanceToday, hget]
    rw [e]
    refine ⟨?_, ?_⟩
    · rintro ⟨r, hr, hu, hd⟩
      cases hsel : selectByUserDate s.attendance user.id clk.today with
      | none =>
        unfold selectByUserDate at hsel
        rw [List.find?_eq_none] at hsel
        exact absurd (by simp [hu, hd]) (hsel r hr)
      | some a =>
        unfold selectByUserDate at hsel
        have hp := List.find?_some hsel
        simp only [Bool.and_eq_true, beq_iff_eq] at hp
        exact ⟨a, List.mem_of_find?_eq_some hsel, hp.1, hp.2, rfl⟩
    · intro hnone
      have hsel : selectByUserDate s.attendance user.id clk.today = none := by
        unfold selectByUserDate
        rw [List.find?_eq_none]
        intro r hr hp
        apply hnone r hr
        simpa using hp
      rw [hsel]

theorem attendanceToday_reads_witness :
    (attendanceToday storeComplete student clockEvening Faults.none).2 = storeComplete ∧
    (Faults.none.getErr = false →
      ((∃ r ∈ storeComplete.attendance,
          r.user_id = student.id ∧ r.date = clockEvening.today) →
        ∃ r ∈ storeComplete.attendance,
          r.user_id = student.id ∧ r.date = clockEvening.today ∧
          (attendanceToday storeComplete student clockEvening Faults.none).1
            = Response.attendance (some r)) ∧
      ((∀ r ∈ storeComplete.attendance,
          ¬ (r.user_id = student.id ∧ r.date = clockEvening.today)) →
        (attendanceToday storeComplete student clockEvening Faults.none).1
          = Response.attendance Option.none)) :=
  attendanceToday_reads storeComplete student clockEvening Faults.none

theorem padStart_toString_lt_hundred (n : Nat) (h : n < 100) :
    padStart (toString (Int.ofNat n)) 2 '0' = twoDigits n := by
  interval_cases n <;> rfl

theorem calculateHoursWorked_dates (date : String → Option Int) (nowMs : Int) (ci : String)
    (checkOut : Option String) (a e : Int) (hci : ci ≠ "") (ha : date ci = some a)
    (he : endTime date nowMs checkOut = some e) :
    calculateHoursWorked date nowMs (some ci) checkOut
      = padStart (toString (Int.fdiv (e - a) (1000 * 60 * 60))) 2 '0'
        ++ ":" ++
        padStart (toString (Int.fdiv (Int.tmod (e - a) (1000 * 60 * 60)) (1000 * 60))) 2 '0' := by
  simp [calculateHoursWorked, truthy, hci, ha, he]

theorem parseTimeOfDay_ne_empty (text : String) (t : TimeOfDay)
    (h : parseTimeOfDay text = some t) : text ≠ "" := by
  intro he
  subst he
  have hnone : parseTimeOfDay "" = Option.none := by decide
  rw [hnone] at h
  exact absurd h (by simp)

theorem localDate_noShift (text : String) (t : TimeOfDay) (h : parseTimeOfDay text = some t)
    (hr : t.inRange = true) : localDate noShift text = some t.toMs := by
  simp [localDate, h, hr, noShift]

theorem toMs_bounds (t : TimeOfDay) (hr : t.inRange = true) :
    0 ≤ t.toMs ∧ t.toMs < 24 * 60 * 60 * 1000 := by
  simp only [TimeOfDay.inRange, Bool.and_eq_true, decide_eq_true_eq] at hr
  unfold TimeOfDay.toMs
  omega

/-- C9: for a check-in time `ci` whose `Date` has the time value `a` and an
end time `e` (the time value of the `Date` of the check-out time, or of the
current time when check-out is absent or empty) with `e` not before `a` and
less than a hundred hours after it, as any end of the same day is,
`calculateHoursWorked` returns the two-digit zero-padded `HH:MM` with
`HH = M / 60`, `MM = M % 60` and `M` the whole minutes from `a` to `e`,
rounded down; when check-in is absent or empty it returns `--:--`.  With a
`Date` that reads the texts `HH:MM:SS` on a day whose clocks are not changed,
`M` is the whole minutes between the two times of day, check-in 09:00:00 and
check-out 17:30:00 give `08:30`, and so does check-in 09:00:00 without a
check-out half a second after 17:30:00. -/
theorem calculateHoursWorked_same_day (date : String → Option Int) (nowMs : Int) (ci : String)
    (checkOut : Option String) (a e : Int) (hci : ci ≠ "") (ha : date ci = some a)
    (he : endTime date nowMs checkOut = some e) (hle : a ≤ e)
    (hday : e - a < 100 * 60 * 60 * 1000) :
    calculateHoursWorked date nowMs (some ci) checkOut
      = twoDigits (((e - a) / 60000).toNat / 60) ++ ":" ++
        twoDigits (((e - a) / 60000).toNat % 60) ∧
    calculateHoursWorked date nowMs Option.none checkOut = "--:--" ∧
    calculateHoursWorked date nowMs (some "") checkOut = "--:--" ∧
    (∀ (co : String) (x y : TimeOfDay), parseTimeOfDay ci = some x →
      parseTimeOfDay co = some y → x.inRange = true → y.inRange = true → x.toMs ≤ y.toMs →
      calculateHoursWorked (localDate noShift) nowMs (some ci) (some co)
        = twoDigits (((y.toMs - x.toMs) / 60000).toNat / 60) ++ ":" ++
          twoDigits (((y.toMs - x.toMs) / 60000).toNat % 60)) ∧
    calculateHoursWorked (localDate noShift) nowMs (some "09:00:00") (some "17:30:00")
      = "08:30" ∧
    calculateHoursWorked (localDate noShift) 63000500 (some "09:00:00") Option.none
      = "08:30" := by
  have key : ∀ (d : String → Option Int) (now : Int) (c : String) (out : Option String)
      (p x : Int), c ≠ "" → d c = some p → endTime d now out = some x → p ≤ x →
      x - p < 100 * 60 * 60 * 1000 →
      calculateHoursWorked d now (some c) out
        = twoDigits (((x - p) / 60000).toNat / 60) ++ ":" ++
          twoDigits (((x - p) / 60000).toNat % 60) := by
    intro d now c out p x hc hp hx hlex hdayx
    obtain ⟨n, hn⟩ := Int.eq_ofNat_of_zero_le (sub_nonneg.mpr hlex)
    have hn100 : n < 360000000 := by omega
    rw [calculateHoursWorked_dates d now c out p x hc hp hx, hn]
    have h1 : Int.fdiv (↑n) (1000 * 60 * 60) = Int.ofNat (n / 3600000) := by
      rw [Int.fdiv_eq_ediv _ (by norm_num)]
      norm_num
    have h2 : Int.fdiv (Int.tmod (↑n) (1000 * 60 * 60)) (1000 * 60)
        = Int.ofNat (n % 3600000 / 60000) := by
      rw [Int.tmod_eq_emod (by omega) (by norm_num), Int.fdiv_eq_ediv _ (by norm_num)]
      norm_num
    rw [h1, h2, padStart_toString_lt_hundred _ (by omega),
      padStart_toString_lt_hundred _ (by omega)]
    have h3 : ((n : Int) / 60000).toNat = n / 60000 := by
      have : ((n : Int) / 60000) = ((n / 60000 : Nat) : Int) := by norm_num
      rw [this]; rfl
    rw [h3]
    have h4 : n / 60000 / 60 = n / 3600000 := by omega
    have h5 : n / 60000 % 60 = n % 3600000 / 60000 := by omega
    rw [h4, h5]
  refine ⟨key date nowMs ci checkOut a e hci ha he hle hday, rfl, rfl, ?_, ?_, ?_⟩
  · intro co x y hx hy hxr hyr hxy
    have hco : co ≠ "" := parseTimeOfDay_ne_empty co y hy
    have hend : endTime (localDate noShift) nowMs (some co) = some y.toMs := by
      simp [endTime, truthy, hco, localDate_noShift co y hy hyr]
    have hb := toMs_bounds x hxr
    have hb2 := toMs_bounds y hyr
    exact key (localDate noShift) nowMs ci (some co) x.toMs y.toMs hci
      (localDate_noShift ci x hx hxr) hend hxy (by omega)
  · have hout : localDate noShift "17:30:00" = some 63000000 := by decide
    rw [key (localDate noShift) nowMs "09:00:00" (some "17:30:00") 32400000 63000000
      (by decide) (by decide) (by simp [endTime, truthy, hout]) (by decide) (by decide)]
    decide
  · rw [key (localDate noShift) 63000500 "09:00:00" Option.none 32400000 63000500
      (by decide) (by decide) (by decide) (by decide) (by decide)]
    decide

theorem calculateHoursWorked_same_day_witness :
    calculateHoursWorked (localDate springForward) 0 (some "01:00:00") (some "04:00:00")
      = twoDigits (((10800000 - 3600000 : Int) / 60000).toNat / 60) ++ ":" ++
        twoDigits (((10800000 - 3600000 : Int) / 60000).toNat % 60) ∧
    calculateHoursWorked (localDate springForward) 0 Option.none (some "04:00:00") = "--:--" ∧
    calculateHoursWorked (localDate springForward) 0 (some "") (some "04:00:00") = "--:--" ∧
    (∀ (co : String) (x y : TimeOfDay), parseTimeOfDay "01:00:00" = some x →
      parseTimeOfDay co = some y → x.inRange = true → y.inRange = true → x.toMs ≤ y.toMs →
      calculateHoursWorked (localDate noShift) 0 (some "01:00:00") (some co)
        = twoDigits (((y.toMs - x.toMs) / 60000).toNat / 60) ++ ":" ++
          twoDigits (((y.toMs - x.toMs) / 60000).toNat % 60)) ∧
    calculateHoursWorked (localDate noShift) 0 (some "09:00:00") (some "17:30:00")
      = "08:30" ∧
    calculateHoursWorked (localDate noShift) 63000500 (some "09:00:00") Option.none
      = "08:30" :=
  calculateHoursWorked_same_day (localDate springForward) 0 "01:00:00" (some "04:00:00")
    3600000 10800000 (by decide) (by decide) (by decide) (by decide) (by decide)

theorem selectById_eq_some (rows : List AttendanceRow)
    (hids : (rows.map (fun r => r.id)).Nodup) (r : AttendanceRow) (hr : r ∈ rows) :
    selectById rows r.id = some r := by
  cases hsel : selectById rows r.id with
  | none =>
    unfold selectById at hsel
    rw [List.find?_eq_none] at hsel
    exact absurd (by simp) (hsel r hr)
  | some a =>
    unfold selectById at hsel
    have hp := List.find?_some hsel
    simp only [beq_iff_eq] at hp
    rw [eq_of_mem_of_id_eq rows hids a r (List.mem_of_find?_eq_some hsel) hr hp]

theorem deleteById_eq_filter_ne (rows : List AttendanceRow)
    (hids : (rows.map (fun r => r.id)).Nodup) (r : AttendanceRow) (hr : r ∈ rows) :
    deleteById rows r.id = rows.filter (fun x => decide (x ≠ r)) := by
  unfold deleteById
  apply List.filter_congr
  intro x hx
  by_cases hxr : x = r
  · subst hxr; simp
  · have hne : x.id ≠ r.id := fun h => hxr (eq_of_mem_of_id_eq rows hids x r hx hr h)
    simp [hxr, hne]

theorem length_filter_ne (rows : List AttendanceRow)
    (hids : (rows.map (fun r => r.id)).Nodup) (r : AttendanceRow) (hr : r ∈ rows) :
    (rows.filter (fun x => decide (x ≠ r))).length + 1 = rows.length := by
  have hnd : rows.Nodup := List.Nodup.of_map _ hids
  induction rows with
  | nil => exact absurd hr (List.not_mem_nil r)
  | cons x xs ih =>
    rw [List.nodup_cons] at hnd
    by_cases hxr : x = r
    · subst hxr
      have hall : xs.filter (fun y => decide (y ≠ x)) = xs := by
        rw [List.filter_eq_self]
        intro y hy
        have : y ≠ x := fun h => hnd.1 (h ▸ hy)
        simpa using this
      have hp : decide (x ≠ x) = false := by simp
      rw [List.filter_cons, hp]
      simp only [Bool.false_eq_true, if_false]
      rw [hall, List.length_cons]
    · have hr2 : r ∈ xs := by
        rcases List.mem_cons.mp hr with h | h
        · exact absurd h.symm hxr
        · exact h
      have hids2 : (xs.map (fun r => r.id)).Nodup := by
        rw [List.map_cons, List.nodup_cons] at hids
        exact hids.2
      have hlen := ih hids2 hr2 hnd.2
      have hp : decide (x ≠ r) = true := by simpa using hxr
      rw [List.filter_cons, hp]
      simp only [if_true, List.length_cons]
      omega

/-- C10: on a table with a primary key on `id`, when no statement reports an
error: if no record has the id the delete-attendance request is answered 404
`Attendance record not found` and the store is unchanged; if the record exists
and the requester is neither its owner nor an admin it is answered 403
`Access denied` and the store is unchanged; if the record exists and the
requester is its owner or an admin it succeeds and the table afterwards is the
table before without that one record, every other record unchanged and in
place. -/
theorem deleteAttendance_outcomes (s : Store) (user : Principal) (attendanceId : Nat)
    (f : Faults) (hget : f.getErr = false) (hrun : f.runErr = false)
    (hids : (s.attendance.map (fun r => r.id)).Nodup) :
    ((∀ r ∈ s.attendance, r.id ≠ attendanceId) →
      deleteAttendance s user attendanceId f
        = (Response.error 404 "Attendance record not found", s)) ∧
    (∀ r ∈ s.attendance, r.id = attendanceId →
      r.user_id ≠ user.id ∧ user.role ≠ "admin" →
      deleteAttendance s user attendanceId f = (Response.error 403 "Access denied", s)) ∧
    (∀ r ∈ s.attendance, r.id = attendanceId →
      r.user_id = user.id ∨ user.role = "admin" →
      deleteAttendance s user attendanceId f
        = (Response.message "Attendance record deleted successfully",
            { s with attendance := (s.attendance.filter (fun x => decide (x ≠ r))) }) ∧
      (s.attendance.filter (fun x => decide (x ≠ r))).length + 1 = s.attendance.length) := by
  refine ⟨?_, ?_, ?_⟩
  · intro hnone
    have hsel : selectById s.attendance attendanceId = none := by
      unfold selectById
      rw [List.find?_eq_none]
      intro r hr hp
      exact hnone r hr (by simpa using hp)
    simp [deleteAttendance, hget, hsel]
  · intro r hr hid hdeny
    subst hid
    have hsel := selectById_eq_some s.attendance hids r hr
    simp [deleteAttendance, hget, hsel, hdeny]
  · intro r hr hid hallow
    subst hid
    have hsel := selectById_eq_some s.attendance hids r hr
    have hlen := length_filter_ne s.attendance hids r hr
    have hdel := deleteById_eq_filter_ne s.attendance hids r hr
    have hnot : ¬ (r.user_id ≠ user.id ∧ user.role ≠ "admin") := by
      rintro ⟨h1, h2⟩
      rcases hallow with h | h
      · exact h1 h
      · exact h2 h
    have hchanges : s.attendance.length
        - (s.attendance.filter (fun x => decide (x ≠ r))).length ≠ 0 := by omega
    refine ⟨?_, hlen⟩
    simp only [deleteAttendance, hget, hrun, hsel, hdel, hnot, hchanges, if_false,
      Bool.false_eq_true]

theorem deleteAttendance_outcomes_witness :
    ((∀ r ∈ storeComplete.attendance, r.id ≠ 1) →
      deleteAttendance storeComplete teacher 1 Faults.none
        = (Response.error 404 "Attendance record not found", storeComplete)) ∧
    (∀ r ∈ storeComplete.attendance, r.id = 1 →
      r.user_id ≠ teacher.id ∧ teacher.role ≠ "admin" →
      deleteAttendance storeComplete teacher 1 Faults.none
        = (Response.error 403 "Access denied", storeComplete)) ∧
    (∀ r ∈ storeComplete.attendance, r.id = 1 →
      r.user_id = teacher.id ∨ teacher.role = "admin" →
      deleteAttendance storeComplete teacher 1 Faults.none
        = (Response.message "Attendance record deleted successfully",
            { storeComplete with
              attendance := (storeComplete.attendance.filter (fun x => decide (x ≠ r))) }) ∧
      (storeComplete.attendance.filter (fun x => decide (x ≠ r))).length + 1
        = storeComplete.attendance.length) :=
  deleteAttendance_outcomes storeComplete teacher 1 Faults.none rfl rfl (by decide)

/-! ## Lemmas on the user and class-scoped routes -/

theorem selectUserById_isSome (users : List User) (userId : Nat)
    (h : ∃ u ∈ users, u.id = userId) : ∃ v, selectUserById users userId = some v := by
  obtain ⟨u, hu, hid⟩ := h
  cases hsel : selectUserById users userId with
  | some v => exact ⟨v, rfl⟩
  | none =>
    unfold selectUserById at hsel
    rw [List.find?_eq_none] at hsel
    exact absurd (by simp [hid]) (hsel u hu)

theorem length_filter_users_lt (users : List User) (userId : Nat)
    (h : ∃ u ∈ users, u.id = userId) :
    (users.filter (fun u => u.id != userId)).length < users.length := by
  induction users with
  | nil => obtain ⟨u, hu, _⟩ := h; exact absurd hu (List.not_mem_nil u)
  | cons x xs ih =>
    by_cases hx : x.id = userId
    · have hp : (x.id != userId) = false := by simp [hx]
      rw [List.filter_cons, hp]
      simp only [Bool.false_eq_true, if_false, List.length_cons]
      exact Nat.lt_succ_of_le (List.length_filter_le _ _)
    · have hp : (x.id != userId) = true := by simp [hx]
      rw [List.filter_cons, hp]
      simp only [if_true, List.length_cons]
      obtain ⟨u, hu, hid⟩ := h
      rcases List.mem_cons.mp hu with e | hmem
      · subst e; exact absurd hid hx
      · exact Nat.succ_lt_succ (ih ⟨u, hmem, hid⟩)

theorem digitChar_isDigit (k : Nat) (hk : k < 10) :
    isDigitChar (Nat.digitChar k) = true ∧ (Nat.digitChar k).toNat - 48 = k := by
  interval_cases k <;> decide

theorem digitsValue_append_singleton (l : List Char) (d : Char) :
    digitsValue (l ++ [d]) = 10 * digitsValue l + (d.toNat - 48) := by
  simp [digitsValue, List.foldl_append]

theorem toDigitsCore_spec (fuel : Nat) : ∀ (n : Nat) (ds : List Char), n < fuel →
    ∃ l : List Char, Nat.toDigitsCore 10 fuel n ds = l ++ ds ∧ l ≠ [] ∧
      (∀ c ∈ l, isDigitChar c = true) ∧ digitsValue l = n := by
  induction fuel with
  | zero => intro n ds h; omega
  | succ fuel ih =>
    intro n ds hn
    have hd := digitChar_isDigit (n % 10) (Nat.mod_lt _ (by norm_num))
    by_cases h0 : n / 10 = 0
    · refine ⟨[Nat.digitChar (n % 10)], ?_, by simp, ?_, ?_⟩
      · simp [Nat.toDigitsCore, h0]
      · intro c hc
        rw [List.mem_singleton] at hc
        rw [hc]; exact hd.1
      · have : digitsValue [Nat.digitChar (n % 10)] = (Nat.digitChar (n % 10)).toNat - 48 := by
          simp [digitsValue]
        rw [this, hd.2]
        omega
    · obtain ⟨l, hl, hne, hall, hval⟩ := ih (n / 10) (Nat.digitChar (n % 10) :: ds) (by omega)
      refine ⟨l ++ [Nat.digitChar (n % 10)], ?_, by simp, ?_, ?_⟩
      · simp [Nat.toDigitsCore, h0, hl]
      · intro c hc
        rcases List.mem_append.mp hc with h | h
        · exact hall c h
        · rw [List.mem_singleton] at h
          rw [h]; exact hd.1
      · rw [digitsValue_append_singleton, hval, hd.2]
        omega

theorem toString_nat_digits (n : Nat) :
    ∃ l : List Char, toString n = String.mk l ∧ l ≠ [] ∧
      (∀ c ∈ l, isDigitChar c = true) ∧ digitsValue l = n := by
  obtain ⟨l, hl, hne, hall, hval⟩ := toDigitsCore_spec (n + 1) n [] (by omega)
  refine ⟨l, ?_, hne, hall, hval⟩
  show Nat.repr n = String.mk l
  simp [Nat.repr, Nat.toDigits, hl, List.asString]

theorem isDigitChar_not_space (c : Char) (h : isDigitChar c = true) :
    isJsSpaceChar c = false := by
  simp only [isDigitChar, Bool.and_eq_true, decide_eq_true_eq] at h
  simp only [isJsSpaceChar, isSpaceChar, Bool.or_eq_false_iff, Bool.and_eq_false_iff,
    beq_eq_false_iff_ne, decide_eq_false_iff_not]
  omega

theorem isDigitChar_plain (c : Char) (h : isDigitChar c = true) :
    isSpaceChar c = false ∧ c ≠ '-' ∧ c ≠ '+' ∧ c ≠ 'x' ∧ c ≠ 'X' := by
  refine ⟨?_, ?_, ?_, ?_, ?_⟩
  · simp only [isDigitChar, Bool.and_eq_true, decide_eq_true_eq] at h
    simp only [isSpaceChar, Bool.or_eq_false_iff, Bool.and_eq_false_iff, beq_eq_false_iff_ne,
      decide_eq_false_iff_not]
    omega
  all_goals
    intro hc
    rw [hc] at h
    exact absurd h (by decide)

theorem dropWhile_of_all_false (p : Char → Bool) (l : List Char)
    (h : ∀ c ∈ l, p c = false) : l.dropWhile p = l := by
  cases l with
  | nil => rfl
  | cons c rest => simp [List.dropWhile, h c (List.mem_cons_self _ _)]

theorem takeWhile_of_all (p : Char → Bool) (l : List Char)
    (h : ∀ c ∈ l, p c = true) : l.takeWhile p = l ∧ l.dropWhile p = [] := by
  induction l with
  | nil => exact ⟨rfl, rfl⟩
  | cons c rest ih =>
    have hc := h c (List.mem_cons_self _ _)
    have := ih (fun x hx => h x (List.mem_cons_of_mem _ hx))
    simp [List.takeWhile, List.dropWhile, hc, this]

theorem dropSign_digits (l : List Char) (hall : ∀ c ∈ l, isDigitChar c = true) :
    dropSign l = l ∧ (l.head? == some '-') = false := by
  cases l with
  | nil => exact ⟨rfl, rfl⟩
  | cons c rest =>
    have hc := isDigitChar_plain c (hall c (List.mem_cons_self _ _))
    refine ⟨?_, ?_⟩
    · unfold dropSign
      split
      · next heq => exact absurd (List.cons.inj heq).1 hc.2.1
      · next heq => exact absurd (List.cons.inj heq).1 hc.2.2.1
      · rfl
    · simp [hc.2.1]

theorem jsParseInt_digits (l : List Char) (hne : l ≠ [])
    (hall : ∀ c ∈ l, isDigitChar c = true) :
    jsParseInt (String.mk l) = some (digitsValue l : Int) := by
  have hsp : l.dropWhile isJsSpaceChar = l :=
    dropWhile_of_all_false _ l (fun c hc => isDigitChar_not_space c (hall c hc))
  have hds := dropSign_digits l hall
  have htw := takeWhile_of_all isDigitChar l hall
  have hemp : l.isEmpty = false := by
    cases l with
    | nil => exact absurd rfl hne
    | cons _ _ => rfl
  unfold jsParseInt
  simp only [String.toList, hsp, hds.1, hds.2, Bool.false_eq_true, if_false]
  split
  · next r =>
    have := (isDigitChar_plain 'x' (hall 'x' (by simp))).2.2.2.1
    exact absurd rfl this
  · next r =>
    have := (isDigitChar_plain 'X' (hall 'X' (by simp))).2.2.2.2
    exact absurd rfl this
  · simp [htw.1, hemp]

theorem sqliteRowid_digits (l : List Char) (hne : l ≠ [])
    (hall : ∀ c ∈ l, isDigitChar c = true) :
    sqliteRowid (String.mk l) = some (digitsValue l) := by
  have hsp : l.dropWhile isSpaceChar = l :=
    dropWhile_of_all_false _ l (fun c hc => (isDigitChar_plain c (hall c hc)).1)
  have hsp2 : l.reverse.dropWhile isSpaceChar = l.reverse :=
    dropWhile_of_all_false _ l.reverse
      (fun c hc => (isDigitChar_plain c (hall c (List.mem_reverse.mp hc))).1)
  have hds := dropSign_digits l hall
  have htw := takeWhile_of_all isDigitChar l hall
  have hemp : l.isEmpty = false := by
    cases l with
    | nil => exact absurd rfl hne
    | cons _ _ => rfl
  unfold sqliteRowid
  simp [String.toList, hsp, hsp2, hds.1, hds.2, htw.1, htw.2, hemp, exponentOf]

/-- The decimal numeral of a number is read as that number by `parseInt` and
by SQLite. -/
theorem decimal_text_reads (n : Nat) :
    jsParseInt (toString n) = some (n : Int) ∧ sqliteRowid (toString n) = some n := by
  obtain ⟨l, hl, hne, hall, hval⟩ := toString_nat_digits n
  rw [hl, jsParseInt_digits l hne hall, sqliteRowid_digits l hne hall, hval]
  exact ⟨rfl, rfl⟩

/-- For an admin and a route parameter that both `parseInt` and SQLite read as
`n`, the id of an existing user other than the admin's own, the handler runs
the two `DELETE` statements for `n` once the lookup reports no error. -/
theorem deleteUser_reads (s : Store) (user : Principal) (userId : String) (n : Nat)
    (f : Faults) (hrole : user.role = "admin")
    (hparse : jsParseInt userId = some (n : Int)) (hsql : sqliteRowid userId = some n)
    (hne : n ≠ user.id) (hex : ∃ u ∈ s.users, u.id = n) (hget : f.getErr = false) :
    deleteUser s user userId f = deleteUserRows s n f := by
  obtain ⟨v, hv⟩ := selectUserById_isSome s.users n hex
  simp [deleteUser, hrole, hparse, hne, hget, hsql, hv]

/-- The delete-user cascade for a route parameter that both `parseInt` and
SQLite read as `n`, the id of an existing user other than the requester's. -/
theorem deleteUser_cascade_of_reads (s : Store) (user : Principal) (userId : String) (n : Nat)
    (f : Faults) (hrole : user.role = "admin")
    (hparse : jsParseInt userId = some (n : Int)) (hsql : sqliteRowid userId = some n)
    (hne : n ≠ user.id) (hex : ∃ u ∈ s.users, u.id = n) (hget : f.getErr = false) :
    (f.runErr = false → f.runErr2 = false →
      deleteUser s user userId f =
        (Response.message "User and all associated data deleted successfully",
          { s with attendance := (s.attendance.filter (fun a => a.user_id != n)),
                   users := (s.users.filter (fun u => u.id != n)) }) ∧
      (∀ a ∈ (deleteUser s user userId f).2.attendance, a.user_id ≠ n) ∧
      (∀ u ∈ (deleteUser s user userId f).2.users, u.id ≠ n)) ∧
    (f.runErr = true →
      deleteUser s user userId f = (Response.error 500 "Database error", s)) ∧
    (f.runErr = false → f.runErr2 = true →
      deleteUser s user userId f =
        (Response.error 500 "Database error",
          { s with attendance := (s.attendance.filter (fun a => a.user_id != n)) }) ∧
      (∃ u ∈ (deleteUser s user userId f).2.users, u.id = n) ∧
      (∀ a ∈ (deleteUser s user userId f).2.attendance, a.user_id ≠ n)) ∧
    ((∀ a ∈ s.attendance, ∃ u ∈ s.users, u.id = a.user_id) →
      ∀ a ∈ (deleteUser s user userId f).2.attendance,
        ∃ u ∈ (deleteUser s user userId f).2.users, u.id = a.user_id) := by
  obtain ⟨v, hv⟩ := selectUserById_isSome s.users n hex
  have hlen := length_filter_users_lt s.users n hex
  have hchanges : s.users.length - (s.users.filter (fun u => u.id != n)).length ≠ 0 := by
    omega
  have hok : f.runErr = false → f.runErr2 = false →
      deleteUser s user userId f =
        (Response.message "User and all associated data deleted successfully",
          { s with attendance := (s.attendance.filter (fun a => a.user_id != n)),
                   users := (s.users.filter (fun u => u.id != n)) }) := by
    intro hrun hrun2
    simp [deleteUser, deleteUserRows, hrole, hparse, hne, hget, hsql, hv, hrun, hrun2, hchanges]
  have hfail1 : f.runErr = true →
      deleteUser s user userId f = (Response.error 500 "Database error", s) := by
    intro hrun
    simp [deleteUser, deleteUserRows, hrole, hparse, hne, hget, hsql, hv, hrun]
  have hfail2 : f.runErr = false → f.runErr2 = true →
      deleteUser s user userId f =
        (Response.error 500 "Database error",
          { s with attendance := (s.attendance.filter (fun a => a.user_id != n)) }) := by
    intro hrun hrun2
    simp [deleteUser, deleteUserRows, hrole, hparse, hne, hget, hsql, hv, hrun, hrun2]
  refine ⟨?_, hfail1, ?_, ?_⟩
  · intro hrun hrun2
    refine ⟨hok hrun hrun2, ?_, ?_⟩
    · rw [hok hrun hrun2]
      intro a ha
      have := (List.mem_filter.mp ha).2
      simpa using this
    · rw [hok hrun hrun2]
      intro u hu
      have := (List.mem_filter.mp hu).2
      simpa using this
  · intro hrun hrun2
    refine ⟨hfail2 hrun hrun2, ?_, ?_⟩
    · rw [hfail2 hrun hrun2]
      exact hex
    · rw [hfail2 hrun hrun2]
      intro a ha
      have := (List.mem_filter.mp ha).2
      simpa using this
  · intro href
    cases hr : f.runErr with
    | true =>
      rw [hfail1 hr]
      exact href
    | false =>
      cases hr2 : f.runErr2 with
      | true =>
        rw [hfail2 hr hr2]
        intro a ha
        exact href a (List.mem_filter.mp ha).1
      | false =>
        rw [hok hr hr2]
        intro a ha
        have hmem := List.mem_filter.mp ha
        obtain ⟨u, hu, hid⟩ := href a hmem.1
        refine ⟨u, List.mem_filter.mpr ⟨hu, ?_⟩, hid⟩
        have hau : a.user_id ≠ n := by simpa using hmem.2
        simpa [hid] using hau

/-- C11: for an admin requester and an existing user id `n` other than the
admin's own, sent as its decimal numeral, when the lookup reports no error.
If both deletions succeed the
request succeeds and leaves no attendance record with that `user_id` and no
`users` row with that id, every other row unchanged.  The attendance deletion
runs first: if it reports an error nothing is changed, and if the deletion of
the user row then reports an error the `users` table is unchanged (the row
still exists) while the attendance records of that user are already gone.  In
every case, if each attendance record referenced an existing user before, each
one left references an existing user afterwards.  Every route parameter that
both `parseInt` and SQLite read as `n` is handled as the decimal numeral of
`n` is. -/
theorem deleteUser_cascade (s : Store) (user : Principal) (n : Nat) (f : Faults)
    (hrole : user.role = "admin") (hne : n ≠ user.id)
    (hex : ∃ u ∈ s.users, u.id = n) (hget : f.getErr = false) :
    (f.runErr = false → f.runErr2 = false →
      deleteUser s user (toString n) f =
        (Response.message "User and all associated data deleted successfully",
          { s with attendance := (s.attendance.filter (fun a => a.user_id != n)),
                   users := (s.users.filter (fun u => u.id != n)) }) ∧
      (∀ a ∈ (deleteUser s user (toString n) f).2.attendance, a.user_id ≠ n) ∧
      (∀ u ∈ (deleteUser s user (toString n) f).2.users, u.id ≠ n)) ∧
    (f.runErr = true →
      deleteUser s user (toString n) f = (Response.error 500 "Database error", s)) ∧
    (f.runErr = false → f.runErr2 = true →
      deleteUser s user (toString n) f =
        (Response.error 500 "Database error",
          { s with attendance := (s.attendance.filter (fun a => a.user_id != n)) }) ∧
      (∃ u ∈ (deleteUser s user (toString n) f).2.users, u.id = n) ∧
      (∀ a ∈ (deleteUser s user (toString n) f).2.attendance, a.user_id ≠ n)) ∧
    ((∀ a ∈ s.attendance, ∃ u ∈ s.users, u.id = a.user_id) →
      ∀ a ∈ (deleteUser s user (toString n) f).2.attendance,
        ∃ u ∈ (deleteUser s user (toString n) f).2.users, u.id = a.user_id) ∧
    (∀ userId : String, jsParseInt userId = some (n : Int) → sqliteRowid userId = some n →
      deleteUser s user userId f = deleteUser s user (toString n) f) := by
  obtain ⟨hparse, hsql⟩ := decimal_text_reads n
  obtain ⟨h1, h2, h3, h4⟩ :=
    deleteUser_cascade_of_reads s user (toString n) n f hrole hparse hsql hne hex hget
  refine ⟨h1, h2, h3, h4, ?_⟩
  intro userId hp hs
  rw [deleteUser_reads s user userId n f hrole hp hs hne hex hget,
    deleteUser_reads s user (toString n) n f hrole hparse hsql hne hex hget]

theorem deleteUser_cascade_witness :
    (Faults.none.runErr = false → Faults.none.runErr2 = false →
      deleteUser classStore admin "4" Faults.none =
        (Response.message "User and all associated data deleted successfully",
          { classStore with
            attendance := (classStore.attendance.filter (fun a => a.user_id != 4)),
            users := (classStore.users.filter (fun u => u.id != 4)) }) ∧
      (∀ a ∈ (deleteUser classStore admin "4" Faults.none).2.attendance, a.user_id ≠ 4) ∧
      (∀ u ∈ (deleteUser classStore admin "4" Faults.none).2.users, u.id ≠ 4)) ∧
    (Faults.none.runErr = true →
      deleteUser classStore admin "4" Faults.none
        = (Response.error 500 "Database error", classStore)) ∧
    (Faults.none.runErr = false → Faults.none.runErr2 = true →
      deleteUser classStore admin "4" Faults.none =
        (Response.error 500 "Database error",
          { classStore with
            attendance := (classStore.attendance.filter (fun a => a.user_id != 4)) }) ∧
      (∃ u ∈ (deleteUser classStore admin "4" Faults.none).2.users, u.id = 4) ∧
      (∀ a ∈ (deleteUser classStore admin "4" Faults.none).2.attendance, a.user_id ≠ 4)) ∧
    ((∀ a ∈ classStore.attendance, ∃ u ∈ classStore.users, u.id = a.user_id) →
      ∀ a ∈ (deleteUser classStore admin "4" Faults.none).2.attendance,
        ∃ u ∈ (deleteUser classStore admin "4" Faults.none).2.users, u.id = a.user_id) ∧
    (∀ userId : String, jsParseInt userId = some (4 : Int) → sqliteRowid userId = some 4 →
      deleteUser classStore admin userId Faults.none
        = deleteUser classStore admin "4" Faults.none) :=
  deleteUser_cascade classStore admin 4 Faults.none rfl (by decide) (by decide) rfl

/-- C12 at a concrete request: the admin with id 1 asks to delete the user of
the route parameter `0.1e1`.  `parseInt` reads the text as 0, so the guard
against deleting one's own account lets the request pass; SQLite reads the
bound text as 1, so the request succeeds and the `users` row of the admin is
deleted.  Whenever `parseInt` reads the parameter as the id of the admin, as
for the parameter `1` and for the decimal numeral of any id, the guard answers
the 400 error `Cannot delete your own account` and the store is unchanged. -/
theorem deleteUser_self_guard_bypassed :
    admin.id = 1 ∧ admin.role = "admin" ∧
    (mkUser 1 "admin" "admin" Option.none) ∈ classStore.users ∧
    jsParseInt "0.1e1" = some 0 ∧ sqliteRowid "0.1e1" = some 1 ∧
    deleteUser classStore admin "0.1e1" Faults.none =
      (Response.message "User and all associated data deleted successfully",
        { classStore with
          users := [mkUser 2 "teacher" "teacher" (some 1),
                    mkUser 3 "student" "student" (some 1),
                    mkUser 4 "student2" "student" (some 2)] }) ∧
    (∀ u ∈ (deleteUser classStore admin "0.1e1" Faults.none).2.users, u.id ≠ admin.id) ∧
    deleteUser classStore admin "1" Faults.none
      = (Response.error 400 "Cannot delete your own account", classStore) ∧
    (∀ (s : Store) (user : Principal) (userId : String) (f : Faults),
      user.role = "admin" → jsParseInt userId = some (user.id : Int) →
      deleteUser s user userId f
        = (Response.error 400 "Cannot delete your own account", s)) ∧
    (∀ (s : Store) (user : Principal) (f : Faults), user.role = "admin" →
      deleteUser s user (toString user.id) f
        = (Response.error 400 "Cannot delete your own account", s)) :=
  ⟨by decide, by decide, by decide, by decide, by decide, by decide, by decide, by decide,
   fun s user userId f hrole hparse => by simp [deleteUser, hrole, hparse],
   fun s user f hrole => by simp [deleteUser, hrole, (decimal_text_reads user.id).1]⟩

/-- C13: for every requester whose role is `student`, every request body,
every store and whatever the statements would report, the create-notice request
is answered with the 403 error `Teacher access required` and the store, the
`notices` table included, is the one before the request. -/
theorem createNotice_student_denied (s : Store) (user : Principal) (body : NoticeBody)
    (clk : Clock) (f : Faults) (hrole : user.role = "student") :
    createNotice s user body clk f = (Response.error 403 "Teacher access required", s) ∧
    (createNotice s user body clk f).2.notices = s.notices := by
  have e : createNotice s user body clk f
      = (Response.error 403 "Teacher access required", s) := by
    simp [createNotice, hrole]
  exact ⟨e, by rw [e]⟩

theorem createNotice_student_denied_witness :
    createNotice classStore student
        { title := some "Trip", content := some "Friday", priority := Option.none }
        clockMorning Faults.none
      = (Response.error 403 "Teacher access required", classStore) ∧
    (createNotice classStore student
        { title := some "Trip", content := some "Friday", priority := Option.none }
        clockMorning Faults.none).2.notices = classStore.notices :=
  createNotice_student_denied classStore student _ clockMorning Faults.none rfl

theorem sqlEq_some_iff (a : Option Nat) (c : Nat) : sqlEq a (some c) = true ↔ a = some c := by
  cases a with
  | none => simp [sqlEq]
  | some x => simp [sqlEq]

theorem sqlEq_none (a : Option Nat) : sqlEq a Option.none = false := by
  cases a <;> rfl

theorem filter_user_key_length_le_one (users : List User)
    (hids : (users.map (fun u => u.id)).Nodup) (k : Option Nat) :
    (users.filter (fun u => sqlEq k (some u.id))).length ≤ 1 := by
  induction users with
  | nil => simp
  | cons x xs ih =>
    rw [List.map_cons, List.nodup_cons] at hids
    by_cases hx : sqlEq k (some x.id) = true
    · have hnone : xs.filter (fun u => sqlEq k (some u.id)) = [] := by
        rw [List.filter_eq_nil_iff]
        intro u hu hp
        have h1 := (sqlEq_some_iff k x.id).mp hx
        have h2 := (sqlEq_some_iff k u.id).mp hp
        rw [h1] at h2
        have hid : x.id = u.id := Option.some.inj h2
        exact hids.1 (hid ▸ List.mem_map.mpr ⟨u, hu, rfl⟩)
      rw [List.filter_cons, hx]
      simp [hnone]
    · have hp : sqlEq k (some x.id) = false := by simpa using hx
      rw [List.filter_cons, hp]
      simpa using ih hids.2

theorem leftJoinUsers_map_row {α : Type} (users : List User)
    (hids : (users.map (fun u => u.id)).Nodup) (key : α → Option Nat) (rows : List α) :
    (leftJoinUsers users key rows).map (fun j => j.row) = rows := by
  induction rows with
  | nil => rfl
  | cons r rs ih =>
    unfold leftJoinUsers at ih ⊢
    rw [List.flatMap_cons, List.map_append, ih]
    have hlen := filter_user_key_length_le_one users hids (key r)
    cases hm : users.filter (fun u => sqlEq (key r) (some u.id)) with
    | nil => rfl
    | cons u us =>
      rw [hm] at hlen
      cases us with
      | nil => rfl
      | cons v vs => simp at hlen

theorem listing_rows_perm {α : Type} (users : List User)
    (hids : (users.map (fun u => u.id)).Nodup) (key : α → Option Nat) (rows : List α)
    (p : α → Bool) (le : WithUserName α → WithUserName α → Bool) :
    ((orderBy le ((leftJoinUsers users key rows).filter (fun j => p j.row))).map
      (fun j => j.row)).Perm (rows.filter p) := by
  have h1 : ((leftJoinUsers users key rows).filter (fun j => p j.row)).map (fun j => j.row)
      = rows.filter p := by
    have := List.filter_map (p := p) (fun j : WithUserName α => j.row)
      (leftJoinUsers users key rows)
    rw [leftJoinUsers_map_row users hids key rows] at this
    rw [this]
    rfl
  rw [← h1]
  exact (List.perm_insertionSort _ _).map _

theorem selectClassId_eq (users : List User) (hids : (users.map (fun u => u.id)).Nodup)
    (u : User) (hu : u ∈ users) : selectClassId users u.id = u.class_id := by
  unfold selectClassId
  cases hsel : users.find? (fun v => v.id == u.id) with
  | none =>
    rw [List.find?_eq_none] at hsel
    exact absurd (by simp) (hsel u hu)
  | some v =>
    have hp := List.find?_some hsel
    simp only [beq_iff_eq] at hp
    have hv := List.mem_of_find?_eq_some hsel
    rw [List.inj_on_of_nodup_map hids hv hu hp]

/-- C14: on a `users` table with a primary key on `id`, for a principal whose
`users` row has `class_id` C, when the query reports no error: the
list-materials request returns, one result row each and in some order, exactly
the study materials whose `class_id` is C, none with another or a null
`class_id` and none left out; the notice and event listings do the same with
the notices and events of class C.  The store is unchanged. -/
theorem listings_return_own_class (s : Store) (user : Principal) (f : Faults) (u : User)
    (C : Nat) (hids : (s.users.map (fun v => v.id)).Nodup) (hu : u ∈ s.users)
    (hid : u.id = user.id) (hc : u.class_id = some C) (hget : f.getErr = false) :
    (∃ rows, listMaterials s user f = (Response.materials rows, s) ∧
      (rows.map (fun j => j.row)).Perm
        (s.study_materials.filter (fun m => decide (m.class_id = some C)))) ∧
    (∃ rows, listNotices s user f = (Response.notices rows, s) ∧
      (rows.map (fun j => j.row)).Perm
        (s.notices.filter (fun n => decide (n.class_id = some C)))) ∧
    (∃ rows, listEvents s user f = (Response.events rows, s) ∧
      (rows.map (fun j => j.row)).Perm
        (s.events.filter (fun e => decide (e.class_id = some C)))) := by
  have hcl : selectClassId s.users user.id = some C := by
    rw [← hid, selectClassId_eq s.users hids u hu, hc]
  refine ⟨⟨_, by simp only [listMaterials, hget, hcl]; rfl, ?_⟩,
    ⟨_, by simp only [listNotices, hget, hcl]; rfl, ?_⟩,
    ⟨_, by simp only [listEvents, hget, hcl]; rfl, ?_⟩⟩
  · have hf : s.study_materials.filter (fun m => decide (m.class_id = some C))
        = s.study_materials.filter (fun m => sqlEq m.class_id (some C)) := by
      apply List.filter_congr
      intro m _
      rw [Bool.eq_iff_iff]
      simp [sqlEq_some_iff]
    rw [hf]
    exact listing_rows_perm s.users hids _ _ (fun m : StudyMaterial => sqlEq m.class_id (some C)) _
  · have hf : s.notices.filter (fun n => decide (n.class_id = some C))
        = s.notices.filter (fun n => sqlEq n.class_id (some C)) := by
      apply List.filter_congr
      intro m _
      rw [Bool.eq_iff_iff]
      simp [sqlEq_some_iff]
    rw [hf]
    exact listing_rows_perm s.users hids _ _ (fun n : Notice => sqlEq n.class_id (some C)) _
  · have hf : s.events.filter (fun e => decide (e.class_id = some C))
        = s.events.filter (fun e => sqlEq e.class_id (some C)) := by
      apply List.filter_congr
      intro m _
      rw [Bool.eq_iff_iff]
      simp [sqlEq_some_iff]
    rw [hf]
    exact listing_rows_perm s.users hids _ _ (fun e : Event => sqlEq e.class_id (some C)) _

theorem listings_return_own_class_witness :
    (∃ rows, listMaterials classStore student Faults.none = (Response.materials rows, classStore) ∧
      (rows.map (fun j => j.row)).Perm
        (classStore.study_materials.filter (fun m => decide (m.class_id = some 1)))) ∧
    (∃ rows, listNotices classStore student Faults.none = (Response.notices rows, classStore) ∧
      (rows.map (fun j => j.row)).Perm
        (classStore.notices.filter (fun n => decide (n.class_id = some 1)))) ∧
    (∃ rows, listEvents classStore student Faults.none = (Response.events rows, classStore) ∧
      (rows.map (fun j => j.row)).Perm
        (classStore.events.filter (fun e => decide (e.class_id = some 1)))) :=
  listings_return_own_class classStore student Faults.none
    (mkUser 3 "student" "student" (some 1)) 1 (by decide) (by decide) rfl rfl rfl

/-- C15: on a `users` table with a primary key on `id`, for a principal whose
`users` row has a null `class_id`, when the query reports no error: the
list-materials, list-notices and list-events requests each succeed with the
empty list, also when the store holds resources whose own `class_id` is null,
and leave the store unchanged. -/
theorem listings_empty_without_class (s : Store) (user : Principal) (f : Faults) (u : User)
    (hids : (s.users.map (fun v => v.id)).Nodup) (hu : u ∈ s.users)
    (hid : u.id = user.id) (hc : u.class_id = Option.none) (hget : f.getErr = false) :
    listMaterials s user f = (Response.materials [], s) ∧
    listNotices s user f = (Response.notices [], s) ∧
    listEvents s user f = (Response.events [], s) := by
  have hcl : selectClassId s.users user.id = Option.none := by
    rw [← hid, selectClassId_eq s.users hids u hu, hc]
  refine ⟨?_, ?_, ?_⟩
  · simp [listMaterials, hget, hcl, sqlEq_none, orderBy]
  · simp [listNotices, hget, hcl, sqlEq_none, orderBy]
  · simp [listEvents, hget, hcl, sqlEq_none, orderBy]

theorem listings_empty_without_class_witness :
    listMaterials classStore admin Faults.none = (Response.materials [], classStore) ∧
    listNotices classStore admin Faults.none = (Response.notices [], classStore) ∧
    listEvents classStore admin Faults.none = (Response.events [], classStore) :=
  listings_empty_without_class classStore admin Faults.none
    (mkUser 1 "admin" "admin" Option.none) (by decide) (by decide) rfl rfl rfl

/-- C16: on a `users` table with a primary key on `id`, when the query reports
no error, the read-marks request of any requester, a student in particular,
returns, one result row each and in some order, exactly the marks whose
`student_id` is the requester's id; every returned mark has that `student_id`,
so no mark of another student, classmate or not, is returned.  The store is
unchanged. -/
theorem studentMarks_returns_own (s : Store) (user : Principal) (f : Faults)
    (hids : (s.users.map (fun v => v.id)).Nodup) (hget : f.getErr = false) :
    ∃ rows, studentMarks s user f = (Response.marks rows, s) ∧
      (rows.map (fun j => j.row)).Perm
        (s.student_marks.filter (fun k => decide (k.student_id = user.id))) ∧
      ∀ j ∈ rows, j.row.student_id = user.id := by
  have hperm := listing_rows_perm s.users hids (fun k : StudentMark => k.created_by)
    s.student_marks (fun k : StudentMark => k.student_id == user.id)
    (fun a b => sqlLe b.row.created_at a.row.created_at)
  have hf : s.student_marks.filter (fun k => decide (k.student_id = user.id))
      = s.student_marks.filter (fun k => k.student_id == user.id) := by
    apply List.filter_congr
    intro k _
    rw [Bool.eq_iff_iff]
    simp
  refine ⟨_, by simp only [studentMarks, hget]; rfl, ?_, ?_⟩
  · rw [hf]
    exact hperm
  · intro j hj
    have hmem : j.row ∈ s.student_marks.filter (fun k => k.student_id == user.id) :=
      hperm.mem_iff.mp (List.mem_map.mpr ⟨j, hj, rfl⟩)
    simpa using (List.mem_filter.mp hmem).2

theorem studentMarks_returns_own_witness :
    ∃ rows, studentMarks classStore student Faults.none = (Response.marks rows, classStore) ∧
      (rows.map (fun j => j.row)).Perm
        (classStore.student_marks.filter (fun k => decide (k.student_id = student.id))) ∧
      ∀ j ∈ rows, j.row.student_id = student.id :=
  studentMarks_returns_own classStore student Faults.none (by decide) rfl

/-- C17 at a concrete store: the teacher of class 1 gave a mark to the student
of class 1, yet the read-marks request of that teacher, and that of the admin,
returns the empty list: the query keeps the marks whose `student_id` is the
requester's own id whatever the role. -/
theorem studentMarks_teacher_sees_nothing :
    (mkUser 2 "teacher" "teacher" (some 1)) ∈ classStore.users ∧
    (mkUser 3 "student" "student" (some 1)) ∈ classStore.users ∧
    (∃ k ∈ classStore.student_marks, k.student_id = 3 ∧ k.class_id = some 1) ∧
    studentMarks classStore teacher Faults.none = (Response.marks [], classStore) ∧
    studentMarks classStore admin Faults.none = (Response.marks [], classStore) := by
  decide

theorem selectUserById_eq (users : List User) (hids : (users.map (fun u => u.id)).Nodup)
    (u : User) (hu : u ∈ users) : selectUserById users u.id = some u := by
  unfold selectUserById
  cases hsel : users.find? (fun v => v.id == u.id) with
  | none =>
    rw [List.find?_eq_none] at hsel
    exact absurd (by simp) (hsel u hu)
  | some v =>
    have hp := List.find?_some hsel
    simp only [beq_iff_eq] at hp
    have hv := List.mem_of_find?_eq_some hsel
    rw [List.inj_on_of_nodup_map hids hv hu hp]

theorem selectClassId_of_selectUserById (users : List User) (userId : Nat) (u : User)
    (h : selectUserById users userId = some u) : selectClassId users userId = u.class_id := by
  unfold selectUserById at h
  unfold selectClassId
  rw [h]

theorem truthyNat_some (v : Option Nat) (h : truthyNat v = true) : ∃ c, v = some c ∧ c ≠ 0 := by
  cases v with
  | none => simp [truthyNat] at h
  | some c => exact ⟨c, rfl, by simpa [truthyNat] using h⟩

/-- The outcomes of a create-notice request: either the store is untouched and
the response is not a success, or the row of the requester was found with a
class and the notice was appended. -/
theorem createNotice_cases (s : Store) (user : Principal) (body : NoticeBody) (clk : Clock)
    (f : Faults) :
    ((createNotice s user body clk f).2 = s ∧
      ∀ msg id, (createNotice s user body clk f).1 ≠ Response.created msg id) ∨
    (∃ u, selectUserById s.users user.id = some u ∧ truthyNat u.class_id = true ∧
      createNotice s user body clk f =
        (Response.created "Notice created successfully"
          (nextId s.notices_seq (s.notices.map (fun n => n.id))),
         { s with
           notices := s.notices ++ [insertedNotice
             (nextId s.notices_seq (s.notices.map (fun n => n.id))) user.id body clk u],
           notices_seq := nextId s.notices_seq (s.notices.map (fun n => n.id)) })) := by
  unfold createNotice
  split
  · exact Or.inl ⟨rfl, fun _ _ h => by simp at h⟩
  · split
    · exact Or.inl ⟨rfl, fun _ _ h => by simp at h⟩
    · split
      · exact Or.inl ⟨rfl, fun _ _ h => by simp at h⟩
      · split
        · exact Or.inl ⟨rfl, fun _ _ h => by simp at h⟩
        · next u hu =>
          split
          · exact Or.inl ⟨rfl, fun _ _ h => by simp at h⟩
          · next hc =>
            split
            · exact Or.inl ⟨rfl, fun _ _ h => by simp at h⟩
            · exact Or.inr ⟨u, hu, by simpa using hc, rfl⟩

theorem createEvent_cases (s : Store) (user : Principal) (body : EventBody) (clk : Clock)
    (f : Faults) :
    ((createEvent s user body clk f).2 = s ∧
      ∀ msg id, (createEvent s user body clk f).1 ≠ Response.created msg id) ∨
    (∃ u, selectUserById s.users user.id = some u ∧ truthyNat u.class_id = true ∧
      createEvent s user body clk f =
        (Response.created "Event created successfully"
          (nextId s.events_seq (s.events.map (fun e => e.id))),
         { s with
           events := s.events ++ [insertedEvent
             (nextId s.events_seq (s.events.map (fun e => e.id))) user.id body clk u],
           events_seq := nextId s.events_seq (s.events.map (fun e => e.id)) })) := by
  unfold createEvent
  split
  · exact Or.inl ⟨rfl, fun _ _ h => by simp at h⟩
  · split
    · exact Or.inl ⟨rfl, fun _ _ h => by simp at h⟩
    · split
      · exact Or.inl ⟨rfl, fun _ _ h => by simp at h⟩
      · split
        · exact Or.inl ⟨rfl, fun _ _ h => by simp at h⟩
        · next u hu =>
          split
          · exact Or.inl ⟨rfl, fun _ _ h => by simp at h⟩
          · next hc =>
            split
            · exact Or.inl ⟨rfl, fun _ _ h => by simp at h⟩
            · exact Or.inr ⟨u, hu, by simpa using hc, rfl⟩

theorem addMarks_cases (s : Store) (user : Principal) (body : MarksBody) (clk : Clock)
    (f : Faults) :
    ((addMarks s user body clk f).2 = s ∧
      ∀ msg id, (addMarks s user body clk f).1 ≠ Response.created msg id) ∨
    (∃ u, selectUserById s.users user.id = some u ∧ truthyNat u.class_id = true ∧
      addMarks s user body clk f =
        (Response.created "Marks added successfully"
          (nextId s.student_marks_seq (s.student_marks.map (fun k => k.id))),
         { s with
           student_marks := s.student_marks ++ [insertedMark
             (nextId s.student_marks_seq (s.student_marks.map (fun k => k.id)))
             user.id body clk u],
           student_marks_seq :=
             nextId s.student_marks_seq (s.student_marks.map (fun k => k.id)) })) := by
  unfold addMarks
  split
  · exact Or.inl ⟨rfl, fun _ _ h => by simp at h⟩
  · split
    · exact Or.inl ⟨rfl, fun _ _ h => by simp at h⟩
    · split
      · exact Or.inl ⟨rfl, fun _ _ h => by simp at h⟩
      · split
        · exact Or.inl ⟨rfl, fun _ _ h => by simp at h⟩
        · next u hu =>
          split
          · exact Or.inl ⟨rfl, fun _ _ h => by simp at h⟩
          · next hc =>
            split
            · exact Or.inl ⟨rfl, fun _ _ h => by simp at h⟩
            · exact Or.inr ⟨u, hu, by simpa using hc, rfl⟩

/-- The outcomes of an upload-material request: the store is untouched and
the response is not a success; or the row of the requester was found with a
class, the insert reported an error and only the uploads directory changed; or
the material was appended. -/
theorem uploadMaterial_cases (s : Store) (user : Principal) (body : MaterialBody)
    (file : Option UploadedFile) (clk : Clock) (f : Faults) :
    ((uploadMaterial s user body file clk f).2 = s ∧
      ∀ msg id, (uploadMaterial s user body file clk f).1 ≠ Response.created msg id) ∨
    (∃ u, selectUserById s.users user.id = some u ∧ truthyNat u.class_id = true ∧
      (uploadMaterial s user body file clk f).2.study_materials = s.study_materials ∧
      ∀ msg id, (uploadMaterial s user body file clk f).1 ≠ Response.created msg id) ∨
    (∃ u, selectUserById s.users user.id = some u ∧ truthyNat u.class_id = true ∧
      uploadMaterial s user body file clk f =
        (Response.created "Study material uploaded successfully"
          (nextId s.study_materials_seq (s.study_materials.map (fun m => m.id))),
         { s with
           study_materials := s.study_materials ++ [insertedMaterial
             (nextId s.study_materials_seq (s.study_materials.map (fun m => m.id)))
             user.id body file clk u],
           study_materials_seq :=
             nextId s.study_materials_seq (s.study_materials.map (fun m => m.id)) })) := by
  unfold uploadMaterial
  split
  · exact Or.inl ⟨rfl, fun _ _ h => by simp at h⟩
  · split
    · exact Or.inl ⟨rfl, fun _ _ h => by simp at h⟩
    · split
      · exact Or.inl ⟨rfl, fun _ _ h => by simp at h⟩
      · split
        · exact Or.inl ⟨rfl, fun _ _ h => by simp at h⟩
        · next u hu =>
          split
          · exact Or.inl ⟨rfl, fun _ _ h => by simp at h⟩
          · next hc =>
            split
            · exact Or.inr (Or.inl ⟨u, hu, by simpa using hc, rfl, fun _ _ h => by simp at h⟩)
            · exact Or.inr (Or.inr ⟨u, hu, by simpa using hc, rfl⟩)

/-- C18, the claim at a concrete store: the teacher of class 1 adds a mark for
user 4, a student of class 2, and for id 99, which no user has; both requests
succeed and each inserts a mark with that `student_id`. -/
theorem addMarks_other_class_counterexample :
    (mkUser 2 "teacher" "teacher" (some 1)) ∈ classStore.users ∧
    (mkUser 4 "student2" "student" (some 2)) ∈ classStore.users ∧
    (∀ u ∈ classStore.users, u.id ≠ 99) ∧
    (addMarks classStore teacher (marksBodyFor 4) clockMorning Faults.none).1
      = Response.created "Marks added successfully" 2 ∧
    (addMarks classStore teacher (marksBodyFor 4) clockMorning Faults.none).2.student_marks
      = classStore.student_marks ++
        [{ id := 2, student_id := 4, subject := "Algebra", exam_type := "quiz",
           marks_obtained := 7, total_marks := 10, class_id := some 1, created_by := some 2,
           created_at := some clockMorning.timestamp }] ∧
    (addMarks classStore teacher (marksBodyFor 99) clockMorning Faults.none).1
      = Response.created "Marks added successfully" 2 ∧
    (addMarks classStore teacher (marksBodyFor 99) clockMorning Faults.none).2.student_marks
      = classStore.student_marks ++
        [{ id := 2, student_id := 99, subject := "Algebra", exam_type := "quiz",
           marks_obtained := 7, total_marks := 10, class_id := some 1, created_by := some 2,
           created_at := some clockMorning.timestamp }] := by
  decide

/-- C18 as the code has it: on a `users` table with a primary key on `id`, for
a teacher whose `users` row has class C (not 0), when no statement reports an
error, an add-marks request succeeds exactly when its five fields pass the
presence check of the handler (`student_id`, `marks_obtained` and
`total_marks` present and not 0, `subject` and `exam_type` present and not
empty), whatever user (if any) the target `student_id` names: it then inserts
exactly one mark with that `student_id`, `class_id` C and `created_by` the
teacher.  A request that fails the presence check, a score of 0 included, is
answered with the 400 error `All fields are required` and inserts nothing.
The target is not looked up. -/
theorem addMarks_target_unchecked (s : Store) (user : Principal) (clk : Clock) (f : Faults)
    (u : User) (C : Nat) (body : MarksBody)
    (hrole : user.role = "teacher")
    (hids : (s.users.map (fun v => v.id)).Nodup) (hu : u ∈ s.users) (hid : u.id = user.id)
    (hc : u.class_id = some C) (hC : C ≠ 0)
    (hget : f.getErr = false) (hrun : f.runErr = false) :
    ((truthyNat body.student_id && truthy body.subject && truthy body.exam_type
        && truthyInt body.marks_obtained && truthyInt body.total_marks) = true →
      addMarks s user body clk f =
        (Response.created "Marks added successfully"
          (nextId s.student_marks_seq (s.student_marks.map (fun k => k.id))),
         { s with
           student_marks := s.student_marks ++
             [{ id := nextId s.student_marks_seq (s.student_marks.map (fun k => k.id)),
                student_id := body.student_id.getD 0, subject := body.subject.getD "",
                exam_type := body.exam_type.getD "",
                marks_obtained := body.marks_obtained.getD 0,
                total_marks := body.total_marks.getD 0, class_id := some C,
                created_by := some user.id, created_at := some clk.timestamp }],
           student_marks_seq :=
             nextId s.student_marks_seq (s.student_marks.map (fun k => k.id)) })) ∧
    ((truthyNat body.student_id && truthy body.subject && truthy body.exam_type
        && truthyInt body.marks_obtained && truthyInt body.total_marks) = false →
      addMarks s user body clk f = (Response.error 400 "All fields are required", s)) ∧
    (∀ (studentId : Nat) (subject examType : String) (obtained total : Int),
      studentId ≠ 0 → subject ≠ "" → examType ≠ "" → obtained ≠ 0 → total ≠ 0 →
      addMarks s user
          { student_id := some studentId, subject := some subject, exam_type := some examType,
            marks_obtained := some obtained, total_marks := some total } clk f =
        (Response.created "Marks added successfully"
          (nextId s.student_marks_seq (s.student_marks.map (fun k => k.id))),
         { s with
           student_marks := s.student_marks ++
             [{ id := nextId s.student_marks_seq (s.student_marks.map (fun k => k.id)),
                student_id := studentId, subject := subject, exam_type := examType,
                marks_obtained := obtained, total_marks := total, class_id := some C,
                created_by := some user.id, created_at := some clk.timestamp }],
           student_marks_seq :=
             nextId s.student_marks_seq (s.student_marks.map (fun k => k.id)) })) := by
  have hsel : selectUserById s.users user.id = some u := by
    rw [← hid]; exact selectUserById_eq s.users hids u hu
  refine ⟨?_, ?_, ?_⟩
  · intro hb
    simp only [Bool.and_eq_true] at hb
    obtain ⟨⟨⟨⟨h1, h2⟩, h3⟩, h4⟩, h5⟩ := hb
    have hcl : truthyNat (some C) = true := by simp [truthyNat, hC]
    simp [addMarks, hrole, h1, h2, h3, h4, h5, hget, hrun, hsel, hcl, insertedMark, hc]
  · intro hb
    have hb2 : (!truthyNat body.student_id || !truthy body.subject || !truthy body.exam_type
        || !truthyInt body.marks_obtained || !truthyInt body.total_marks) = true := by
      revert hb
      cases truthyNat body.student_id <;> cases truthy body.subject <;>
        cases truthy body.exam_type <;> cases truthyInt body.marks_obtained <;>
        cases truthyInt body.total_marks <;> simp
    simp [addMarks, hrole, hb2]
  · intro studentId subject examType obtained total hstudent hsubject hexam hobtained htotal
    simp [addMarks, hrole, truthy, truthyNat, truthyInt, hstudent, hsubject, hexam, hobtained,
      htotal, hget, hrun, hsel, hc, hC, insertedMark]

theorem addMarks_target_unchecked_witness :
    (∀ u ∈ classStore.users, u.id ≠ 99) ∧
    addMarks classStore teacher (marksBodyFor 99) clockMorning Faults.none =
      (Response.created "Marks added successfully"
        (nextId classStore.student_marks_seq (classStore.student_marks.map (fun k => k.id))),
       { classStore with
         student_marks := classStore.student_marks ++
           [{ id := nextId classStore.student_marks_seq
                (classStore.student_marks.map (fun k => k.id)),
              student_id := 99, subject := "Algebra", exam_type := "quiz",
              marks_obtained := 7, total_marks := 10, class_id := some 1,
              created_by := some teacher.id, created_at := some clockMorning.timestamp }],
         student_marks_seq :=
           nextId classStore.student_marks_seq
             (classStore.student_marks.map (fun k => k.id)) }) ∧
    addMarks classStore teacher
        { student_id := some 3, subject := some "Algebra", exam_type := some "quiz",
          marks_obtained := some 0, total_marks := some 10 } clockMorning Faults.none
      = (Response.error 400 "All fields are required", classStore) :=
  ⟨by decide,
   (addMarks_target_unchecked classStore teacher clockMorning Faults.none
      (mkUser 2 "teacher" "teacher" (some 1)) 1 (marksBodyFor 99) rfl (by decide)
      (by decide) rfl rfl (by decide) rfl rfl).1 (by decide),
   (addMarks_target_unchecked classStore teacher clockMorning Faults.none
      (mkUser 2 "teacher" "teacher" (some 1)) 1
      { student_id := some 3, subject := some "Algebra", exam_type := some "quiz",
        marks_obtained := some 0, total_marks := some 10 } rfl (by decide)
      (by decide) rfl rfl (by decide) rfl rfl).2.1 (by decide)⟩

/-- C19: for every requester, a teacher or an admin in particular, and each of
the create-notice, create-event, upload-material and add-marks requests.  If
the request succeeds, the row of the requester was found with a non-null
`class_id` c and the store afterwards is the store before with exactly one row
appended to the table of the route, whose id is the one returned, whose
`class_id` is c and whose creator reference is the requester's id.  If the
stored `class_id` of the requester is null, the request does not succeed and
the store is the one before the request.  And the request does succeed, with
that one row appended, when the requester is a teacher or an admin whose row
has a `class_id` c other than 0, the required fields are present and no
statement reports an error. -/
theorem created_rows_carry_own_class (s : Store) (user : Principal) (clk : Clock) (f : Faults)
    (nb : NoticeBody) (eb : EventBody) (mb : MaterialBody) (file : Option UploadedFile)
    (kb : MarksBody) :
    ((∀ msg id, (createNotice s user nb clk f).1 = Response.created msg id →
        ∃ u c, selectUserById s.users user.id = some u ∧ u.class_id = some c ∧
          (createNotice s user nb clk f).2 =
            { s with notices := s.notices ++ [insertedNotice id user.id nb clk u],
                     notices_seq := id } ∧
          (insertedNotice id user.id nb clk u).class_id = some c ∧
          (insertedNotice id user.id nb clk u).created_by = some user.id) ∧
      (selectClassId s.users user.id = Option.none →
        (createNotice s user nb clk f).2 = s ∧
        ∀ msg id, (createNotice s user nb clk f).1 ≠ Response.created msg id) ∧
      (∀ u c, (user.role = "teacher" ∨ user.role = "admin") →
        truthy nb.title = true → truthy nb.content = true →
        f.getErr = false → f.runErr = false →
        selectUserById s.users user.id = some u → u.class_id = some c → c ≠ 0 →
        createNotice s user nb clk f =
          (Response.created "Notice created successfully"
            (nextId s.notices_seq (s.notices.map (fun n => n.id))),
           { s with
             notices := s.notices ++ [insertedNotice
               (nextId s.notices_seq (s.notices.map (fun n => n.id))) user.id nb clk u],
             notices_seq := nextId s.notices_seq (s.notices.map (fun n => n.id)) }) ∧
        (insertedNotice (nextId s.notices_seq (s.notices.map (fun n => n.id)))
          user.id nb clk u).class_id = some c ∧
        (insertedNotice (nextId s.notices_seq (s.notices.map (fun n => n.id)))
          user.id nb clk u).created_by = some user.id)) ∧
    ((∀ msg id, (createEvent s user eb clk f).1 = Response.created msg id →
        ∃ u c, selectUserById s.users user.id = some u ∧ u.class_id = some c ∧
          (createEvent s user eb clk f).2 =
            { s with events := s.events ++ [insertedEvent id user.id eb clk u],
                     events_seq := id } ∧
          (insertedEvent id user.id eb clk u).class_id = some c ∧
          (insertedEvent id user.id eb clk u).created_by = some user.id) ∧
      (selectClassId s.users user.id = Option.none →
        (createEvent s user eb clk f).2 = s ∧
        ∀ msg id, (createEvent s user eb clk f).1 ≠ Response.created msg id) ∧
      (∀ u c, (user.role = "teacher" ∨ user.role = "admin") →
        truthy eb.title = true → truthy eb.event_date = true →
        f.getErr = false → f.runErr = false →
        selectUserById s.users user.id = some u → u.class_id = some c → c ≠ 0 →
        createEvent s user eb clk f =
          (Response.created "Event created successfully"
            (nextId s.events_seq (s.events.map (fun e => e.id))),
           { s with
             events := s.events ++ [insertedEvent
               (nextId s.events_seq (s.events.map (fun e => e.id))) user.id eb clk u],
             events_seq := nextId s.events_seq (s.events.map (fun e => e.id)) }) ∧
        (insertedEvent (nextId s.events_seq (s.events.map (fun e => e.id)))
          user.id eb clk u).class_id = some c ∧
        (insertedEvent (nextId s.events_seq (s.events.map (fun e => e.id)))
          user.id eb clk u).created_by = some user.id)) ∧
    ((∀ msg id, (uploadMaterial s user mb file clk f).1 = Response.created msg id →
        ∃ u c, selectUserById s.users user.id = some u ∧ u.class_id = some c ∧
          (uploadMaterial s user mb file clk f).2 =
            { s with
              study_materials := s.study_materials ++
                [insertedMaterial id user.id mb file clk u],
              study_materials_seq := id } ∧
          (insertedMaterial id user.id mb file clk u).class_id = some c ∧
          (insertedMaterial id user.id mb file clk u).uploaded_by = some user.id) ∧
      (selectClassId s.users user.id = Option.none →
        (uploadMaterial s user mb file clk f).2 = s ∧
        ∀ msg id, (uploadMaterial s user mb file clk f).1 ≠ Response.created msg id) ∧
      (∀ u c, (user.role = "teacher" ∨ user.role = "admin") →
        truthy mb.title = true →
        f.getErr = false → f.runErr = false →
        selectUserById s.users user.id = some u → u.class_id = some c → c ≠ 0 →
        uploadMaterial s user mb file clk f =
          (Response.created "Study material uploaded successfully"
            (nextId s.study_materials_seq (s.study_materials.map (fun m => m.id))),
           { s with
             study_materials := s.study_materials ++ [insertedMaterial
               (nextId s.study_materials_seq (s.study_materials.map (fun m => m.id)))
               user.id mb file clk u],
             study_materials_seq :=
               nextId s.study_materials_seq (s.study_materials.map (fun m => m.id)) }) ∧
        (insertedMaterial (nextId s.study_materials_seq (s.study_materials.map (fun m => m.id)))
          user.id mb file clk u).class_id = some c ∧
        (insertedMaterial (nextId s.study_materials_seq (s.study_materials.map (fun m => m.id)))
          user.id mb file clk u).uploaded_by = some user.id)) ∧
    ((∀ msg id, (addMarks s user kb clk f).1 = Response.created msg id →
        ∃ u c, selectUserById s.users user.id = some u ∧ u.class_id = some c ∧
          (addMarks s user kb clk f).2 =
            { s with student_marks := s.student_marks ++ [insertedMark id user.id kb clk u],
                     student_marks_seq := id } ∧
          (insertedMark id user.id kb clk u).class_id = some c ∧
          (insertedMark id user.id kb clk u).created_by = some user.id) ∧
      (selectClassId s.users user.id = Option.none →
        (addMarks s user kb clk f).2 = s ∧
        ∀ msg id, (addMarks s user kb clk f).1 ≠ Response.created msg id) ∧
      (∀ u c, (user.role = "teacher" ∨ user.role = "admin") →
        truthyNat kb.student_id = true → truthy kb.subject = true →
        truthy kb.exam_type = true → truthyInt kb.marks_obtained = true →
        truthyInt kb.total_marks = true →
        f.getErr = false → f.runErr = false →
        selectUserById s.users user.id = some u → u.class_id = some c → c ≠ 0 →
        addMarks s user kb clk f =
          (Response.created "Marks added successfully"
            (nextId s.student_marks_seq (s.student_marks.map (fun k => k.id))),
           { s with
             student_marks := s.student_marks ++ [insertedMark
               (nextId s.student_marks_seq (s.student_marks.map (fun k => k.id)))
               user.id kb clk u],
             student_marks_seq :=
               nextId s.student_marks_seq (s.student_marks.map (fun k => k.id)) }) ∧
        (insertedMark (nextId s.student_marks_seq (s.student_marks.map (fun k => k.id)))
          user.id kb clk u).class_id = some c ∧
        (insertedMark (nextId s.student_marks_seq (s.student_marks.map (fun k => k.id)))
          user.id kb clk u).created_by = some user.id)) := by
  refine ⟨⟨?_, ?_, ?_⟩, ⟨?_, ?_, ?_⟩, ⟨?_, ?_, ?_⟩, ⟨?_, ?_, ?_⟩⟩
  · intro msg id h
    rcases createNotice_cases s user nb clk f with ⟨_, hno⟩ | ⟨u, hu, hc, e⟩
    · exact absurd h (hno msg id)
    · obtain ⟨c, hcc, _⟩ := truthyNat_some u.class_id hc
      rw [e] at h ⊢
      injection h with _ hid
      subst hid
      exact ⟨u, c, hu, hcc, rfl, hcc, rfl⟩
  · intro hnull
    rcases createNotice_cases s user nb clk f with hfail | ⟨u, hu, hc, _⟩
    · exact hfail
    · obtain ⟨c, hcc, _⟩ := truthyNat_some u.class_id hc
      rw [selectClassId_of_selectUserById s.users user.id u hu, hcc] at hnull
      exact absurd hnull (by simp)
  · intro u c hrole h1 h2 hget hrun hsel hc hne
    have hcl : truthyNat (some c) = true := by simp [truthyNat, hne]
    have hr : ¬ (user.role ≠ "teacher" ∧ user.role ≠ "admin") := by
      rcases hrole with h | h <;> simp [h]
    refine ⟨?_, hc, rfl⟩
    simp [createNotice, hr, h1, h2, hget, hrun, hsel, hc, hcl]
  · intro msg id h
    rcases createEvent_cases s user eb clk f with ⟨_, hno⟩ | ⟨u, hu, hc, e⟩
    · exact absurd h (hno msg id)
    · obtain ⟨c, hcc, _⟩ := truthyNat_some u.class_id hc
      rw [e] at h ⊢
      injection h with _ hid
      subst hid
      exact ⟨u, c, hu, hcc, rfl, hcc, rfl⟩
  · intro hnull
    rcases createEvent_cases s user eb clk f with hfail | ⟨u, hu, hc, _⟩
    · exact hfail
    · obtain ⟨c, hcc, _⟩ := truthyNat_some u.class_id hc
      rw [selectClassId_of_selectUserById s.users user.id u hu, hcc] at hnull
      exact absurd hnull (by simp)
  · intro u c hrole h1 h2 hget hrun hsel hc hne
    have hcl : truthyNat (some c) = true := by simp [truthyNat, hne]
    have hr : ¬ (user.role ≠ "teacher" ∧ user.role ≠ "admin") := by
      rcases hrole with h | h <;> simp [h]
    refine ⟨?_, hc, rfl⟩
    simp [createEvent, hr, h1, h2, hget, hrun, hsel, hc, hcl]
  · intro msg id h
    rcases uploadMaterial_cases s user mb file clk f with
      ⟨_, hno⟩ | ⟨_, _, _, _, hno⟩ | ⟨u, hu, hc, e⟩
    · exact absurd h (hno msg id)
    · exact absurd h (hno msg id)
    · obtain ⟨c, hcc, _⟩ := truthyNat_some u.class_id hc
      rw [e] at h ⊢
      injection h with _ hid
      subst hid
      exact ⟨u, c, hu, hcc, rfl, hcc, rfl⟩
  · intro hnull
    rcases uploadMaterial_cases s user mb file clk f with
      hfail | ⟨u, hu, hc, _, _⟩ | ⟨u, hu, hc, _⟩
    · exact hfail
    · obtain ⟨c, hcc, _⟩ := truthyNat_some u.class_id hc
      rw [selectClassId_of_selectUserById s.users user.id u hu, hcc] at hnull
      exact absurd hnull (by simp)
    · obtain ⟨c, hcc, _⟩ := truthyNat_some u.class_id hc
      rw [selectClassId_of_selectUserById s.users user.id u hu, hcc] at hnull
      exact absurd hnull (by simp)
  · intro u c hrole h1 hget hrun hsel hc hne
    have hcl : truthyNat (some c) = true := by simp [truthyNat, hne]
    have hr : ¬ (user.role ≠ "teacher" ∧ user.role ≠ "admin") := by
      rcases hrole with h | h <;> simp [h]
    refine ⟨?_, hc, rfl⟩
    simp [uploadMaterial, hr, h1, hget, hrun, hsel, hc, hcl]
  · intro msg id h
    rcases addMarks_cases s user kb clk f with ⟨_, hno⟩ | ⟨u, hu, hc, e⟩
    · exact absurd h (hno msg id)
    · obtain ⟨c, hcc, _⟩ := truthyNat_some u.class_id hc
      rw [e] at h ⊢
      injection h with _ hid
      subst hid
      exact ⟨u, c, hu, hcc, rfl, hcc, rfl⟩
  · intro hnull
    rcases addMarks_cases s user kb clk f with hfail | ⟨u, hu, hc, _⟩
    · exact hfail
    · obtain ⟨c, hcc, _⟩ := truthyNat_some u.class_id hc
      rw [selectClassId_of_selectUserById s.users user.id u hu, hcc] at hnull
      exact absurd hnull (by simp)
  · intro u c hrole h1 h2 h3 h4 h5 hget hrun hsel hc hne
    have hcl : truthyNat (some c) = true := by simp [truthyNat, hne]
    have hr : ¬ (user.role ≠ "teacher" ∧ user.role ≠ "admin") := by
      rcases hrole with h | h <;> simp [h]
    refine ⟨?_, hc, rfl⟩
    simp [addMarks, hr, h1, h2, h3, h4, h5, hget, hrun, hsel, hc, hcl]

theorem created_rows_carry_own_class_witness :
    (createNotice classStore teacher sampleNotice clockMorning Faults.none =
        (Response.created "Notice created successfully"
          (nextId classStore.notices_seq (classStore.notices.map (fun n => n.id))),
         { classStore with
           notices := classStore.notices ++ [insertedNotice
             (nextId classStore.notices_seq (classStore.notices.map (fun n => n.id)))
             teacher.id sampleNotice clockMorning (mkUser 2 "teacher" "teacher" (some 1))],
           notices_seq :=
             nextId classStore.notices_seq (classStore.notices.map (fun n => n.id)) }) ∧
      (insertedNotice (nextId classStore.notices_seq (classStore.notices.map (fun n => n.id)))
        teacher.id sampleNotice clockMorning
        (mkUser 2 "teacher" "teacher" (some 1))).class_id = some 1 ∧
      (insertedNotice (nextId classStore.notices_seq (classStore.notices.map (fun n => n.id)))
        teacher.id sampleNotice clockMorning
        (mkUser 2 "teacher" "teacher" (some 1))).created_by = some teacher.id) ∧
    (createEvent classStore teacher sampleEvent clockMorning Faults.none =
        (Response.created "Event created successfully"
          (nextId classStore.events_seq (classStore.events.map (fun e => e.id))),
         { classStore with
           events := classStore.events ++ [insertedEvent
             (nextId classStore.events_seq (classStore.events.map (fun e => e.id)))
             teacher.id sampleEvent clockMorning (mkUser 2 "teacher" "teacher" (some 1))],
           events_seq :=
             nextId classStore.events_seq (classStore.events.map (fun e => e.id)) }) ∧
      (insertedEvent (nextId classStore.events_seq (classStore.events.map (fun e => e.id)))
        teacher.id sampleEvent clockMorning
        (mkUser 2 "teacher" "teacher" (some 1))).class_id = some 1 ∧
      (insertedEvent (nextId classStore.events_seq (classStore.events.map (fun e => e.id)))
        teacher.id sampleEvent clockMorning
        (mkUser 2 "teacher" "teacher" (some 1))).created_by = some teacher.id) ∧
    (uploadMaterial classStore teacher sampleMaterial Option.none clockMorning Faults.none =
        (Response.created "Study material uploaded successfully"
          (nextId classStore.study_materials_seq
            (classStore.study_materials.map (fun m => m.id))),
         { classStore with
           study_materials := classStore.study_materials ++ [insertedMaterial
             (nextId classStore.study_materials_seq
               (classStore.study_materials.map (fun m => m.id)))
             teacher.id sampleMaterial Option.none clockMorning
             (mkUser 2 "teacher" "teacher" (some 1))],
           study_materials_seq :=
             nextId classStore.study_materials_seq
               (classStore.study_materials.map (fun m => m.id)) }) ∧
      (insertedMaterial (nextId classStore.study_materials_seq
          (classStore.study_materials.map (fun m => m.id)))
        teacher.id sampleMaterial Option.none clockMorning
        (mkUser 2 "teacher" "teacher" (some 1))).class_id = some 1 ∧
      (insertedMaterial (nextId classStore.study_materials_seq
          (classStore.study_materials.map (fun m => m.id)))
        teacher.id sampleMaterial Option.none clockMorning
        (mkUser 2 "teacher" "teacher" (some 1))).uploaded_by = some teacher.id) ∧
    (addMarks classStore teacher (marksBodyFor 3) clockMorning Faults.none =
        (Response.created "Marks added successfully"
          (nextId classStore.student_marks_seq
            (classStore.student_marks.map (fun k => k.id))),
         { classStore with
           student_marks := classStore.student_marks ++ [insertedMark
             (nextId classStore.student_marks_seq
               (classStore.student_marks.map (fun k => k.id)))
             teacher.id (marksBodyFor 3) clockMorning
             (mkUser 2 "teacher" "teacher" (some 1))],
           student_marks_seq :=
             nextId classStore.student_marks_seq
               (classStore.student_marks.map (fun k => k.id)) }) ∧
      (insertedMark (nextId classStore.student_marks_seq
          (classStore.student_marks.map (fun k => k.id)))
        teacher.id (marksBodyFor 3) clockMorning
        (mkUser 2 "teacher" "teacher" (some 1))).class_id = some 1 ∧
      (insertedMark (nextId classStore.student_marks_seq
          (classStore.student_marks.map (fun k => k.id)))
        teacher.id (marksBodyFor 3) clockMorning
        (mkUser 2 "teacher" "teacher" (some 1))).created_by = some teacher.id) ∧
    ((createNotice classStore teacher sampleNotice clockMorning Faults.none).1
        = Response.created "Notice created successfully" 3 ∧
      ∃ u c, selectUserById classStore.users teacher.id = some u ∧ u.class_id = some c ∧
        (createNotice classStore teacher sampleNotice clockMorning Faults.none).2 =
          { classStore with
            notices := classStore.notices ++
              [insertedNotice 3 teacher.id sampleNotice clockMorning u],
            notices_seq := 3 } ∧
        (insertedNotice 3 teacher.id sampleNotice clockMorning u).class_id = some c ∧
        (insertedNotice 3 teacher.id sampleNotice clockMorning u).created_by
          = some teacher.id) ∧
    (selectClassId classStore.users admin.id = Option.none ∧
      (addMarks classStore admin (marksBodyFor 3) clockMorning Faults.none).2 = classStore ∧
      ∀ msg id, (addMarks classStore admin (marksBodyFor 3) clockMorning Faults.none).1
        ≠ Response.created msg id) :=
  ⟨(created_rows_carry_own_class classStore teacher clockMorning Faults.none sampleNotice
      sampleEvent sampleMaterial Option.none (marksBodyFor 3)).1.2.2
      (mkUser 2 "teacher" "teacher" (some 1)) 1 (Or.inl rfl) (by decide) (by decide) rfl rfl
      (by decide) rfl (by decide),
   (created_rows_carry_own_class classStore teacher clockMorning Faults.none sampleNotice
      sampleEvent sampleMaterial Option.none (marksBodyFor 3)).2.1.2.2
      (mkUser 2 "teacher" "teacher" (some 1)) 1 (Or.inl rfl) (by decide) (by decide) rfl rfl
      (by decide) rfl (by decide),
   (created_rows_carry_own_class classStore teacher clockMorning Faults.none sampleNotice
      sampleEvent sampleMaterial Option.none (marksBodyFor 3)).2.2.1.2.2
      (mkUser 2 "teacher" "teacher" (some 1)) 1 (Or.inl rfl) (by decide) rfl rfl
      (by decide) rfl (by decide),
   (created_rows_carry_own_class classStore teacher clockMorning Faults.none sampleNotice
      sampleEvent sampleMaterial Option.none (marksBodyFor 3)).2.2.2.2.2
      (mkUser 2 "teacher" "teacher" (some 1)) 1 (Or.inl rfl) (by decide) (by decide)
      (by decide) (by decide) (by decide) rfl rfl (by decide) rfl (by decide),
   ⟨by decide,
    (created_rows_carry_own_class classStore teacher clockMorning Faults.none sampleNotice
      sampleEvent sampleMaterial Option.none (marksBodyFor 3)).1.1
      "Notice created successfully" 3 (by decide)⟩,
   ⟨by decide,
    (created_rows_carry_own_class classStore admin clockMorning Faults.none sampleNotice
      sampleEvent sampleMaterial Option.none (marksBodyFor 3)).2.2.2.2.1 (by decide)⟩⟩

theorem length_filter_class_user (users : List User)
    (hids : (users.map (fun u => u.id)).Nodup) (userId classId : Nat) :
    (users.filter (fun u => userId == u.id && sqlEq u.class_id (some classId))).length
      = if sqlEq (selectClassId users userId) (some classId) = true then 1 else 0 := by
  induction users with
  | nil => simp [selectClassId, sqlEq]
  | cons x xs ih =>
    rw [List.map_cons, List.nodup_cons] at hids
    by_cases hx : x.id = userId
    · have hnone : xs.filter (fun u => userId == u.id && sqlEq u.class_id (some classId))
          = [] := by
        rw [List.filter_eq_nil_iff]
        intro u hu hp
        simp only [Bool.and_eq_true, beq_iff_eq] at hp
        exact hids.1 (List.mem_map.mpr ⟨u, hu, by rw [← hp.1, hx]⟩)
      have hsel : selectClassId (x :: xs) userId = x.class_id := by
        simp [selectClassId, List.find?_cons, hx]
      rw [hsel, List.filter_cons]
      by_cases hc : sqlEq x.class_id (some classId) = true
      · simp [hx, hc, hnone]
      · have hc2 : sqlEq x.class_id (some classId) = false := by simpa using hc
        simp [hc2, hnone]
    · have hsel : selectClassId (x :: xs) userId = selectClassId xs userId := by
        simp [selectClassId, List.find?_cons, hx]
      have hne : (userId == x.id) = false := by
        simp only [beq_eq_false_iff_ne, ne_eq]
        exact fun h => hx h.symm
      rw [hsel, List.filter_cons, hne]
      simpa using ih hids.2

theorem joinClassUsers_map_attendance (users : List User)
    (hids : (users.map (fun u => u.id)).Nodup) (classId : Nat) (rows : List AttendanceRow) :
    (joinClassUsers users classId rows).map (fun j => j.attendance)
      = rows.filter (fun a => sqlEq (selectClassId users a.user_id) (some classId)) := by
  induction rows with
  | nil => rfl
  | cons a rs ih =>
    unfold joinClassUsers at ih ⊢
    rw [List.flatMap_cons, List.map_append, ih, List.map_map]
    have hlen := length_filter_class_user users hids a.user_id classId
    have hconst : List.map ((fun j : ClassAttendanceRow => j.attendance) ∘ classAttendanceRow a)
        (users.filter (fun u => a.user_id == u.id && sqlEq u.class_id (some classId)))
        = List.replicate
          (users.filter (fun u => a.user_id == u.id && sqlEq u.class_id (some classId))).length
          a := by
      rw [List.eq_replicate_iff]
      refine ⟨by simp, ?_⟩
      intro b hb
      obtain ⟨u, _, hub⟩ := List.mem_map.mp hb
      exact hub.symm
    rw [hconst, hlen, List.filter_cons]
    by_cases hc : sqlEq (selectClassId users a.user_id) (some classId) = true
    · simp [hc]
    · have hc2 : sqlEq (selectClassId users a.user_id) (some classId) = false := by
        simpa using hc
      simp [hc2]

/-- C20, the claim at a concrete store: the teacher belongs to class 1, and
the class-attendance request of that teacher for class 2 is not denied: it
returns the attendance record of the student of class 2. -/
theorem classAttendance_other_class_counterexample :
    (mkUser 2 "teacher" "teacher" (some 1)) ∈ classStore.users ∧
    (2 : Nat) ≠ 1 ∧
    classAttendance classStore teacher 2 Option.none Option.none Faults.none =
      (Response.classAttendance
        [{ attendance :=
             { id := 1, user_id := 4, date := "2024-09-02", check_in := some "09:00:00",
               check_out := Option.none, status := some "present", notes := Option.none,
               created_at := some "2024-09-02 03:30:00" },
           first_name := Option.none, last_name := Option.none, student_id := Option.none }],
       classStore) := by
  decide

/-- C20 as the code has it: on a `users` table with a primary key on `id`,
when the query reports no error.  For a teacher and any class id K, the
teacher's own class or not, the class-attendance request succeeds and returns,
one result row each and in some order, exactly the attendance records (within
the date range, if one is given) of the users whose `class_id` is K.  For a
student, the class-attendance request is answered with the 403 error
`Admin or teacher access required`, and the history request returns only
records of the table whose `user_id` is the requester's own.  The store is
unchanged. -/
theorem attendance_read_access (s : Store) (user : Principal) (classId : Nat)
    (startDate endDate : Option String) (f : Faults)
    (hids : (s.users.map (fun v => v.id)).Nodup) (hget : f.getErr = false) :
    (user.role = "teacher" →
      ∃ rows, classAttendance s user classId startDate endDate f
          = (Response.classAttendance rows, s) ∧
        (rows.map (fun j => j.attendance)).Perm
          (s.attendance.filter (fun a =>
            sqlEq (selectClassId s.users a.user_id) (some classId) &&
              inDateRange startDate endDate a.date))) ∧
    (user.role = "student" →
      classAttendance s user classId startDate endDate f
        = (Response.error 403 "Admin or teacher access required", s) ∧
      ∃ rows, attendanceHistory s user startDate endDate f = (Response.attendanceRows rows, s) ∧
        ∀ a ∈ rows, a ∈ s.attendance ∧ a.user_id = user.id) := by
  refine ⟨?_, ?_⟩
  · intro hrole
    refine ⟨_, by simp only [classAttendance, hrole, hget]; rfl, ?_⟩
    have h1 : ((joinClassUsers s.users classId s.attendance).filter
          (fun j => inDateRange startDate endDate j.attendance.date)).map
          (fun j => j.attendance)
        = s.attendance.filter (fun a =>
            sqlEq (selectClassId s.users a.user_id) (some classId) &&
              inDateRange startDate endDate a.date) := by
      have h0 : ((joinClassUsers s.users classId s.attendance).filter
            (fun j => inDateRange startDate endDate j.attendance.date)).map
            (fun j => j.attendance)
          = ((joinClassUsers s.users classId s.attendance).map (fun j => j.attendance)).filter
            (fun a => inDateRange startDate endDate a.date) :=
        (List.filter_map (p := fun a : AttendanceRow => inDateRange startDate endDate a.date)
          (fun j : ClassAttendanceRow => j.attendance)
          (joinClassUsers s.users classId s.attendance)).symm
      rw [h0, joinClassUsers_map_attendance s.users hids classId s.attendance,
        List.filter_filter]
      apply List.filter_congr
      intro a _
      exact Bool.and_comm _ _
    rw [← h1]
    exact (List.perm_insertionSort _ _).map _
  · intro hrole
    refine ⟨by simp [classAttendance, hrole], _, by simp only [attendanceHistory, hget]; rfl, ?_⟩
    intro a ha
    have h2 := (List.perm_insertionSort _ _).mem_iff.mp (List.mem_of_mem_take ha)
    have h3 := List.mem_filter.mp h2
    simp only [Bool.and_eq_true, beq_iff_eq] at h3
    exact ⟨h3.1, h3.2.1⟩

theorem attendance_read_access_witness :
    (teacher.role = "teacher" →
      ∃ rows, classAttendance classStore teacher 2 Option.none Option.none Faults.none
          = (Response.classAttendance rows, classStore) ∧
        (rows.map (fun j => j.attendance)).Perm
          (classStore.attendance.filter (fun a =>
            sqlEq (selectClassId classStore.users a.user_id) (some 2) &&
              inDateRange Option.none Option.none a.date))) ∧
    (teacher.role = "student" →
      classAttendance classStore teacher 2 Option.none Option.none Faults.none
        = (Response.error 403 "Admin or teacher access required", classStore) ∧
      ∃ rows, attendanceHistory classStore teacher Option.none Option.none Faults.none
          = (Response.attendanceRows rows, classStore) ∧
        ∀ a ∈ rows, a ∈ classStore.attendance ∧ a.user_id = teacher.id) :=
  attendance_read_access classStore teacher 2 Option.none Option.none Faults.none
    (by decide) rfl

/-! ## Lemmas on authentication, registration and classes -/

theorem splitSpaces_no_space (l : List Char) (h : ' ' ∉ l) : splitSpaces l = [l] := by
  induction l with
  | nil => rfl
  | cons c cs ih =>
    have hc : c ≠ ' ' := fun e => h (e ▸ List.mem_cons_self _ _)
    have hcs : ' ' ∉ cs := fun e => h (List.mem_cons_of_mem _ e)
    simp [splitSpaces, ih hcs, hc]

theorem bearerToken_bearer (t : String) (h : ' ' ∉ t.toList) :
    bearerToken (some ("Bearer " ++ t)) = some t := by
  have hne : "Bearer " ++ t ≠ "" := by
    intro e
    have := congrArg String.data e
    simp at this
  have hl : ("Bearer " ++ t).toList = 'B' :: 'e' :: 'a' :: 'r' :: 'e' :: 'r' :: ' ' :: t.toList := by
    simp [String.toList]
  have hs : splitSpaces t.data = [t.data] := splitSpaces_no_space t.data h
  simp [bearerToken, hne, hl, splitSpaces, hs]

/-- C21: for the authentication middleware in front of any route, `next`
being the rest of the route and `verify` the token verification.  When the
request has no `authorization` header, or the header has no second
space-separated piece, or that piece is empty, the answer is 401
`Access token required` and the store is untouched, whatever `next` is: the
handler is not run.  When the token fails verification the answer is 403
`Invalid token`, again whatever `next` is.  When verification succeeds the
result is that of the handler run with the verified claims as principal; a
header `Bearer t` carries the token `t`. -/
theorem authenticateToken_outcomes (verify : String → Option Principal)
    (authHeader : Option String) (next : Principal → Response × Store) (s : Store) :
    (authHeader = Option.none →
      authenticateToken verify authHeader next s
        = (Response.error 401 "Access token required", s)) ∧
    (bearerToken authHeader = Option.none ∨ bearerToken authHeader = some "" →
      authenticateToken verify authHeader next s
        = (Response.error 401 "Access token required", s)) ∧
    (∀ t, bearerToken authHeader = some t → t ≠ "" → verify t = Option.none →
      authenticateToken verify authHeader next s = (Response.error 403 "Invalid token", s)) ∧
    (∀ t p, bearerToken authHeader = some t → t ≠ "" → verify t = some p →
      authenticateToken verify authHeader next s = next p) ∧
    (∀ t p, t ≠ "" → ' ' ∉ t.toList → verify t = some p →
      authenticateToken verify (some ("Bearer " ++ t)) next s = next p) := by
  refine ⟨?_, ?_, ?_, ?_, ?_⟩
  · intro h
    subst h
    simp [authenticateToken, bearerToken, truthy]
  · intro h
    rcases h with h | h <;> simp [authenticateToken, h, truthy]
  · intro t ht hne hv
    simp [authenticateToken, ht, truthy, hne, hv]
  · intro t p ht hne hv
    simp [authenticateToken, ht, truthy, hne, hv]
  · intro t p hne hsp hv
    simp [authenticateToken, bearerToken_bearer t hsp, truthy, hne, hv]

theorem authenticateToken_outcomes_witness :
    authenticateToken sampleVerify Option.none
        (fun p => createNotice classStore p sampleNotice clockMorning Faults.none) classStore
      = (Response.error 401 "Access token required", classStore) ∧
    authenticateToken sampleVerify (some "Bearer")
        (fun p => createNotice classStore p sampleNotice clockMorning Faults.none) classStore
      = (Response.error 401 "Access token required", classStore) ∧
    authenticateToken sampleVerify (some "Bearer forged")
        (fun p => createNotice classStore p sampleNotice clockMorning Faults.none) classStore
      = (Response.error 403 "Invalid token", classStore) ∧
    authenticateToken sampleVerify (some "Bearer good")
        (fun p => createNotice classStore p sampleNotice clockMorning Faults.none) classStore
      = createNotice classStore teacher sampleNotice clockMorning Faults.none :=
  ⟨(authenticateToken_outcomes sampleVerify Option.none _ classStore).1 rfl,
   (authenticateToken_outcomes sampleVerify (some "Bearer") _ classStore).2.1
     (Or.inl (by decide)),
   (authenticateToken_outcomes sampleVerify (some "Bearer forged") _ classStore).2.2.1
     "forged" (by decide) (by decide) (by decide),
   (authenticateToken_outcomes sampleVerify (some "Bearer good") _ classStore).2.2.2.1
     "good" teacher (by decide) (by decide) (by decide)⟩

/-- The outcomes of a registration request: either the store is untouched and
no credential is issued, or no existing user has the username or the email and
the new user is appended and a credential with its role issued. -/
theorem register_cases (hash : String → Option String) (s : Store) (body : RegisterBody)
    (clk : Clock) (f : Faults) :
    ((register hash s body clk f).2 = s ∧
      ∀ c fn ln, (register hash s body clk f).1 ≠ Response.registered c fn ln) ∨
    (∃ hashed,
      uniqueViolation s.users (body.username.getD "") (body.email.getD "") = false ∧
      register hash s body clk f =
        (Response.registered
            { id := nextId s.users_seq (s.users.map (fun u => u.id)),
              username := body.username.getD "", email := body.email.getD "",
              role := orDefault body.role "student" }
            (orNull body.first_name) (orNull body.last_name),
          { s with
            users := s.users ++
              [insertedUser (nextId s.users_seq (s.users.map (fun u => u.id))) body hashed clk],
            users_seq := nextId s.users_seq (s.users.map (fun u => u.id)) })) := by
  unfold register
  split
  · exact Or.inl ⟨rfl, fun _ _ _ h => by simp at h⟩
  · split
    · exact Or.inl ⟨rfl, fun _ _ _ h => by simp at h⟩
    · next hashed _ =>
      split
      · exact Or.inl ⟨rfl, fun _ _ _ h => by simp at h⟩
      · split
        · exact Or.inl ⟨rfl, fun _ _ _ h => by simp at h⟩
        · next hu => exact Or.inr ⟨hashed, by simpa using hu, rfl⟩

theorem register_keeps_unique (hash : String → Option String) (s : Store) (body : RegisterBody)
    (clk : Clock) (f : Faults)
    (hn : (s.users.map (fun u => u.username)).Nodup)
    (he : (s.users.map (fun u => u.email)).Nodup) :
    ((register hash s body clk f).2.users.map (fun u => u.username)).Nodup ∧
    ((register hash s body clk f).2.users.map (fun u => u.email)).Nodup := by
  rcases register_cases hash s body clk f with ⟨e, _⟩ | ⟨hashed, hu, e⟩
  · rw [e]; exact ⟨hn, he⟩
  · rw [e]
    unfold uniqueViolation at hu
    rw [List.any_eq_false] at hu
    simp only [List.map_append, List.map_cons, List.map_nil]
    refine ⟨?_, ?_⟩
    · rw [List.nodup_append]
      refine ⟨hn, List.nodup_singleton _, ?_⟩
      intro a ha hb
      rw [List.mem_singleton] at hb
      obtain ⟨u, hmem, hua⟩ := List.mem_map.mp ha
      have := hu u hmem
      simp only [insertedUser] at hb
      simp only [Bool.or_eq_true, beq_iff_eq, not_or] at this
      exact this.1 (by rw [hua, hb])
    · rw [List.nodup_append]
      refine ⟨he, List.nodup_singleton _, ?_⟩
      intro a ha hb
      rw [List.mem_singleton] at hb
      obtain ⟨u, hmem, hua⟩ := List.mem_map.mp ha
      have := hu u hmem
      simp only [insertedUser] at hb
      simp only [Bool.or_eq_true, beq_iff_eq, not_or] at this
      exact this.2 (by rw [hua, hb])

/-- C22: for a registration request with username, email and password present
whose hashing succeeds and whose insert reports no other error: if an existing
user has the same username or the same email (compared exactly, so with case)
the answer is the 400 error `Username or email already exists` and the store is
unchanged.  A request in which username, email or password is missing or empty
is answered with the 400 error `Username, email, and password are required`
and the store is unchanged.  And from a `users` table whose usernames are
pairwise distinct and whose emails are pairwise distinct, any sequence of
registration requests leaves them pairwise distinct. -/
theorem register_duplicate_rejected (hash : String → Option String) (s : Store)
    (body : RegisterBody) (clk : Clock) (f : Faults) :
    (∀ name mail pw hashed u, body.username = some name → body.email = some mail →
      body.password = some pw → name ≠ "" → mail ≠ "" → pw ≠ "" →
      hash pw = some hashed → f.runErr = false →
      u ∈ s.users → u.username = name ∨ u.email = mail →
      register hash s body clk f
        = (Response.error 400 "Username or email already exists", s)) ∧
    (truthy body.username = false ∨ truthy body.email = false ∨ truthy body.password = false →
      register hash s body clk f
        = (Response.error 400 "Username, email, and password are required", s)) ∧
    (∀ reqs : List RegisterRequest,
      (s.users.map (fun u => u.username)).Nodup → (s.users.map (fun u => u.email)).Nodup →
      ((runRegister hash s reqs).users.map (fun u => u.username)).Nodup ∧
      ((runRegister hash s reqs).users.map (fun u => u.email)).Nodup) := by
  refine ⟨?_, ?_, ?_⟩
  · intro name mail pw hashed u hname hmail hpw hn hm hp hh hrun hu hdup
    have hv : uniqueViolation s.users name mail = true := by
      unfold uniqueViolation
      rw [List.any_eq_true]
      exact ⟨u, hu, by rcases hdup with h | h <;> simp [h]⟩
    simp [register, hname, hmail, hpw, truthy, hn, hm, hp, hh, hrun, hv]
  · intro h
    rcases h with h | h | h <;> simp [register, h]
  · intro reqs
    induction reqs generalizing s with
    | nil => exact fun hn he => ⟨hn, he⟩
    | cons q qs ih =>
      intro hn he
      have hk := register_keeps_unique hash s q.body q.clk q.f hn he
      exact ih (register hash s q.body q.clk q.f).2 hk.1 hk.2

theorem register_duplicate_rejected_witness :
    register sampleHash classStore (registerBodyFor "student" "new@example.com" Option.none)
        clockMorning Faults.none
      = (Response.error 400 "Username or email already exists", classStore) ∧
    register sampleHash classStore
        { (registerBodyFor "eve" "eve@example.com" Option.none) with password := Option.none }
        clockMorning Faults.none
      = (Response.error 400 "Username, email, and password are required", classStore) ∧
    ((runRegister sampleHash classStore
        [{ body := registerBodyFor "eve" "eve@example.com" Option.none, clk := clockMorning,
           f := Faults.none },
         { body := registerBodyFor "eve" "other@example.com" Option.none, clk := clockEvening,
           f := Faults.none }]).users.map (fun u => u.username)).Nodup ∧
    ((runRegister sampleHash classStore
        [{ body := registerBodyFor "eve" "eve@example.com" Option.none, clk := clockMorning,
           f := Faults.none },
         { body := registerBodyFor "eve" "other@example.com" Option.none, clk := clockEvening,
           f := Faults.none }]).users.map (fun u => u.email)).Nodup :=
  ⟨(register_duplicate_rejected sampleHash classStore
      (registerBodyFor "student" "new@example.com" Option.none) clockMorning Faults.none).1
      "student" "new@example.com" "secret" "$2a$10$secret"
      (mkUser 3 "student" "student" (some 1)) rfl rfl rfl (by decide) (by decide) (by decide)
      (by decide) rfl (by decide) (Or.inl rfl),
   (register_duplicate_rejected sampleHash classStore
      { (registerBodyFor "eve" "eve@example.com" Option.none) with password := Option.none }
      clockMorning Faults.none).2.1 (Or.inr (Or.inr rfl)),
   (register_duplicate_rejected sampleHash classStore
      (registerBodyFor "eve" "eve@example.com" Option.none) clockMorning Faults.none).2.2
      _ (by decide) (by decide)⟩

/-- C23, the claim at a concrete store: a registration request whose body
gives the role `superuser` succeeds; the stored row and the issued credential
carry the role `superuser`, which is none of student, teacher and admin. -/
theorem register_unknown_role_counterexample :
    (register sampleHash classStore
        (registerBodyFor "eve" "eve@example.com" (some "superuser")) clockMorning Faults.none).1
      = Response.registered
          { id := 5, username := "eve", email := "eve@example.com", role := "superuser" }
          Option.none Option.none ∧
    (∃ u ∈ (register sampleHash classStore
        (registerBodyFor "eve" "eve@example.com" (some "superuser")) clockMorning
        Faults.none).2.users, u.role = some "superuser") ∧
    knownRole "superuser" = false := by
  decide

theorem register_roles (hash : String → Option String) (s : Store) (body : RegisterBody)
    (clk : Clock) (f : Faults)
    (hs : ∀ u ∈ s.users, ∃ r, u.role = some r ∧ knownRole r = true)
    (hb : knownRole (orDefault body.role "student") = true) :
    (∀ u ∈ (register hash s body clk f).2.users, ∃ r, u.role = some r ∧ knownRole r = true) ∧
    (∀ c fn ln, (register hash s body clk f).1 = Response.registered c fn ln →
      c.role = orDefault body.role "student") := by
  rcases register_cases hash s body clk f with ⟨e, hno⟩ | ⟨hashed, _, e⟩
  · refine ⟨by rw [e]; exact hs, ?_⟩
    intro c fn ln h
    exact absurd h (hno c fn ln)
  · rw [e]
    refine ⟨?_, ?_⟩
    · intro u hu
      rcases List.mem_append.mp hu with h | h
      · exact hs u h
      · rw [List.mem_singleton] at h
        subst h
        exact ⟨orDefault body.role "student", rfl, hb⟩
    · intro c fn ln h
      injection h with hc _ _
      rw [← hc]

/-- Registration never removes a user. -/
theorem register_users_sub (hash : String → Option String) (s : Store) (body : RegisterBody)
    (clk : Clock) (f : Faults) :
    ∀ u ∈ s.users, u ∈ (register hash s body clk f).2.users := by
  intro u hu
  rcases register_cases hash s body clk f with ⟨e, _⟩ | ⟨hashed, _, e⟩
  · rw [e]; exact hu
  · rw [e]; exact List.mem_append_left _ hu

theorem runRegister_users_sub (hash : String → Option String) (s : Store)
    (reqs : List RegisterRequest) :
    ∀ u ∈ s.users, u ∈ (runRegister hash s reqs).users := by
  induction reqs generalizing s with
  | nil => exact fun u hu => hu
  | cons q qs ih =>
    intro u hu
    exact ih (register hash s q.body q.clk q.f).2 u
      (register_users_sub hash s q.body q.clk q.f u hu)

/-- One registration request: every user afterwards was there before or is the
inserted one, which carries the role of the body; and an issued credential
carries the role of the body, the same as the stored row with its id. -/
theorem register_step_role (hash : String → Option String) (s : Store) (body : RegisterBody)
    (clk : Clock) (f : Faults) :
    (∀ u ∈ (register hash s body clk f).2.users,
      u ∈ s.users ∨ u.role = some (orDefault body.role "student")) ∧
    (∀ c fn ln, (register hash s body clk f).1 = Response.registered c fn ln →
      c.role = orDefault body.role "student" ∧
      ∃ u ∈ (register hash s body clk f).2.users, u.id = c.id ∧ u.role = some c.role) := by
  rcases register_cases hash s body clk f with ⟨e, hno⟩ | ⟨hashed, _, e⟩
  · refine ⟨by rw [e]; exact fun u hu => Or.inl hu, ?_⟩
    intro c fn ln h
    exact absurd h (hno c fn ln)
  · rw [e]
    refine ⟨?_, ?_⟩
    · intro u hu
      rcases List.mem_append.mp hu with h | h
      · exact Or.inl h
      · rw [List.mem_singleton] at h
        subst h
        exact Or.inr rfl
    · intro c fn ln h
      injection h with hc _ _
      subst hc
      exact ⟨rfl, _, List.mem_append_right _ (List.mem_singleton.mpr rfl), rfl, rfl⟩

/-- C23 as the code has it: registration stores, and signs into the
credential, the role text of the request body, or `student` when the body gives
none or an empty one; nothing restricts it.  A request with username, email
and password present, whose hashing and insert succeed and whose username and
email are new, is answered with a credential of exactly that role and appends
exactly one user with exactly that role.  After any sequence of registration
requests, every stored user was there before or carries the role of one of the
requests; there is one response for each request, and every issued credential
carries the role of its own request, which is also the role of a stored user
with the id of the credential.  So from a `users` table whose roles are among
student, teacher and admin, after any sequence of registration requests each
of whose role is absent, empty or one of the three, every stored role and the
role claim of every issued credential is one of the three. -/
theorem register_roles_follow_body (hash : String → Option String) (s : Store)
    (reqs : List RegisterRequest) :
    (∀ (body : RegisterBody) (clk : Clock) (f : Faults) (hashed : String),
      truthy body.username = true → truthy body.email = true →
      truthy body.password = true → hash (body.password.getD "") = some hashed →
      f.runErr = false →
      uniqueViolation s.users (body.username.getD "") (body.email.getD "") = false →
      register hash s body clk f =
        (Response.registered
            { id := nextId s.users_seq (s.users.map (fun u => u.id)),
              username := body.username.getD "", email := body.email.getD "",
              role := orDefault body.role "student" }
            (orNull body.first_name) (orNull body.last_name),
          { s with
            users := s.users ++
              [insertedUser (nextId s.users_seq (s.users.map (fun u => u.id))) body hashed clk],
            users_seq := nextId s.users_seq (s.users.map (fun u => u.id)) }) ∧
      (insertedUser (nextId s.users_seq (s.users.map (fun u => u.id))) body hashed clk).role
        = some (orDefault body.role "student")) ∧
    (∀ u ∈ (runRegister hash s reqs).users,
      u ∈ s.users ∨ ∃ q ∈ reqs, u.role = some (orDefault q.body.role "student")) ∧
    (registerResponses hash s reqs).length = reqs.length ∧
    (∀ p ∈ List.zip reqs (registerResponses hash s reqs), ∀ c fn ln,
      p.2 = Response.registered c fn ln →
      c.role = orDefault p.1.body.role "student" ∧
      ∃ u ∈ (runRegister hash s reqs).users, u.id = c.id ∧ u.role = some c.role) ∧
    ((∀ u ∈ s.users, ∃ r, u.role = some r ∧ knownRole r = true) →
      (∀ q ∈ reqs, knownRole (orDefault q.body.role "student") = true) →
      (∀ u ∈ (runRegister hash s reqs).users, ∃ r, u.role = some r ∧ knownRole r = true) ∧
      (∀ resp ∈ registerResponses hash s reqs, ∀ c fn ln,
        resp = Response.registered c fn ln → knownRole c.role = true)) := by
  refine ⟨?_, ?_, ?_, ?_, ?_⟩
  · intro body clk f hashed h1 h2 h3 hh hrun hu
    refine ⟨?_, rfl⟩
    simp [register, h1, h2, h3, hh, hrun, hu]
  · induction reqs generalizing s with
    | nil => exact fun u hu => Or.inl hu
    | cons q qs ih =>
      intro u hu
      rcases ih (register hash s q.body q.clk q.f).2 u hu with h | ⟨x, hx, hr⟩
      · rcases (register_step_role hash s q.body q.clk q.f).1 u h with h2 | h2
        · exact Or.inl h2
        · exact Or.inr ⟨q, List.mem_cons_self _ _, h2⟩
      · exact Or.inr ⟨x, List.mem_cons_of_mem _ hx, hr⟩
  · induction reqs generalizing s with
    | nil => rfl
    | cons q qs ih =>
      simp only [registerResponses, List.length_cons]
      rw [ih]
  · induction reqs generalizing s with
    | nil =>
      intro p hp
      simp [registerResponses] at hp
    | cons q qs ih =>
      intro p hp c fn ln hc
      simp only [registerResponses, List.zip_cons_cons, List.mem_cons] at hp
      rcases hp with h | h
      · subst h
        obtain ⟨hrole, u, hu, hid, hur⟩ :=
          (register_step_role hash s q.body q.clk q.f).2 c fn ln hc
        exact ⟨hrole, u,
          runRegister_users_sub hash (register hash s q.body q.clk q.f).2 qs u hu, hid, hur⟩
      · exact ih (register hash s q.body q.clk q.f).2 p h c fn ln hc
  · intro hs hreqs
    induction reqs generalizing s with
    | nil =>
      refine ⟨hs, ?_⟩
      intro resp hresp
      exact absurd hresp (List.not_mem_nil resp)
    | cons q qs ih =>
      have hq := hreqs q (List.mem_cons_self _ _)
      have hstep := register_roles hash s q.body q.clk q.f hs hq
      have hrest := ih (register hash s q.body q.clk q.f).2 hstep.1
        (fun x hx => hreqs x (List.mem_cons_of_mem _ hx))
      refine ⟨hrest.1, ?_⟩
      intro resp hresp c fn ln hc
      simp only [registerResponses, List.mem_cons] at hresp
      rcases hresp with h | h
      · rw [h] at hc
        rw [hstep.2 c fn ln hc]
        exact hq
      · exact hrest.2 resp h c fn ln hc

theorem register_roles_follow_body_witness :
    (register sampleHash classStore (registerBodyFor "bob" "bob@example.com" (some "teacher"))
        clockEvening Faults.none =
      (Response.registered
          { id := nextId classStore.users_seq (classStore.users.map (fun u => u.id)),
            username := (registerBodyFor "bob" "bob@example.com" (some "teacher")).username.getD "",
            email := (registerBodyFor "bob" "bob@example.com" (some "teacher")).email.getD "",
            role := orDefault (registerBodyFor "bob" "bob@example.com" (some "teacher")).role
              "student" }
          (orNull (registerBodyFor "bob" "bob@example.com" (some "teacher")).first_name)
          (orNull (registerBodyFor "bob" "bob@example.com" (some "teacher")).last_name),
        { classStore with
          users := classStore.users ++
            [insertedUser (nextId classStore.users_seq (classStore.users.map (fun u => u.id)))
              (registerBodyFor "bob" "bob@example.com" (some "teacher")) "$2a$10$secret"
              clockEvening],
          users_seq := nextId classStore.users_seq (classStore.users.map (fun u => u.id)) }) ∧
      (insertedUser (nextId classStore.users_seq (classStore.users.map (fun u => u.id)))
        (registerBodyFor "bob" "bob@example.com" (some "teacher")) "$2a$10$secret"
        clockEvening).role
        = some (orDefault (registerBodyFor "bob" "bob@example.com" (some "teacher")).role
            "student")) ∧
    orDefault (registerBodyFor "bob" "bob@example.com" (some "teacher")).role "student"
      = "teacher" ∧
    ((∀ u ∈ (runRegister sampleHash classStore
        [{ body := registerBodyFor "eve" "eve@example.com" Option.none, clk := clockMorning,
           f := Faults.none },
         { body := registerBodyFor "bob" "bob@example.com" (some "teacher"),
           clk := clockEvening, f := Faults.none }]).users,
      ∃ r, u.role = some r ∧ knownRole r = true) ∧
    (∀ resp ∈ registerResponses sampleHash classStore
        [{ body := registerBodyFor "eve" "eve@example.com" Option.none, clk := clockMorning,
           f := Faults.none },
         { body := registerBodyFor "bob" "bob@example.com" (some "teacher"),
           clk := clockEvening, f := Faults.none }],
      ∀ c fn ln, resp = Response.registered c fn ln → knownRole c.role = true)) :=
  ⟨(register_roles_follow_body sampleHash classStore []).1
      (registerBodyFor "bob" "bob@example.com" (some "teacher")) clockEvening Faults.none
      "$2a$10$secret" (by decide) (by decide) (by decide) (by decide) rfl (by decide),
   by decide,
   (register_roles_follow_body sampleHash classStore _).2.2.2.2 (by decide) (by decide)⟩

/-- C24, the claim at a concrete store: the store has no class, so every
teacher reference is valid; the admin creates a class naming user 3, a student,
as teacher, and then updates it to name id 99, which no user has.  Both
requests succeed and the class references a non-teacher afterwards. -/
theorem class_teacher_unchecked_counterexample :
    teacherRefsValid classStore = true ∧
    (mkUser 3 "student" "student" (some 1)) ∈ classStore.users ∧
    (createClass classStore admin
        { name := some "Class B", description := Option.none, teacher_id := some 3 }
        clockMorning Faults.none).1 = Response.created "Class created successfully" 1 ∧
    teacherRefsValid (createClass classStore admin
        { name := some "Class B", description := Option.none, teacher_id := some 3 }
        clockMorning Faults.none).2 = false ∧
    (updateClass (createClass classStore admin
          { name := some "Class B", description := Option.none, teacher_id := some 3 }
          clockMorning Faults.none).2 admin 1
        { name := some "Class B", description := Option.none, teacher_id := some 99 }
        Faults.none).1 = Response.message "Class updated successfully" ∧
    teacherRefsValid (updateClass (createClass classStore admin
          { name := some "Class B", description := Option.none, teacher_id := some 3 }
          clockMorning Faults.none).2 admin 1
        { name := some "Class B", description := Option.none, teacher_id := some 99 }
        Faults.none).2 = false := by
  decide

/-- C24 as the code has it: for an admin and a body with a class name, when
the statement reports no error, a create-class request succeeds and stores the
given `teacher_id` (null when it is absent or 0), and an update-class request
for an existing class succeeds and stores it, whatever user, if any, the
`teacher_id` names: no statement reads the `users` table and no request is
rejected on account of its `teacher_id`. -/
theorem class_teacher_stored_as_given (s : Store) (user : Principal) (classId : Nat)
    (name : String) (description : Option String) (teacherId : Option Nat) (clk : Clock)
    (f : Faults) (hrole : user.role = "admin") (hname : name ≠ "")
    (hrun : f.runErr = false) :
    createClass s user { name := some name, description := description,
                         teacher_id := teacherId } clk f =
      (Response.created "Class created successfully"
        (nextId s.classes_seq (s.classes.map (fun c => c.id))),
       { s with
         classes := s.classes ++
           [{ id := nextId s.classes_seq (s.classes.map (fun c => c.id)), name := name,
              description := orNull description, teacher_id := orNullNat teacherId,
              created_at := some clk.timestamp }],
         classes_seq := nextId s.classes_seq (s.classes.map (fun c => c.id)) }) ∧
    ((∃ c ∈ s.classes, c.id = classId) →
      updateClass s user classId { name := some name, description := description,
                                   teacher_id := teacherId } f =
        (Response.message "Class updated successfully",
         { s with
           classes := (s.classes.map (fun c =>
             if c.id = classId then
               { c with name := name, description := orNull description,
                        teacher_id := orNullNat teacherId }
             else c)) })) := by
  refine ⟨?_, ?_⟩
  · simp [createClass, hrole, truthy, hname, hrun]
  · rintro ⟨c, hc, hid⟩
    have hchanges : (s.classes.filter (fun c => c.id == classId)).length ≠ 0 := by
      intro h
      rw [List.length_eq_zero, List.filter_eq_nil_iff] at h
      exact h c hc (by simp [hid])
    simp [updateClass, hrole, truthy, hname, hrun, hchanges, updateClassRows]

theorem class_teacher_stored_as_given_witness :
    createClass classStore admin { name := some "Class B", description := Option.none,
                                   teacher_id := some 99 } clockMorning Faults.none =
      (Response.created "Class created successfully"
        (nextId classStore.classes_seq (classStore.classes.map (fun c => c.id))),
       { classStore with
         classes := classStore.classes ++
           [{ id := nextId classStore.classes_seq (classStore.classes.map (fun c => c.id)),
              name := "Class B", description := orNull Option.none,
              teacher_id := orNullNat (some 99),
              created_at := some clockMorning.timestamp }],
         classes_seq :=
           nextId classStore.classes_seq (classStore.classes.map (fun c => c.id)) }) ∧
    ((∃ c ∈ classStore.classes, c.id = 1) →
      updateClass classStore admin 1 { name := some "Class B", description := Option.none,
                                       teacher_id := some 99 } Faults.none =
        (Response.message "Class updated successfully",
         { classStore with
           classes := (classStore.classes.map (fun c =>
             if c.id = 1 then
               { c with name := "Class B", description := orNull Option.none,
                        teacher_id := orNullNat (some 99) }
             else c)) })) :=
  class_teacher_stored_as_given classStore admin 1 "Class B" Option.none (some 99)
    clockMorning Faults.none rfl (by decide) rfl

/-! ## Lemmas on the upload route -/

theorem uploadSingle_tables (s : Store) (file : Option IncomingFile) (uniqueSuffix : String)
    (reqFile : Option UploadedFile) (s1 : Store)
    (h : uploadSingle s file uniqueSuffix = Except.ok (reqFile, s1)) :
    s1.tables = s.tables := by
  unfold uploadSingle at h
  split at h
  · injection h with h
    injection h with _ hs
    rw [← hs]
  · split at h
    · simp at h
    · split at h
      · simp at h
      · injection h with h
        injection h with _ hs
        rw [← hs]
        rfl

/-- C25, the claim at a concrete request: a student sends an upload-material
request whose file the upload filter refuses.  The upload middleware runs
before the role check of the handler and ends the request with its own error:
the answer is not the 403 response. -/
theorem upload_refused_before_role_check_counterexample :
    student.role ≠ "teacher" ∧ student.role ≠ "admin" ∧
    uploadRoute classStore student sampleMaterial (some exeFile) "17-42" clockMorning
        Faults.none
      = (Response.middlewareError "Only PDF, DOC, DOCX, TXT, and image files are allowed!",
         classStore) ∧
    (uploadRoute classStore student sampleMaterial (some exeFile) "17-42" clockMorning
        Faults.none).1 ≠ Response.error 403 "Teacher access required" := by
  decide

/-- C25 as the code has it: for a requester whose role is not `admin`, the
create-class, update-class, delete-user and bulk-delete-attendance requests are
answered with the 403 error `Admin access required` and leave the store as it
was.  For a requester whose role is neither `teacher` nor `admin`, the
create-notice, create-event and add-marks requests are answered with the 403
error `Teacher access required` and leave the store as it was; the
upload-material route leaves every database table as it was, and is answered
with that 403 error whenever the upload middleware, which runs first, passes
the request on.  All of this whatever the statements would report. -/
theorem role_gates_deny (s : Store) (user : Principal) (clk : Clock) (f : Faults)
    (cb : ClassBody) (classId : Nat) (userId : String) (ids : Option (List Nat))
    (nb : NoticeBody)
    (eb : EventBody) (kb : MarksBody) (mb : MaterialBody) (file : Option IncomingFile)
    (uniqueSuffix : String) :
    (user.role ≠ "admin" →
      createClass s user cb clk f = (Response.error 403 "Admin access required", s) ∧
      updateClass s user classId cb f = (Response.error 403 "Admin access required", s) ∧
      deleteUser s user userId f = (Response.error 403 "Admin access required", s) ∧
      bulkDeleteAttendance s user ids f = (Response.error 403 "Admin access required", s)) ∧
    (user.role ≠ "teacher" → user.role ≠ "admin" →
      createNotice s user nb clk f = (Response.error 403 "Teacher access required", s) ∧
      createEvent s user eb clk f = (Response.error 403 "Teacher access required", s) ∧
      addMarks s user kb clk f = (Response.error 403 "Teacher access required", s) ∧
      (uploadRoute s user mb file uniqueSuffix clk f).2.tables = s.tables ∧
      (∀ reqFile s1, uploadSingle s file uniqueSuffix = Except.ok (reqFile, s1) →
        uploadRoute s user mb file uniqueSuffix clk f
          = (Response.error 403 "Teacher access required", s1))) := by
  refine ⟨?_, ?_⟩
  · intro hrole
    refine ⟨?_, ?_, ?_, ?_⟩
    · simp [createClass, hrole]
    · simp [updateClass, hrole]
    · simp [deleteUser, hrole]
    · simp [bulkDeleteAttendance, hrole]
  · intro ht ha
    have hup : ∀ reqFile s1, uploadSingle s file uniqueSuffix = Except.ok (reqFile, s1) →
        uploadRoute s user mb file uniqueSuffix clk f
          = (Response.error 403 "Teacher access required", s1) := by
      intro reqFile s1 h
      simp [uploadRoute, h, uploadMaterial, ht, ha]
    refine ⟨?_, ?_, ?_, ?_, hup⟩
    · simp [createNotice, ht, ha]
    · simp [createEvent, ht, ha]
    · simp [addMarks, ht, ha]
    · cases h : uploadSingle s file uniqueSuffix with
      | error msg => simp [uploadRoute, h]
      | ok r =>
        obtain ⟨reqFile, s1⟩ := r
        rw [hup reqFile s1 h]
        exact uploadSingle_tables s file uniqueSuffix reqFile s1 h

theorem role_gates_deny_witness :
    (student.role ≠ "admin" →
      createClass classStore student
          { name := some "Class B", description := Option.none, teacher_id := Option.none }
          clockMorning Faults.none
        = (Response.error 403 "Admin access required", classStore) ∧
      updateClass classStore student 1
          { name := some "Class B", description := Option.none, teacher_id := Option.none }
          Faults.none
        = (Response.error 403 "Admin access required", classStore) ∧
      deleteUser classStore student "4" Faults.none
        = (Response.error 403 "Admin access required", classStore) ∧
      bulkDeleteAttendance classStore student (some [1]) Faults.none
        = (Response.error 403 "Admin access required", classStore)) ∧
    (student.role ≠ "teacher" → student.role ≠ "admin" →
      createNotice classStore student sampleNotice clockMorning Faults.none
        = (Response.error 403 "Teacher access required", classStore) ∧
      createEvent classStore student sampleEvent clockMorning Faults.none
        = (Response.error 403 "Teacher access required", classStore) ∧
      addMarks classStore student (marksBodyFor 3) clockMorning Faults.none
        = (Response.error 403 "Teacher access required", classStore) ∧
      (uploadRoute classStore student sampleMaterial (some pdfFile) "17-42" clockMorning
        Faults.none).2.tables = classStore.tables ∧
      (∀ reqFile s1, uploadSingle classStore (some pdfFile) "17-42" = Except.ok (reqFile, s1) →
        uploadRoute classStore student sampleMaterial (some pdfFile) "17-42" clockMorning
            Faults.none
          = (Response.error 403 "Teacher access required", s1))) :=
  role_gates_deny classStore student clockMorning Faults.none
    { name := some "Class B", description := Option.none, teacher_id := Option.none }
    1 "4" (some [1]) sampleNotice sampleEvent (marksBodyFor 3) sampleMaterial (some pdfFile)
    "17-42"

/-- C26 at a concrete request: a student sends an upload-material request
with a PDF file.  The request is answered with the 403 error and no
`study_materials` row is inserted, but the upload middleware has already
written the file and the handler leaves it in the uploads directory.  When the
insert of a teacher's upload reports an error, the handler does remove the
file it received. -/
theorem upload_denied_leaves_file :
    uploadRoute classStore student sampleMaterial (some pdfFile) "17-42" clockMorning
        Faults.none
      = (Response.error 403 "Teacher access required",
         { classStore with uploads := ["uploads/file-17-42.pdf"] }) ∧
    classStore.uploads = [] ∧
    (uploadRoute classStore student sampleMaterial (some pdfFile) "17-42" clockMorning
        Faults.none).2.study_materials = classStore.study_materials ∧
    uploadRoute classStore teacher sampleMaterial (some pdfFile) "17-42" clockMorning
        { getErr := false, runErr := true }
      = (Response.error 500 "Database error", classStore) := by
  decide

/-- C27 at a concrete file: the filter accepts `report.docm` sent with the
MIME type `application/vnd.ms-word.document.macroEnabled.12`, since both texts
contain `doc`; its lower-cased extension `.docm` is none of the eight
extensions.  The upload of the teacher goes through and the file is stored. -/
theorem fileFilter_accepts_docm :
    fileFilter docmFile = true ∧
    toLowerCase (extname docmFile.originalname) = ".docm" ∧
    ".docm" ∉ [".pdf", ".doc", ".docx", ".txt", ".jpg", ".jpeg", ".png", ".gif"] ∧
    (uploadRoute classStore teacher sampleMaterial (some docmFile) "17-42" clockMorning
        Faults.none).1 = Response.created "Study material uploaded successfully" 3 ∧
    (uploadRoute classStore teacher sampleMaterial (some docmFile) "17-42" clockMorning
        Faults.none).2.uploads = ["uploads/file-17-42.docm"] := by
  decide

/-! ## Lemmas on negative durations -/

theorem negative_hours_text (h : Int) (h1 : -100 ≤ h) (h2 : h ≤ -1) :
    padStart (toString h) 2 '0' = toString h ∧
    ∃ c rest, (toString h).data = '-' :: c :: rest ∧ c ≠ '-' := by
  interval_cases h <;> exact ⟨rfl, _, _, rfl, by decide⟩

theorem twoDigits_head (a : Nat) (ha : a < 100) :
    ∃ c rest, (twoDigits a).data = c :: rest ∧ c ≠ '-' := by
  have hq : a / 10 < 10 := by omega
  refine ⟨Char.ofNat (48 + a / 10), [Char.ofNat (48 + a % 10)], rfl, ?_⟩
  generalize a / 10 = q at hq
  interval_cases q <;> decide

/-- C28: for a check-in time `ci` and a check-out time `co`, both present,
whose `Date`s have the time values `a` and `b` with `b` earlier than `a` (by
no more than a hundred hours, as on any one day), `calculateHoursWorked`
returns a text: its hours field is the decimal text of a negative number `h`,
the hours from `a` to `b` rounded down, followed by `:` and the minutes field;
the text is not the sentinel `--:--` and is no zero-padded two-digit `HH:MM`,
as its first character is the minus sign.  With a `Date` that reads the texts
`HH:MM:SS` on a day whose clocks are not changed, this is so whenever the time
of day of `co` is earlier than that of `ci`, and check-in 10:30:00 and
check-out 10:00:00 give `-1:-30`. -/
theorem calculateHoursWorked_earlier_check_out (date : String → Option Int) (nowMs : Int)
    (ci co : String) (a b : Int) (hci : ci ≠ "") (hco : co ≠ "")
    (ha : date ci = some a) (hb : date co = some b) (hlt : b < a)
    (hday : a - b ≤ 100 * 60 * 60 * 1000) :
    (∃ h m : Int, h < 0 ∧ h = Int.fdiv (b - a) (1000 * 60 * 60) ∧
      calculateHoursWorked date nowMs (some ci) (some co)
        = toString h ++ ":" ++ padStart (toString m) 2 '0') ∧
    calculateHoursWorked date nowMs (some ci) (some co) ≠ "--:--" ∧
    (∀ p q : Nat, p < 100 →
      calculateHoursWorked date nowMs (some ci) (some co)
        ≠ twoDigits p ++ ":" ++ twoDigits q) ∧
    (∀ (c1 c2 : String) (x y : TimeOfDay), parseTimeOfDay c1 = some x →
      parseTimeOfDay c2 = some y → x.inRange = true → y.inRange = true → y.toMs < x.toMs →
      (∃ h m : Int, h < 0 ∧
        calculateHoursWorked (localDate noShift) nowMs (some c1) (some c2)
          = toString h ++ ":" ++ padStart (toString m) 2 '0') ∧
      calculateHoursWorked (localDate noShift) nowMs (some c1) (some c2) ≠ "--:--" ∧
      ∀ p q : Nat, p < 100 →
        calculateHoursWorked (localDate noShift) nowMs (some c1) (some c2)
          ≠ twoDigits p ++ ":" ++ twoDigits q) ∧
    calculateHoursWorked (localDate noShift) nowMs (some "10:30:00") (some "10:00:00")
      = "-1:-30" := by
  have key : ∀ (d : String → Option Int) (c1 c2 : String) (p q : Int), c1 ≠ "" → c2 ≠ "" →
      d c1 = some p → d c2 = some q → q < p → p - q ≤ 100 * 60 * 60 * 1000 →
      Int.fdiv (q - p) (1000 * 60 * 60) < 0 ∧
      calculateHoursWorked d nowMs (some c1) (some c2)
        = toString (Int.fdiv (q - p) (1000 * 60 * 60)) ++ ":" ++
          padStart (toString (Int.fdiv (Int.tmod (q - p) (1000 * 60 * 60))
            (1000 * 60))) 2 '0' ∧
      ∃ c tail, c ≠ '-' ∧
        (calculateHoursWorked d nowMs (some c1) (some c2)).data = '-' :: c :: tail := by
    intro d c1 c2 p q h1 h2 hp hq hltz hdayz
    have hend : endTime d nowMs (some c2) = some q := by
      simp [endTime, truthy, h2, hq]
    have hdiv : Int.fdiv (q - p) (1000 * 60 * 60) = (q - p) / 3600000 := by
      rw [Int.fdiv_eq_ediv _ (by norm_num)]
      norm_num
    have hlo : -100 ≤ Int.fdiv (q - p) (1000 * 60 * 60) := by
      rw [hdiv]; omega
    have hhi : Int.fdiv (q - p) (1000 * 60 * 60) ≤ -1 := by
      rw [hdiv]; omega
    obtain ⟨hpad, c, rest, hdata, hc⟩ :=
      negative_hours_text (Int.fdiv (q - p) (1000 * 60 * 60)) hlo hhi
    have hres : calculateHoursWorked d nowMs (some c1) (some c2)
        = toString (Int.fdiv (q - p) (1000 * 60 * 60)) ++ ":" ++
          padStart (toString (Int.fdiv (Int.tmod (q - p) (1000 * 60 * 60))
            (1000 * 60))) 2 '0' := by
      rw [calculateHoursWorked_dates d nowMs c1 (some c2) p q h1 hp hend, hpad]
    have hd : ∃ tail, (calculateHoursWorked d nowMs (some c1) (some c2)).data
        = '-' :: c :: tail := by
      rw [hres]
      simp only [String.data_append, hdata]
      exact ⟨_, rfl⟩
    obtain ⟨tail, htail⟩ := hd
    exact ⟨by omega, hres, c, tail, hc, htail⟩
  have shape : ∀ (d : String → Option Int) (c1 c2 : String) (c : Char) (tail : List Char),
      c ≠ '-' → (calculateHoursWorked d nowMs (some c1) (some c2)).data = '-' :: c :: tail →
      calculateHoursWorked d nowMs (some c1) (some c2) ≠ "--:--" ∧
      ∀ p q : Nat, p < 100 →
        calculateHoursWorked d nowMs (some c1) (some c2)
          ≠ twoDigits p ++ ":" ++ twoDigits q := by
    intro d c1 c2 c tail hc htail
    refine ⟨?_, ?_⟩
    · intro h
      have hd := congrArg String.data h
      rw [htail] at hd
      have h2 : c = '-' := by
        have := List.cons.inj hd
        exact (List.cons.inj this.2).1
      exact hc h2
    · intro p q hp h
      obtain ⟨c2, rest2, hdata2, hc2⟩ := twoDigits_head p hp
      have hd := congrArg String.data h
      rw [htail] at hd
      simp only [String.data_append, hdata2] at hd
      have h1 : '-' = c2 := (List.cons.inj hd).1
      exact hc2 h1.symm
  obtain ⟨hneg, hres, c, tail, hc, htail⟩ := key date ci co a b hci hco ha hb hlt hday
  have hex : calculateHoursWorked (localDate noShift) nowMs (some "10:30:00")
      (some "10:00:00") = "-1:-30" := by
    have hout : localDate noShift "10:00:00" = some 36000000 := by decide
    have he : endTime (localDate noShift) nowMs (some "10:00:00") = some 36000000 := by
      simp [endTime, truthy, hout]
    rw [calculateHoursWorked_dates (localDate noShift) nowMs "10:30:00" _ 37800000 36000000
      (by decide) (by decide) he]
    decide
  refine ⟨⟨_, _, hneg, rfl, hres⟩, (shape date ci co c tail hc htail).1,
    (shape date ci co c tail hc htail).2, ?_, hex⟩
  intro c1 c2 x y hx hy hxr hyr hxy
  have hbx := toMs_bounds x hxr
  have hby := toMs_bounds y hyr
  obtain ⟨hn, hr, c3, tail3, hc3, htail3⟩ := key (localDate noShift) c1 c2 x.toMs y.toMs
    (parseTimeOfDay_ne_empty c1 x hx) (parseTimeOfDay_ne_empty c2 y hy)
    (localDate_noShift c1 x hx hxr) (localDate_noShift c2 y hy hyr) hxy (by omega)
  exact ⟨⟨_, _, hn, hr⟩, shape (localDate noShift) c1 c2 c3 tail3 hc3 htail3⟩

theorem calculateHoursWorked_earlier_check_out_witness :
    (∃ h m : Int, h < 0 ∧ h = Int.fdiv (3600000 - 10800000) (1000 * 60 * 60) ∧
      calculateHoursWorked (localDate springForward) 0 (some "04:00:00") (some "01:00:00")
        = toString h ++ ":" ++ padStart (toString m) 2 '0') ∧
    calculateHoursWorked (localDate springForward) 0 (some "04:00:00") (some "01:00:00")
      ≠ "--:--" ∧
    (∀ p q : Nat, p < 100 →
      calculateHoursWorked (localDate springForward) 0 (some "04:00:00") (some "01:00:00")
        ≠ twoDigits p ++ ":" ++ twoDigits q) ∧
    (∀ (c1 c2 : String) (x y : TimeOfDay), parseTimeOfDay c1 = some x →
      parseTimeOfDay c2 = some y → x.inRange = true → y.inRange = true → y.toMs < x.toMs →
      (∃ h m : Int, h < 0 ∧
        calculateHoursWorked (localDate noShift) 0 (some c1) (some c2)
          = toString h ++ ":" ++ padStart (toString m) 2 '0') ∧
      calculateHoursWorked (localDate noShift) 0 (some c1) (some c2) ≠ "--:--" ∧
      ∀ p q : Nat, p < 100 →
        calculateHoursWorked (localDate noShift) 0 (some c1) (some c2)
          ≠ twoDigits p ++ ":" ++ twoDigits q) ∧
    calculateHoursWorked (localDate noShift) 0 (some "10:30:00") (some "10:00:00")
      = "-1:-30" :=
  calculateHoursWorked_earlier_check_out (localDate springForward) 0 "04:00:00" "01:00:00"
    10800000 3600000 (by decide) (by decide) (by decide) (by decide) (by decide) (by decide)

/-- C29: for a requester whose role is `teacher` or `admin`, an add-marks
request whose `marks_obtained` is the number 0 is answered with the 400 error
`All fields are required` and the store, the `student_marks` table included, is
the one before the request, whatever the other fields are and whatever the
statements would report: a score of zero is not recorded. -/
theorem addMarks_zero_rejected (s : Store) (user : Principal) (body : MarksBody) (clk : Clock)
    (f : Faults) (hrole : user.role = "teacher" ∨ user.role = "admin")
    (hzero : body.marks_obtained = some 0) :
    addMarks s user body clk f = (Response.error 400 "All fields are required", s) ∧
    (addMarks s user body clk f).2.student_marks = s.student_marks := by
  have hnot : ¬ (user.role ≠ "teacher" ∧ user.role ≠ "admin") := by
    rintro ⟨h1, h2⟩
    rcases hrole with h | h
    · exact h1 h
    · exact h2 h
  have e : addMarks s user body clk f = (Response.error 400 "All fields are required", s) := by
    simp [addMarks, hnot, hzero, truthyInt]
  exact ⟨e, by rw [e]⟩

theorem addMarks_zero_rejected_witness :
    addMarks classStore teacher
        { student_id := some 3, subject := some "Algebra", exam_type := some "quiz",
          marks_obtained := some 0, total_marks := some 10 } clockMorning Faults.none
      = (Response.error 400 "All fields are required", classStore) ∧
    (addMarks classStore teacher
        { student_id := some 3, subject := some "Algebra", exam_type := some "quiz",
          marks_obtained := some 0, total_marks := some 10 } clockMorning
        Faults.none).2.student_marks = classStore.student_marks :=
  addMarks_zero_rejected classStore teacher _ clockMorning Faults.none (Or.inl rfl) rfl

theorem selectUserById_none (users : List User) (userId : Nat)
    (h : ∀ u ∈ users, u.id ≠ userId) : selectUserById users userId = Option.none := by
  unfold selectUserById
  rw [List.find?_eq_none]
  intro u hu hp
  exact h u hu (by simpa using hp)

/-- C30: for the create-notice, create-event, add-marks and upload-material
handlers.  When the `users` table has a row with the id of the credential,
every request gets a response: the callback of the class lookup does not throw.
When it has no such row (the principal was deleted after the credential was
issued), a request by a teacher or admin credential that passes the field
checks, with a lookup that reports no error, gets no response: the callback
reads `class_id` of no row and throws, and the store is left as it was. -/
theorem class_lookup_defined (s : Store) (user : Principal) (clk : Clock) (f : Faults)
    (nb : NoticeBody) (eb : EventBody) (kb : MarksBody) (mb : MaterialBody)
    (file : Option UploadedFile) :
    ((∃ u ∈ s.users, u.id = user.id) →
      (createNotice s user nb clk f).1 ≠ Response.uncaught ∧
      (createEvent s user eb clk f).1 ≠ Response.uncaught ∧
      (addMarks s user kb clk f).1 ≠ Response.uncaught ∧
      (uploadMaterial s user mb file clk f).1 ≠ Response.uncaught) ∧
    ((∀ u ∈ s.users, u.id ≠ user.id) → user.role = "teacher" ∨ user.role = "admin" →
      f.getErr = false →
      (truthy nb.title = true → truthy nb.content = true →
        createNotice s user nb clk f = (Response.uncaught, s)) ∧
      (truthy eb.title = true → truthy eb.event_date = true →
        createEvent s user eb clk f = (Response.uncaught, s)) ∧
      (truthyNat kb.student_id = true → truthy kb.subject = true →
        truthy kb.exam_type = true → truthyInt kb.marks_obtained = true →
        truthyInt kb.total_marks = true →
        addMarks s user kb clk f = (Response.uncaught, s)) ∧
      (truthy mb.title = true →
        uploadMaterial s user mb file clk f = (Response.uncaught, s))) := by
  refine ⟨?_, ?_⟩
  · intro hex
    obtain ⟨v, hv⟩ := selectUserById_isSome s.users user.id hex
    refine ⟨?_, ?_, ?_, ?_⟩
    · simp only [createNotice, hv]
      split_ifs <;> simp
    · simp only [createEvent, hv]
      split_ifs <;> simp
    · simp only [addMarks, hv]
      split_ifs <;> simp
    · simp only [uploadMaterial, hv]
      split_ifs <;> simp
  · intro hnone hrole hget
    have hsel := selectUserById_none s.users user.id hnone
    have hnot : ¬ (user.role ≠ "teacher" ∧ user.role ≠ "admin") := by
      rintro ⟨h1, h2⟩
      rcases hrole with h | h
      · exact h1 h
      · exact h2 h
    refine ⟨?_, ?_, ?_, ?_⟩
    · intro h1 h2
      simp [createNotice, hnot, h1, h2, hget, hsel]
    · intro h1 h2
      simp [createEvent, hnot, h1, h2, hget, hsel]
    · intro h1 h2 h3 h4 h5
      simp [addMarks, hnot, h1, h2, h3, h4, h5, hget, hsel]
    · intro h1
      simp [uploadMaterial, hnot, h1, hget, hsel]

theorem class_lookup_defined_witness :
    ((createNotice classStore teacher sampleNotice clockMorning Faults.none).1
        ≠ Response.uncaught ∧
      (createEvent classStore teacher sampleEvent clockMorning Faults.none).1
        ≠ Response.uncaught ∧
      (addMarks classStore teacher (marksBodyFor 3) clockMorning Faults.none).1
        ≠ Response.uncaught ∧
      (uploadMaterial classStore teacher sampleMaterial Option.none clockMorning
        Faults.none).1 ≠ Response.uncaught) ∧
    (createNotice (deleteUser classStore admin "2" Faults.none).2 teacher sampleNotice
        clockMorning Faults.none
      = (Response.uncaught, (deleteUser classStore admin "2" Faults.none).2)) :=
  ⟨(class_lookup_defined classStore teacher clockMorning Faults.none sampleNotice sampleEvent
      (marksBodyFor 3) sampleMaterial Option.none).1 (by decide),
   ((class_lookup_defined (deleteUser classStore admin "2" Faults.none).2 teacher clockMorning
      Faults.none sampleNotice sampleEvent (marksBodyFor 3) sampleMaterial Option.none).2
      (by decide) (Or.inl rfl) rfl).1 (by decide) (by decide)⟩

end AttendanceSystem
